import Mathlib

/-!
# Chat-room bindings of the RongCloud SDK (`sdk/chatroom.go`)

A shallow embedding of the chat-room operations.  Every operation of the Go file
is a function of the client `rc` and its arguments that returns an `Outcome`:
the requests it handed to the transport, the value it returned and the error it
returned.  A request records the calls of `req.Param` in call order.

The collaborators that live outside `chatroom.go` (the transport `rc.do`, the
`httplib` request methods, `encoding/json`, the constant `ReqType`) are fields
of the client record, so every theorem holds for each behaviour they can have.
Debug output written with `fmt.Println` is not part of the model.
-/

set_option autoImplicit false

namespace sdk

/-! ## Go values -/

/-- A response body or any other `[]byte`. -/
abbrev Bytes := String

/-- The Go `len` of a string: its number of bytes. -/
def len (s : String) : Nat := s.utf8ByteSize

/-- Wrap an integer into the range of the 64-bit Go `int`. -/
def int64 (i : Int) : Int := (i + 2 ^ 63) % 2 ^ 64 - 2 ^ 63

/-- The conversion `int(minute)` of a Go `uint` (64 bits) into `int`. -/
def intOfUint (n : Nat) : Int := int64 (Int.ofNat (n % 2 ^ 64))

/-- The function `strconv.Itoa`: the decimal text of an `int`. -/
def strconv.Itoa (i : Int) : String :=
  if i < 0 then "-" ++ Nat.repr i.natAbs else Nat.repr i.natAbs

/-- The function `strconv.FormatBool`. -/
def strconv.FormatBool (b : Bool) : String :=
  if b then "true" else "false"

/-- A value of the Go type `interface{}`, as far as JSON data needs it;
`other` stands for every value of another dynamic type. -/
inductive GoValue where
  | nil
  | bool (b : Bool)
  | float64 (q : Rat)
  | string (s : String)
  | slice (xs : List GoValue)
  | map (kv : List (String × GoValue))
  | other (desc : String)

/-- A Go `map[string]interface{}`: the list of its entries, keys distinct. -/
abbrev GoMap := List (String × GoValue)

/-- The index expression `m[key]` of a `map[string]interface{}`: the value
stored under the key, `nil` when the key is absent. -/
def GoMap.index (m : GoMap) (key : String) : GoValue :=
  match m.lookup key with
  | some v => v
  | none => GoValue.nil

/-! ## Errors -/

/-- Modelled from the spec: `CodeResult` is declared in a file of the repository
that is not part of the sources at hand; section 4.4 describes it as the
minimal `{code, message}` envelope of a response. -/
structure CodeResult where
  Code : Int := 0
  Message : String := ""
deriving DecidableEq, Repr

/-- A Go `error` value.  `rcError` is what `RCErrorNew` builds, `codeResult` is
a `CodeResult` returned as an error, the other constructors are the errors of
the transport and of `encoding/json`. -/
inductive Error where
  | rcError (code : Int) (text : String)
  | codeResult (c : CodeResult)
  | transport (text : String)
  | decode (text : String)
  | marshal (text : String)
deriving DecidableEq, Repr

/-- Modelled from the spec: `RCErrorNew` is defined in a file of the repository
that is not part of the sources at hand; section 7 says a validation error
carries a fixed code and the name of the missing or invalid parameter. -/
def RCErrorNew (code : Int) (text : String) : Error := Error.rcError code text

/-- The code carried by a validation error, `none` for every other error. -/
def Error.validationCode : Error → Option Int
  | Error.rcError code _ => some code
  | _ => none

/-! ## Requests -/

/-- A `httplib.BeegoHTTPRequest` as this file uses it: the target, the two
timeouts (nanoseconds), the headers and the `Param` calls in call order. -/
structure Request where
  method : String
  url : String
  connectTimeout : Int
  readWriteTimeout : Int
  header : List (String × String)
  params : List (String × String)
deriving DecidableEq, Repr

/-- The constant `time.Second`, in nanoseconds. -/
def time.Second : Int := 1000000000

/-- The constructor `httplib.Post`: a POST request with the default timeouts of
the library (60 seconds) and no parameter. -/
def httplib.Post (url : String) : Request :=
  { method := "POST", url := url, connectTimeout := 60 * time.Second,
    readWriteTimeout := 60 * time.Second, header := [], params := [] }

/-- The method `req.SetTimeout`. -/
def Request.SetTimeout (req : Request) (connectTimeout readWriteTimeout : Int) : Request :=
  { req with connectTimeout := connectTimeout, readWriteTimeout := readWriteTimeout }

/-- The method `req.Param`: one more form field, after those already set. -/
def Request.Param (req : Request) (key value : String) : Request :=
  { req with params := req.params ++ [(key, value)] }

/-- A loop `for _, v := range vs { req.Param(key, v) }`. -/
def Request.ParamEach (req : Request) (key : String) (vs : List String) : Request :=
  vs.foldl (fun r v => r.Param key v) req

/-- The values of the form fields with the given key, in request order. -/
def Request.values (req : Request) (key : String) : List String :=
  (req.params.filter (fun p => p.1 == key)).map Prod.snd

/-- The keys of the form fields of a request, in request order. -/
def Request.keys (req : Request) : List String :=
  req.params.map Prod.fst

/-! ## Response shapes -/

/-- The struct `ChatRoomInfo`. -/
structure ChatRoomInfo where
  ID : String := ""
  Name : String := ""
deriving DecidableEq, Repr

/-- The struct `ChatRoom`. -/
structure ChatRoom where
  ChatRoomID : String := ""
  Name : String := ""
  Time : String := ""
deriving DecidableEq, Repr

/-- The struct `ChatRoomQueryResult`. -/
structure ChatRoomQueryResult where
  ChatRooms : List ChatRoom := []
deriving DecidableEq, Repr

/-- The struct `ChatRoomUser`. -/
structure ChatRoomUser where
  ID : String := ""
  UserID : String := ""
  Time : String := ""
  IsInChrm : Int := 0
deriving DecidableEq, Repr

/-- The struct `ChatRoomResult`. -/
structure ChatRoomResult where
  Total : Int := 0
  Users : List ChatRoomUser := []
  Result : List ChatRoomUser := []
  ObjectNames : List String := []
  ChatRoomIDs : List String := []
  WhitelistMsgType : List String := []
deriving DecidableEq, Repr

/-- The struct `ChatRoomGetResult`. -/
structure ChatRoomGetResult where
  Code : Int := 0
  ChatroomId : String := ""
  CreateTime : Int := 0
  MemberCount : Int := 0
  DestroyType : Int := 0
  DestroyTime : Int := 0
  IsBan : Bool := false
deriving DecidableEq, Repr

/-- The struct `ChatRoomAttr`. -/
structure ChatRoomAttr where
  Key : String := ""
  Value : String := ""
  UserID : String := ""
  AutoDelete : String := ""
  LastSetTime : String := ""
deriving DecidableEq, Repr

/-- The struct `ChatRoomAttrResult`. -/
structure ChatRoomAttrResult where
  Keys : List ChatRoomAttr := []
deriving DecidableEq, Repr

/-- The struct `ChatUserExistObj`. -/
structure ChatUserExistObj where
  Code : Int := 0
  IsInChrm : Bool := false
deriving DecidableEq, Repr

/-- The anonymous struct `{Code, Status}` decoded by `ChatRoomBanCheck`. -/
structure BanCheckData where
  Code : Int := 0
  Status : Int := 0
deriving DecidableEq, Repr

/-- The anonymous struct `{Code, UserIds}` decoded by
`ChatRoomUserBanWhitelistQuery`. -/
structure BanWhitelistData where
  Code : Int := 0
  UserIds : List String := []
deriving DecidableEq, Repr

/-! ## Options -/

/-- The struct `chatroomOptions`: extra options for a chat room. -/
structure chatroomOptions where
  needNotify : Bool
  extra : String
  destroyType : Int
  destroyTime : Int
  isBan : Bool
  whiteUserIds : List String
  entryOwnerId : String
  entryInfo : GoMap

/-- The type `ChatroomOption`: a function that updates the options in place. -/
abbrev ChatroomOption := chatroomOptions → chatroomOptions

/-- The setter `WithChatroomNeedNotify`. -/
def WithChatroomNeedNotify (isNeedNotify : Bool) : ChatroomOption :=
  fun options => { options with needNotify := isNeedNotify }

/-- The setter `WithChatroomExtra`. -/
def WithChatroomExtra (extra : String) : ChatroomOption :=
  fun options => { options with extra := extra }

/-- The setter `WithChatroomDestroyType`. -/
def WithChatroomDestroyType (destroyType : Int) : ChatroomOption :=
  fun options => { options with destroyType := destroyType }

/-- The setter `WithChatroomDestroyTime`. -/
def WithChatroomDestroyTime (destroyTime : Int) : ChatroomOption :=
  fun options => { options with destroyTime := destroyTime }

/-- The setter `WithChatroomIsBan`. -/
def WithChatroomIsBan (isBan : Bool) : ChatroomOption :=
  fun options => { options with isBan := isBan }

/-- The setter `WithChatroomWhiteUserIds`. -/
def WithChatroomWhiteUserIds (whiteUserIds : List String) : ChatroomOption :=
  fun options => { options with whiteUserIds := whiteUserIds }

/-- The setter `WithChatroomEntryOwnerId`. -/
def WithChatroomEntryOwnerId (entryOwnerId : String) : ChatroomOption :=
  fun options => { options with entryOwnerId := entryOwnerId }

/-- The setter `WithChatroomEntryInfo`. -/
def WithChatroomEntryInfo (entryInfo : GoMap) : ChatroomOption :=
  fun options => { options with entryInfo := entryInfo }

/-- The value `defaultOptions` that `modifyChatroomOptions` starts from. -/
def defaultOptions : chatroomOptions :=
  { needNotify := false, extra := "", destroyType := 0, destroyTime := 60,
    isBan := false, whiteUserIds := [], entryOwnerId := "", entryInfo := [] }

/-- The function `modifyChatroomOptions`: every option applied in turn to the
default options. -/
def modifyChatroomOptions (options : List ChatroomOption) : chatroomOptions :=
  options.foldl (fun acc ext => ext acc) defaultOptions

/-! ## The client -/

/-- The result of a decoding call `json.Unmarshal(data, &v)`: the target after
the call and the error of the call. -/
abbrev Decoder (α : Type) := Bytes → α → α × Option Error

/-- The package `encoding/json` as `chatroom.go` uses it: `Marshal` on an
attribute map and `Unmarshal` into each of the response shapes. -/
structure JSON where
  Marshal : GoMap → Bytes × Option Error
  UnmarshalChatUserExistObj : Decoder ChatUserExistObj
  UnmarshalChatRoomGetResult : Decoder ChatRoomGetResult
  UnmarshalChatRoomResult : Decoder ChatRoomResult
  UnmarshalChatRoomAttrResult : Decoder ChatRoomAttrResult
  UnmarshalChatRoomQueryResult : Decoder ChatRoomQueryResult
  UnmarshalCodeResult : Decoder CodeResult
  UnmarshalMap : Decoder GoMap
  UnmarshalBanCheckData : Decoder BanCheckData
  UnmarshalBanWhitelistData : Decoder BanWhitelistData

/-- The client `RongCloud` with what `chatroom.go` reads from it and from its
package: the fields `rongCloudURI` and `timeout`, the constant `ReqType`, the
headers that `fillHeader` injects, the transport `do`, the request methods
`Response` and `Bytes` of `httplib`, and `encoding/json`.  The hooks
`urlError` and `checkStatusCode` return nothing and do not appear. -/
structure RongCloud where
  rongCloudURI : String
  timeout : Int
  ReqType : String
  headers : List (String × String)
  do_ : Request → Bytes × Option Error
  Response : Request → Option Error
  Bytes : Request → Bytes × Option Error
  json : JSON

/-- Modelled from the spec: `fillHeader` is defined in a file of the repository
that is not part of the sources at hand; section 6 says it injects the headers
of the request (authentication signature, content type) and nothing else. -/
def RongCloud.fillHeader (rc : RongCloud) (req : Request) : Request :=
  { req with header := req.header ++ rc.headers }

/-- The three opening statements of every operation: `httplib.Post(url)`,
`req.SetTimeout(time.Second*rc.timeout, time.Second*rc.timeout)` and
`rc.fillHeader(req)`. -/
def RongCloud.newRequest (rc : RongCloud) (url : String) : Request :=
  rc.fillHeader
    ((httplib.Post url).SetTimeout (int64 (time.Second * rc.timeout))
      (int64 (time.Second * rc.timeout)))

/-- What a call of an operation did: the requests handed to the transport, in
order, the value returned and the error returned (`none` for `nil`). -/
structure Outcome (α : Type) where
  sent : List Request
  value : α
  err : Option Error

/-- A call that either returns or panics at run time after having handed some
requests to the transport. -/
inductive Run (α : Type) where
  | returned (o : Outcome α)
  | panicked (sent : List Request)

/-- The closing statements of an operation that returns only an error:
`_, err := rc.do(req)`, the call of the hook `rc.urlError(err)` when `err` is
not nil, and `return err`. -/
def RongCloud.send (rc : RongCloud) (req : Request) : Outcome Unit :=
  { sent := [req], value := (), err := (rc.do_ req).2 }

/-- The block `if extOptions.needNotify { req.Param("needNotify", ...);
req.Param("extra", extOptions.extra) }`. -/
def Request.ParamNotify (req : Request) (extOptions : chatroomOptions) : Request :=
  if extOptions.needNotify then
    (req.Param "needNotify" (strconv.FormatBool extOptions.needNotify)).Param "extra"
      extOptions.extra
  else req

/-! ## Operations: existence, creation, destruction -/

/-- The operation `ChatUserExistResObj`. -/
def ChatUserExistResObj (rc : RongCloud) (chatroomId userId : String) :
    Outcome ChatUserExistObj :=
  let result : ChatUserExistObj := {}
  if len chatroomId = 0 then
    { sent := [], value := result, err := some (RCErrorNew 1002 "Paramer 'chatroomId' is required") }
  else if len userId = 0 then
    { sent := [], value := result, err := some (RCErrorNew 1002 "Paramer 'userId' is required") }
  else
    let req := rc.newRequest (rc.rongCloudURI ++ "/chatroom/user/exist.json")
    let req := req.Param "chatroomId" chatroomId
    let req := req.Param "userId" userId
    match rc.do_ req with
    | (_, some err) => { sent := [req], value := result, err := some err }
    | (res, none) =>
      match rc.json.UnmarshalChatUserExistObj res result with
      | (result, some err) => { sent := [req], value := result, err := some err }
      | (result, none) => { sent := [req], value := result, err := none }

/-- The operation `ChatUserExist`. -/
def ChatUserExist (rc : RongCloud) (chatroomId userId : String) : Outcome Bytes :=
  if len chatroomId = 0 then
    { sent := [], value := "", err := some (RCErrorNew 1002 "Paramer 'chatroomId' is required") }
  else if len userId = 0 then
    { sent := [], value := "", err := some (RCErrorNew 1002 "Paramer 'userId' is required") }
  else
    let req := rc.newRequest (rc.rongCloudURI ++ "/chatroom/user/exist.json")
    let req := req.Param "chatroomId" chatroomId
    let req := req.Param "userId" userId
    { sent := [req], value := (rc.do_ req).1, err := (rc.do_ req).2 }

/-- The operation `ChatRoomCreate`. -/
def ChatRoomCreate (rc : RongCloud) (id name : String) : Outcome Unit :=
  if id = "" then
    { sent := [], value := (), err := some (RCErrorNew 1002 "Paramer 'id' is required") }
  else if name = "" then
    { sent := [], value := (), err := some (RCErrorNew 1002 "Paramer 'name' is required") }
  else
    let req := rc.newRequest (rc.rongCloudURI ++ "/chatroom/create." ++ rc.ReqType)
    let req := req.Param ("chatroom[" ++ id ++ "]") name
    rc.send req

/-- The operation `ChatRoomCreateNew`. -/
def ChatRoomCreateNew (rc : RongCloud) (chatroomId : String) (options : List ChatroomOption) :
    Outcome Unit :=
  if chatroomId = "" then
    { sent := [], value := (), err := some (RCErrorNew 1002 "Paramer 'chatroomId' is required") }
  else
    let extOptions := modifyChatroomOptions options
    let req := rc.newRequest (rc.rongCloudURI ++ "/chatroom/create_new." ++ rc.ReqType)
    let req := req.Param "chatroomId" chatroomId
    let req := req.Param "destroyType" (strconv.Itoa extOptions.destroyType)
    let req := req.Param "destroyTime" (strconv.Itoa extOptions.destroyTime)
    let req := req.Param "isBan" (strconv.FormatBool extOptions.isBan)
    let req := req.ParamEach "whiteUserIds" extOptions.whiteUserIds
    let req :=
      if "" ≠ extOptions.entryOwnerId then req.Param "entryOwnerId" extOptions.entryOwnerId
      else req
    if extOptions.entryInfo.length > 0 then
      match rc.json.Marshal extOptions.entryInfo with
      | (_, some err) => { sent := [], value := (), err := some err }
      | (entryInfo, none) => rc.send (req.Param "entryInfo" entryInfo)
    else rc.send req

/-- The operation `ChatRoomDestroySet`. -/
def ChatRoomDestroySet (rc : RongCloud) (chatroomId : String) (destroyType destroyTime : Int) :
    Outcome Unit :=
  if chatroomId = "" then
    { sent := [], value := (), err := some (RCErrorNew 1002 "Paramer 'chatroomId' is required") }
  else
    let req := rc.newRequest (rc.rongCloudURI ++ "/chatroom/destroy/set." ++ rc.ReqType)
    let req := req.Param "chatroomId" chatroomId
    let req := req.Param "destroyType" (strconv.Itoa destroyType)
    let req := req.Param "destroyTime" (strconv.Itoa destroyTime)
    rc.send req

/-- The operation `ChatRoomGetNew`. -/
def ChatRoomGetNew (rc : RongCloud) (chatroomId : String) : Outcome ChatRoomGetResult :=
  if chatroomId = "" then
    { sent := [], value := {}, err := some (RCErrorNew 1002 "Paramer 'chatroomId' is required") }
  else
    let req := rc.newRequest (rc.rongCloudURI ++ "/chatroom/get." ++ rc.ReqType)
    let req := req.Param "chatroomId" chatroomId
    match rc.do_ req with
    | (_, some err) => { sent := [req], value := {}, err := some err }
    | (resp, none) =>
      match rc.json.UnmarshalChatRoomGetResult resp {} with
      | (_, some err) => { sent := [req], value := {}, err := some err }
      | (dat, none) => { sent := [req], value := dat, err := none }

/-- The operation `ChatRoomEntryBatchSet`. -/
def ChatRoomEntryBatchSet (rc : RongCloud) (chatroomId : String) (autoDelete : Int)
    (entryOwnerId : String) (entryInfo : GoMap) : Outcome Unit :=
  if chatroomId = "" then
    { sent := [], value := (), err := some (RCErrorNew 1002 "Paramer 'chatroomId' is required") }
  else if entryOwnerId = "" then
    { sent := [], value := (), err := some (RCErrorNew 1002 "Paramer 'entryOwnerId' is required") }
  else if entryInfo.length < 1 then
    { sent := [], value := (), err := some (RCErrorNew 1002 "Paramer 'entryInfo' is required") }
  else
    let req := rc.newRequest (rc.rongCloudURI ++ "/chatroom/entry/batch/set." ++ rc.ReqType)
    let req := req.Param "chatroomId" chatroomId
    let req := req.Param "autoDelete" (strconv.Itoa autoDelete)
    let req := req.Param "entryOwnerId" entryOwnerId
    match rc.json.Marshal entryInfo with
    | (_, some e) => { sent := [], value := (), err := some e }
    | (entryInfoJson, none) => rc.send (req.Param "entryInfo" entryInfoJson)

/-- The operation `ChatRoomDestroy`. -/
def ChatRoomDestroy (rc : RongCloud) (id : String) : Outcome Unit :=
  if id = "" then
    { sent := [], value := (), err := some (RCErrorNew 1002 "Paramer 'id' is required") }
  else
    let req := rc.newRequest (rc.rongCloudURI ++ "/chatroom/destroy." ++ rc.ReqType)
    let req := req.Param "chatroomId" id
    rc.send req

/-- The operation `ChatRoomGet`. -/
def ChatRoomGet (rc : RongCloud) (id : String) (count order : Int) : Outcome ChatRoomResult :=
  if id = "" then
    { sent := [], value := {}, err := some (RCErrorNew 1002 "Paramer 'id' is required") }
  else if count ≤ 0 then
    { sent := [], value := {}, err := some (RCErrorNew 1002 "Paramer 'count' is required") }
  else if order ≤ 0 then
    { sent := [], value := {}, err := some (RCErrorNew 1002 "Paramer 'order' is required") }
  else
    let req := rc.newRequest (rc.rongCloudURI ++ "/chatroom/user/query." ++ rc.ReqType)
    let req := req.Param "chatroomId" id
    let req := req.Param "count" (strconv.Itoa count)
    let req := req.Param "order" (strconv.Itoa order)
    match rc.do_ req with
    | (_, some err) => { sent := [req], value := {}, err := some err }
    | (resp, none) =>
      match rc.json.UnmarshalChatRoomResult resp {} with
      | (_, some err) => { sent := [req], value := {}, err := some err }
      | (dat, none) => { sent := [req], value := dat, err := none }

/-- The operation `ChatRoomIsExist`. -/
def ChatRoomIsExist (rc : RongCloud) (id : String) (members : List String) :
    Outcome (List ChatRoomUser) :=
  if id = "" then
    { sent := [], value := [], err := some (RCErrorNew 1002 "Paramer 'id' is required") }
  else if members.length = 0 then
    { sent := [], value := [], err := some (RCErrorNew 1002 "Paramer 'count' is required") }
  else
    let req := rc.newRequest (rc.rongCloudURI ++ "/chatroom/users/exist." ++ rc.ReqType)
    let req := req.Param "chatroomId" id
    let req := req.ParamEach "userId" members
    match rc.do_ req with
    | (_, some err) => { sent := [req], value := [], err := some err }
    | (resp, none) =>
      match rc.json.UnmarshalChatRoomResult resp {} with
      | (_, some err) => { sent := [req], value := [], err := some err }
      | (dat, none) => { sent := [req], value := dat.Result, err := none }

/-! ## Operations: block, ban, gag -/

/-- The operation `ChatRoomBlockAdd`. -/
def ChatRoomBlockAdd (rc : RongCloud) (id : String) (members : List String) (minute : Nat)
    (options : List ChatroomOption) :
    Outcome Unit :=
  if id = "" then
    { sent := [], value := (), err := some (RCErrorNew 1002 "Paramer 'id' is required") }
  else if members.length = 0 then
    { sent := [], value := (), err := some (RCErrorNew 1002 "Paramer 'members' is required") }
  else if minute = 0 then
    { sent := [], value := (), err := some (RCErrorNew 1002 "Paramer 'minute' is required") }
  else
    let extOptions := modifyChatroomOptions options
    let req := rc.newRequest (rc.rongCloudURI ++ "/chatroom/user/block/add." ++ rc.ReqType)
    let req := req.Param "chatroomId" id
    let req := req.ParamEach "userId" members
    let req := req.Param "minute" (strconv.Itoa (intOfUint minute))
    let req := req.ParamNotify extOptions
    rc.send req

/-- The operation `ChatRoomBlockRemove`. -/
def ChatRoomBlockRemove (rc : RongCloud) (id : String) (members : List String)
    (options : List ChatroomOption) :
    Outcome Unit :=
  if id = "" then
    { sent := [], value := (), err := some (RCErrorNew 1002 "Paramer 'id' is required") }
  else if members.length = 0 then
    { sent := [], value := (), err := some (RCErrorNew 1002 "Paramer 'members' is required") }
  else
    let extOptions := modifyChatroomOptions options
    let req := rc.newRequest (rc.rongCloudURI ++ "/chatroom/user/block/rollback." ++ rc.ReqType)
    let req := req.ParamEach "userId" members
    let req := req.Param "chatroomId" id
    let req := req.ParamNotify extOptions
    rc.send req

/-- The operation `ChatRoomBlockGetList`. -/
def ChatRoomBlockGetList (rc : RongCloud) (id : String) :
    Outcome (ChatRoomResult) :=
  if id = "" then
    { sent := [], value := {}, err := some (RCErrorNew 1002 "Paramer 'id' is required") }
  else
    let req := rc.newRequest (rc.rongCloudURI ++ "/chatroom/user/block/list." ++ rc.ReqType)
    let req := req.Param "chatroomId" id
    match rc.do_ req with
    | (_, some err) => { sent := [req], value := {}, err := some err }
    | (resp, none) =>
      match rc.json.UnmarshalChatRoomResult resp {} with
      | (dat, some err) => { sent := [req], value := dat, err := some err }
      | (dat, none) => { sent := [req], value := dat, err := none }

/-- The operation `ChatRoomBanAdd`. -/
def ChatRoomBanAdd (rc : RongCloud) (members : List String) (minute : Nat)
    (options : List ChatroomOption) :
    Outcome Unit :=
  if members.length = 0 then
    { sent := [], value := (), err := some (RCErrorNew 1002 "Paramer 'members' is required") }
  else if minute = 0 then
    { sent := [], value := (), err := some (RCErrorNew 1002 "Paramer 'minute' is required") }
  else
    let extOptions := modifyChatroomOptions options
    let req := rc.newRequest (rc.rongCloudURI ++ "/chatroom/user/ban/add." ++ rc.ReqType)
    let req := req.ParamEach "userId" members
    let req := req.Param "minute" (strconv.Itoa (intOfUint minute))
    let req := req.ParamNotify extOptions
    rc.send req

/-- The operation `ChatRoomBanRemove`. -/
def ChatRoomBanRemove (rc : RongCloud) (members : List String)
    (options : List ChatroomOption) :
    Outcome Unit :=
  if members.length = 0 then
    { sent := [], value := (), err := some (RCErrorNew 1002 "Paramer 'members' is required") }
  else
    let extOptions := modifyChatroomOptions options
    let req := rc.newRequest (rc.rongCloudURI ++ "/chatroom/user/ban/remove." ++ rc.ReqType)
    let req := req.ParamEach "userId" members
    let req := req.ParamNotify extOptions
    rc.send req

/-- The operation `ChatRoomBanGetList`. -/
def ChatRoomBanGetList (rc : RongCloud) :
    Outcome (List ChatRoomUser) :=
  let req := rc.newRequest (rc.rongCloudURI ++ "/chatroom/user/ban/query." ++ rc.ReqType)
  match rc.do_ req with
  | (_, some err) => { sent := [req], value := [], err := some err }
  | (resp, none) =>
    match rc.json.UnmarshalChatRoomResult resp {} with
    | (_, some err) => { sent := [req], value := [], err := some err }
    | (dat, none) => { sent := [req], value := dat.Users, err := none }

/-- The operation `ChatRoomGagAdd`. -/
def ChatRoomGagAdd (rc : RongCloud) (id : String) (members : List String) (minute : Nat)
    (options : List ChatroomOption) :
    Outcome Unit :=
  if id = "" then
    { sent := [], value := (), err := some (RCErrorNew 1002 "Paramer 'id' is required") }
  else if members.length = 0 then
    { sent := [], value := (), err := some (RCErrorNew 1002 "Paramer 'members' is required") }
  else if minute = 0 then
    { sent := [], value := (), err := some (RCErrorNew 1002 "Paramer 'minute' is required") }
  else
    let extOptions := modifyChatroomOptions options
    let req := rc.newRequest (rc.rongCloudURI ++ "/chatroom/user/gag/add." ++ rc.ReqType)
    let req := req.ParamEach "userId" members
    let req := req.Param "chatroomId" id
    let req := req.Param "minute" (strconv.Itoa (intOfUint minute))
    let req := req.ParamNotify extOptions
    rc.send req

/-- The operation `ChatRoomGagRemove`. -/
def ChatRoomGagRemove (rc : RongCloud) (id : String) (members : List String)
    (options : List ChatroomOption) :
    Outcome Unit :=
  if id = "" then
    { sent := [], value := (), err := some (RCErrorNew 1002 "Paramer 'id' is required") }
  else if members.length = 0 then
    { sent := [], value := (), err := some (RCErrorNew 1002 "Paramer 'members' is required") }
  else
    let extOptions := modifyChatroomOptions options
    let req := rc.newRequest (rc.rongCloudURI ++ "/chatroom/user/gag/rollback." ++ rc.ReqType)
    let req := req.ParamEach "userId" members
    let req := req.Param "chatroomId" id
    let req := req.ParamNotify extOptions
    rc.send req

/-- The operation `ChatRoomGagGetList`. -/
def ChatRoomGagGetList (rc : RongCloud) (id : String) :
    Outcome (List ChatRoomUser) :=
  if id = "" then
    { sent := [], value := [], err := some (RCErrorNew 1002 "Paramer 'chatroomId' is required") }
  else
    let req := rc.newRequest (rc.rongCloudURI ++ "/chatroom/user/gag/list." ++ rc.ReqType)
    let req := req.Param "chatroomId" id
    match rc.do_ req with
    | (_, some err) => { sent := [req], value := [], err := some err }
    | (resp, none) =>
      match rc.json.UnmarshalChatRoomResult resp {} with
      | (_, some err) => { sent := [req], value := [], err := some err }
      | (dat, none) => { sent := [req], value := dat.Users, err := none }

/-! ## Operations: message priority, distribution, keep-alive, message whitelist -/

/-- The operation `ChatRoomDemotionAdd`. -/
def ChatRoomDemotionAdd (rc : RongCloud) (objectNames : List String) :
    Outcome Unit :=
  if objectNames.length = 0 then
    { sent := [], value := (), err := some (RCErrorNew 1002 "Paramer 'objectName' is required") }
  else
    let req := rc.newRequest (rc.rongCloudURI ++ "/chatroom/message/priority/add." ++ rc.ReqType)
    let req := req.ParamEach "objectName" objectNames
    rc.send req

/-- The operation `ChatRoomDemotionRemove`. -/
def ChatRoomDemotionRemove (rc : RongCloud) (objectNames : List String) :
    Outcome Unit :=
  if objectNames.length = 0 then
    { sent := [], value := (), err := some (RCErrorNew 1002 "Paramer 'objectName' is required") }
  else
    let req := rc.newRequest (rc.rongCloudURI ++ "/chatroom/message/priority/remove." ++ rc.ReqType)
    let req := req.ParamEach "objectName" objectNames
    rc.send req

/-- The operation `ChatRoomDemotionGetList`. -/
def ChatRoomDemotionGetList (rc : RongCloud) :
    Outcome (List String) :=
  let req := rc.newRequest (rc.rongCloudURI ++ "/chatroom/message/priority/query." ++ rc.ReqType)
  match rc.do_ req with
  | (_, some err) => { sent := [req], value := [], err := some err }
  | (resp, none) =>
    match rc.json.UnmarshalChatRoomResult resp {} with
    | (_, some err) => { sent := [req], value := [], err := some err }
    | (dat, none) => { sent := [req], value := dat.ObjectNames, err := none }

/-- The operation `ChatRoomDistributionStop`. -/
def ChatRoomDistributionStop (rc : RongCloud) (id : String) :
    Outcome Unit :=
  if id = "" then
    { sent := [], value := (), err := some (RCErrorNew 1002 "Paramer 'chatroomId' is required") }
  else
    let req := rc.newRequest (rc.rongCloudURI ++ "/chatroom/message/stopDistribution." ++ rc.ReqType)
    let req := req.Param "chatroomId" id
    rc.send req

/-- The operation `ChatRoomDistributionResume`. -/
def ChatRoomDistributionResume (rc : RongCloud) (id : String) :
    Outcome Unit :=
  if id = "" then
    { sent := [], value := (), err := some (RCErrorNew 1002 "Paramer 'chatroomId' is required") }
  else
    let req := rc.newRequest (rc.rongCloudURI ++ "/chatroom/message/resumeDistribution." ++ rc.ReqType)
    let req := req.Param "chatroomId" id
    rc.send req

/-- The operation `ChatRoomKeepAliveAdd`. -/
def ChatRoomKeepAliveAdd (rc : RongCloud) (id : String) :
    Outcome Unit :=
  if id = "" then
    { sent := [], value := (), err := some (RCErrorNew 1002 "Paramer 'chatroomId' is required") }
  else
    let req := rc.newRequest (rc.rongCloudURI ++ "/chatroom/keepalive/add." ++ rc.ReqType)
    let req := req.Param "chatroomId" id
    rc.send req

/-- The operation `ChatRoomKeepAliveRemove`. -/
def ChatRoomKeepAliveRemove (rc : RongCloud) (id : String) :
    Outcome Unit :=
  if id = "" then
    { sent := [], value := (), err := some (RCErrorNew 1002 "Paramer 'chatroomId' is required") }
  else
    let req := rc.newRequest (rc.rongCloudURI ++ "/chatroom/keepalive/remove." ++ rc.ReqType)
    let req := req.Param "chatroomId" id
    rc.send req

/-- The operation `ChatRoomKeepAliveGetList`. -/
def ChatRoomKeepAliveGetList (rc : RongCloud) :
    Outcome (List String) :=
  let req := rc.newRequest (rc.rongCloudURI ++ "/chatroom/keepalive/query." ++ rc.ReqType)
  match rc.do_ req with
  | (_, some err) => { sent := [req], value := [], err := some err }
  | (resp, none) =>
    match rc.json.UnmarshalChatRoomResult resp {} with
    | (_, some err) => { sent := [req], value := [], err := some err }
    | (dat, none) => { sent := [req], value := dat.ChatRoomIDs, err := none }

/-- The operation `ChatRoomWhitelistAdd`. -/
def ChatRoomWhitelistAdd (rc : RongCloud) (objectNames : List String) :
    Outcome Unit :=
  if objectNames.length = 0 then
    { sent := [], value := (), err := some (RCErrorNew 1002 "Paramer 'objectNames' is required") }
  else
    let req := rc.newRequest (rc.rongCloudURI ++ "/chatroom/whitelist/add." ++ rc.ReqType)
    let req := req.ParamEach "objectnames" objectNames
    rc.send req

/-- The operation `ChatRoomWhitelistRemove`. -/
def ChatRoomWhitelistRemove (rc : RongCloud) (objectNames : List String) :
    Outcome Unit :=
  if objectNames.length = 0 then
    { sent := [], value := (), err := some (RCErrorNew 1002 "Paramer 'objectNames' is required") }
  else
    let req := rc.newRequest (rc.rongCloudURI ++ "/chatroom/whitelist/delete." ++ rc.ReqType)
    let req := req.ParamEach "objectnames" objectNames
    rc.send req

/-- The operation `ChatRoomWhitelistGetList`. -/
def ChatRoomWhitelistGetList (rc : RongCloud) :
    Outcome (List String) :=
  let req := rc.newRequest (rc.rongCloudURI ++ "/chatroom/whitelist/query." ++ rc.ReqType)
  match rc.do_ req with
  | (_, some err) => { sent := [req], value := [], err := some err }
  | (resp, none) =>
    match rc.json.UnmarshalChatRoomResult resp {} with
    | (_, some err) => { sent := [req], value := [], err := some err }
    | (dat, none) => { sent := [req], value := dat.WhitelistMsgType, err := none }

/-! ## Operations: user whitelist, mute -/

/-- The operation `ChatRoomUserWhitelistAdd`. -/
def ChatRoomUserWhitelistAdd (rc : RongCloud) (id : String) (members : List String) :
    Outcome Unit :=
  if id = "" then
    { sent := [], value := (), err := some (RCErrorNew 1002 "Paramer 'id' is required") }
  else if members.length = 0 then
    { sent := [], value := (), err := some (RCErrorNew 1002 "Paramer 'members' is required") }
  else
    let req := rc.newRequest (rc.rongCloudURI ++ "/chatroom/user/whitelist/add." ++ rc.ReqType)
    let req := req.Param "chatroomId" id
    let req := req.ParamEach "userId" members
    rc.send req

/-- The operation `ChatRoomUserWhitelistRemove`. -/
def ChatRoomUserWhitelistRemove (rc : RongCloud) (id : String) (members : List String) :
    Outcome Unit :=
  if id = "" then
    { sent := [], value := (), err := some (RCErrorNew 1002 "Paramer 'id' is required") }
  else if members.length = 0 then
    { sent := [], value := (), err := some (RCErrorNew 1002 "Paramer 'members' is required") }
  else
    let req := rc.newRequest (rc.rongCloudURI ++ "/chatroom/user/whitelist/remove." ++ rc.ReqType)
    let req := req.Param "chatroomId" id
    let req := req.ParamEach "userId" members
    rc.send req

/-- The operation `ChatRoomMuteMembersAdd`. -/
def ChatRoomMuteMembersAdd (rc : RongCloud) (id : String) (members : List String) (minute : Nat)
    (options : List ChatroomOption) :
    Outcome Unit :=
  if id = "" then
    { sent := [], value := (), err := some (RCErrorNew 1002 "Paramer 'id' is required") }
  else if members.length = 0 then
    { sent := [], value := (), err := some (RCErrorNew 1002 "Paramer 'members' is required") }
  else if minute = 0 then
    { sent := [], value := (), err := some (RCErrorNew 1002 "Paramer 'minute' is required") }
  else
    let extOptions := modifyChatroomOptions options
    let req := rc.newRequest (rc.rongCloudURI ++ "/chatroom/user/gag/add." ++ rc.ReqType)
    let req := req.ParamEach "userId" members
    let req := req.Param "chatroomId" id
    let req := req.Param "minute" (strconv.Itoa (intOfUint minute))
    let req := req.ParamNotify extOptions
    rc.send req

/-- The operation `ChatRoomMuteMembersRemove`. -/
def ChatRoomMuteMembersRemove (rc : RongCloud) (id : String) (members : List String)
    (options : List ChatroomOption) :
    Outcome Unit :=
  if id = "" then
    { sent := [], value := (), err := some (RCErrorNew 1002 "Paramer 'id' is required") }
  else if members.length = 0 then
    { sent := [], value := (), err := some (RCErrorNew 1002 "Paramer 'members' is required") }
  else
    let extOptions := modifyChatroomOptions options
    let req := rc.newRequest (rc.rongCloudURI ++ "/chatroom/user/gag/rollback." ++ rc.ReqType)
    let req := req.ParamEach "userId" members
    let req := req.Param "chatroomId" id
    let req := req.ParamNotify extOptions
    rc.send req

/-- The loop `for _, v := range xs { users = append(users, v.(string)) }`:
the strings of the list, or `none` when a type assertion `v.(string)` fails. -/
def assertStrings : List GoValue → Option (List String)
  | [] => some []
  | GoValue.string s :: rest =>
    match assertStrings rest with
    | some users => some (s :: users)
    | none => none
  | _ :: _ => none

/-- The operation `ChatRoomUserWhitelistGetList`.  The two type assertions
`dat["users"].([]interface{})` and `v.(string)` panic when they fail. -/
def ChatRoomUserWhitelistGetList (rc : RongCloud) (id : String) : Run (List String) :=
  if id = "" then
    Run.returned { sent := [], value := [], err := some (RCErrorNew 1002 "Paramer 'id' is required") }
  else
    let req := rc.newRequest (rc.rongCloudURI ++ "/chatroom/user/whitelist/query." ++ rc.ReqType)
    let req := req.Param "chatroomId" id
    match rc.Response req with
    | some err => Run.returned { sent := [req], value := [], err := some err }
    | none =>
      match rc.Bytes req with
      | (_, some err) => Run.returned { sent := [req], value := [], err := some err }
      | (rep, none) =>
        match rc.json.UnmarshalCodeResult rep {} with
        | (_, some err) => Run.returned { sent := [req], value := [], err := some err }
        | (code, none) =>
          if code.Code ≠ 200 then
            Run.returned { sent := [req], value := [], err := some (Error.codeResult code) }
          else
            match rc.json.UnmarshalMap rep [] with
            | (_, some err) => Run.returned { sent := [req], value := [], err := some err }
            | (dat, none) =>
              match dat.index "users" with
              | GoValue.nil => Run.returned { sent := [req], value := [], err := none }
              | GoValue.slice xs =>
                match assertStrings xs with
                | some users => Run.returned { sent := [req], value := users, err := none }
                | none => Run.panicked [req]
              | _ => Run.panicked [req]

/-- The operation `ChatRoomMuteMembersGetList`. -/
def ChatRoomMuteMembersGetList (rc : RongCloud) (id : String) : Outcome (List ChatRoomUser) :=
  if id = "" then
    { sent := [], value := [], err := some (RCErrorNew 1002 "Paramer 'chatroomId' is required") }
  else
    let req := rc.newRequest (rc.rongCloudURI ++ "/chatroom/user/gag/list." ++ rc.ReqType)
    let req := req.Param "chatroomId" id
    match rc.Response req with
    | some err => { sent := [req], value := [], err := some err }
    | none =>
      match rc.Bytes req with
      | (_, some err) => { sent := [req], value := [], err := some err }
      | (rep, none) =>
        match rc.json.UnmarshalCodeResult rep {} with
        | (_, some err) => { sent := [req], value := [], err := some err }
        | (code, none) =>
          if code.Code ≠ 200 then
            { sent := [req], value := [], err := some (Error.codeResult code) }
          else
            match rc.json.UnmarshalChatRoomResult rep {} with
            | (_, some err) => { sent := [req], value := [], err := some err }
            | (dat, none) => { sent := [req], value := dat.Users, err := none }

/-! ## Operations: attributes -/

/-- The operation `ChatRoomEntrySet`. -/
def ChatRoomEntrySet (rc : RongCloud) (chatRoomID userID key value : String)
    (autoDelete : Bool) : Outcome Unit :=
  if chatRoomID = "" then
    { sent := [], value := (), err := some (RCErrorNew 1002 "Paramer 'chatRoomID' is required") }
  else if userID = "" then
    { sent := [], value := (), err := some (RCErrorNew 1002 "Paramer 'userID' is required") }
  else if key = "" then
    { sent := [], value := (), err := some (RCErrorNew 1002 "Paramer 'key' is required") }
  else if value = "" then
    { sent := [], value := (), err := some (RCErrorNew 1002 "Paramer 'value' is required") }
  else
    let req := rc.newRequest (rc.rongCloudURI ++ "/chatroom/entry/set." ++ rc.ReqType)
    let req := req.Param "chatroomId" chatRoomID
    let req := req.Param "userId" userID
    let req := req.Param "key" key
    let req := req.Param "value" value
    let req := req.Param "autoDelete" (strconv.FormatBool autoDelete)
    rc.send req

/-- The operation `ChatRoomEntryRemove`. -/
def ChatRoomEntryRemove (rc : RongCloud) (chatRoomID userID key : String) : Outcome Unit :=
  if chatRoomID = "" then
    { sent := [], value := (), err := some (RCErrorNew 1002 "Paramer 'chatRoomID' is required") }
  else if userID = "" then
    { sent := [], value := (), err := some (RCErrorNew 1002 "Paramer 'userID' is required") }
  else if key = "" then
    { sent := [], value := (), err := some (RCErrorNew 1002 "Paramer 'key' is required") }
  else
    let req := rc.newRequest (rc.rongCloudURI ++ "/chatroom/entry/remove." ++ rc.ReqType)
    let req := req.Param "chatroomId" chatRoomID
    let req := req.Param "userId" userID
    let req := req.Param "key" key
    rc.send req

/-- The operation `ChatRoomEntryQuery`. -/
def ChatRoomEntryQuery (rc : RongCloud) (chatRoomID : String) (keys : List String) :
    Outcome (List ChatRoomAttr) :=
  if chatRoomID = "" then
    { sent := [], value := [], err := some (RCErrorNew 1002 "Paramer 'chatRoomID' is required") }
  else if keys.length > 100 then
    { sent := [], value := [], err := some (RCErrorNew 1002 "Paramer 'keys' more than 100") }
  else
    let req := rc.newRequest (rc.rongCloudURI ++ "/chatroom/entry/query." ++ rc.ReqType)
    let req := req.Param "chatroomId" chatRoomID
    let req := if keys.length ≠ 0 then req.ParamEach "keys" keys else req
    match rc.do_ req with
    | (_, some err) => { sent := [req], value := [], err := some err }
    | (resp, none) =>
      match rc.json.UnmarshalChatRoomAttrResult resp {} with
      | (_, some err) => { sent := [req], value := [], err := some err }
      | (data, none) => { sent := [req], value := data.Keys, err := none }

/-- The operation `ChatRoomQuery`. -/
def ChatRoomQuery (rc : RongCloud) (chatRoomID : List String) : Outcome (List ChatRoom) :=
  if chatRoomID.length ≤ 0 then
    { sent := [], value := [], err := some (RCErrorNew 1002 "Paramer 'chatRoomID' is required") }
  else
    let req := rc.newRequest (rc.rongCloudURI ++ "/chatroom/query." ++ rc.ReqType)
    let req := req.ParamEach "chatroomId" chatRoomID
    match rc.do_ req with
    | (_, some err) => { sent := [req], value := [], err := some err }
    | (resp, none) =>
      match rc.json.UnmarshalChatRoomQueryResult resp {} with
      | (_, some err) => { sent := [req], value := [], err := some err }
      | (data, none) => { sent := [req], value := data.ChatRooms, err := none }

/-! ## Operations: ban of a whole room -/

/-- The operation `ChatRoomBan`. -/
def ChatRoomBan (rc : RongCloud) (chatroomId : String) (options : List ChatroomOption) :
    Outcome Unit :=
  if chatroomId = "" then
    { sent := [], value := (), err := some (RCErrorNew 1002 "Paramer 'chatroomId' is required") }
  else
    let extOptions := modifyChatroomOptions options
    let req := rc.newRequest (rc.rongCloudURI ++ "/chatroom/ban/add." ++ rc.ReqType)
    let req := req.Param "chatroomId" chatroomId
    let req := req.ParamNotify extOptions
    rc.send req

/-- The operation `ChatRoomBanRollback`. -/
def ChatRoomBanRollback (rc : RongCloud) (chatroomId : String) (options : List ChatroomOption) :
    Outcome Unit :=
  if chatroomId = "" then
    { sent := [], value := (), err := some (RCErrorNew 1002 "Paramer 'chatroomId' is required") }
  else
    let extOptions := modifyChatroomOptions options
    let req := rc.newRequest (rc.rongCloudURI ++ "/chatroom/ban/rollback." ++ rc.ReqType)
    let req := req.Param "chatroomId" chatroomId
    let req := req.ParamNotify extOptions
    rc.send req

/-- The operation `ChatRoomBanQuery`. -/
def ChatRoomBanQuery (rc : RongCloud) (size page : Int) : Outcome (List String) :=
  let req := rc.newRequest (rc.rongCloudURI ++ "/chatroom/ban/query." ++ rc.ReqType)
  let req := req.Param "page" (strconv.Itoa page)
  let req := req.Param "size" (strconv.Itoa size)
  match rc.do_ req with
  | (_, some err) => { sent := [req], value := [], err := some err }
  | (resp, none) =>
    match rc.json.UnmarshalChatRoomResult resp {} with
    | (_, some err) => { sent := [req], value := [], err := some err }
    | (dat, none) => { sent := [req], value := dat.ChatRoomIDs, err := none }

/-- The operation `ChatRoomBanCheck`. -/
def ChatRoomBanCheck (rc : RongCloud) (chatroomId : String) : Outcome Bool :=
  if chatroomId = "" then
    { sent := [], value := false, err := some (RCErrorNew 1002 "Paramer 'chatroomId' is required") }
  else
    let req := rc.newRequest (rc.rongCloudURI ++ "/chatroom/ban/check." ++ rc.ReqType)
    let req := req.Param "chatroomId" chatroomId
    match rc.do_ req with
    | (_, some err) => { sent := [req], value := false, err := some err }
    | (resp, none) =>
      match rc.json.UnmarshalBanCheckData resp {} with
      | (_, some err) => { sent := [req], value := false, err := some err }
      | (data, none) =>
        if data.Status = 1 then { sent := [req], value := true, err := none }
        else { sent := [req], value := false, err := none }

/-- The operation `ChatRoomUserBanWhitelistAdd`. -/
def ChatRoomUserBanWhitelistAdd (rc : RongCloud) (chatroomId : String) (members : List String)
    (options : List ChatroomOption) : Outcome Unit :=
  if chatroomId = "" then
    { sent := [], value := (), err := some (RCErrorNew 1002 "Paramer 'chatroomId' is required") }
  else if members.length = 0 then
    { sent := [], value := (), err := some (RCErrorNew 1002 "Paramer 'members' is required") }
  else
    let extOptions := modifyChatroomOptions options
    let req := rc.newRequest (rc.rongCloudURI ++ "/chatroom/user/ban/whitelist/add." ++ rc.ReqType)
    let req := req.ParamEach "userId" members
    let req := req.Param "chatroomId" chatroomId
    let req := req.ParamNotify extOptions
    rc.send req

/-- The operation `ChatRoomUserBanWhitelistRollback`. -/
def ChatRoomUserBanWhitelistRollback (rc : RongCloud) (chatroomId : String)
    (members : List String) (options : List ChatroomOption) : Outcome Unit :=
  if chatroomId = "" then
    { sent := [], value := (), err := some (RCErrorNew 1002 "Paramer 'chatroomId' is required") }
  else if members.length = 0 then
    { sent := [], value := (), err := some (RCErrorNew 1002 "Paramer 'members' is required") }
  else
    let extOptions := modifyChatroomOptions options
    let req :=
      rc.newRequest (rc.rongCloudURI ++ "/chatroom/user/ban/whitelist/rollback." ++ rc.ReqType)
    let req := req.ParamEach "userId" members
    let req := req.Param "chatroomId" chatroomId
    let req := req.ParamNotify extOptions
    rc.send req

/-- The operation `ChatRoomUserBanWhitelistQuery`. -/
def ChatRoomUserBanWhitelistQuery (rc : RongCloud) (chatroomId : String) :
    Outcome (List String) :=
  if chatroomId = "" then
    { sent := [], value := [], err := some (RCErrorNew 1002 "Paramer 'chatroomId' is required") }
  else
    let req :=
      rc.newRequest (rc.rongCloudURI ++ "/chatroom/user/ban/whitelist/query." ++ rc.ReqType)
    let req := req.Param "chatroomId" chatroomId
    match rc.do_ req with
    | (_, some err) => { sent := [req], value := [], err := some err }
    | (resp, none) =>
      match rc.json.UnmarshalBanWhitelistData resp {} with
      | (_, some err) => { sent := [req], value := [], err := some err }
      | (data, none) => { sent := [req], value := data.UserIds, err := none }

/-! ## Vocabulary of the specification -/

/-- A call was rejected by the local validation: it handed no request to the
transport and returned the error `RCErrorNew(1002, text)` for some text. -/
def Outcome.rejected {α : Type} (o : Outcome α) : Prop :=
  o.sent = [] ∧ ∃ text, o.err = some (RCErrorNew 1002 text)

/-- The requests a run handed to the transport. -/
def Run.sent {α : Type} : Run α → List Request
  | Run.returned o => o.sent
  | Run.panicked sent => sent

/-- The error a run returned, `none` also when it did not return. -/
def Run.err {α : Type} : Run α → Option Error
  | Run.returned o => o.err
  | Run.panicked _ => none

/-- A run was rejected by the local validation: it returned, handed no request
to the transport and returned the error `RCErrorNew(1002, text)` for some text. -/
def Run.rejected {α : Type} : Run α → Prop
  | Run.returned o => o.rejected
  | Run.panicked _ => False

/-- A call handed exactly one request to the transport, and that request
satisfies `P`. -/
def Outcome.sentOne {α : Type} (o : Outcome α) (P : Request → Prop) : Prop :=
  ∃ req, o.sent = [req] ∧ P req

/-- The notify fields of a request are as the specification says for the
resolved options `o`: the keys "needNotify" and "extra" occur if and only if
`o.needNotify` is true; when it is true there is exactly one "needNotify" field,
with value "true", and exactly one "extra" field, with value `o.extra`; when it
is false neither key occurs. -/
def notifyFieldsAsSpecified (o : chatroomOptions) (req : Request) : Prop :=
  (("needNotify" ∈ req.keys ∧ "extra" ∈ req.keys) ↔ o.needNotify = true) ∧
  (o.needNotify = true →
    req.values "needNotify" = ["true"] ∧ req.values "extra" = [o.extra]) ∧
  (o.needNotify = false → "needNotify" ∉ req.keys ∧ "extra" ∉ req.keys)

/-- The notify fields of a request occur only if the resolved needNotify option
`o.needNotify` differs from its default: a "needNotify" field or an "extra"
field in the request implies that `o.needNotify` is true. -/
def notifyOnlyIfEnabled (o : chatroomOptions) (req : Request) : Prop :=
  ("needNotify" ∈ req.keys → o.needNotify = true) ∧
  ("extra" ∈ req.keys → o.needNotify = true)

/-- The form fields of the request of `ChatRoomCreateNew` as they follow from
the resolved options `o`: the room ID, the three fields that are always there,
one "whiteUserIds" field per whitelist entry, "entryOwnerId" when the owner ID
is not empty and "entryInfo", with the marshalled text, when the map is not
empty. -/
def createNewFields (chatroomId : String) (o : chatroomOptions) (entryInfoJson : String) :
    List (String × String) :=
  [("chatroomId", chatroomId), ("destroyType", strconv.Itoa o.destroyType),
    ("destroyTime", strconv.Itoa o.destroyTime), ("isBan", strconv.FormatBool o.isBan)] ++
  o.whiteUserIds.map (fun v => ("whiteUserIds", v)) ++
  (if o.entryOwnerId = "" then [] else [("entryOwnerId", o.entryOwnerId)]) ++
  (if o.entryInfo.length > 0 then [("entryInfo", entryInfoJson)] else [])

/-- The name of the first argument with an empty value among the named
arguments of a call, in the order given; `none` when no value is empty. -/
def firstEmpty : List (String × String) → Option String
  | [] => none
  | (name, value) :: rest => if value = "" then some name else firstEmpty rest

/-- One application of one of the eight option setters of `chatroom.go`. -/
inductive Setter where
  | needNotify (isNeedNotify : Bool)
  | extra (extra : String)
  | destroyType (destroyType : Int)
  | destroyTime (destroyTime : Int)
  | isBan (isBan : Bool)
  | whiteUserIds (whiteUserIds : List String)
  | entryOwnerId (entryOwnerId : String)
  | entryInfo (entryInfo : GoMap)

/-- The `ChatroomOption` that a setter application denotes. -/
def Setter.toOption : Setter → ChatroomOption
  | Setter.needNotify v => WithChatroomNeedNotify v
  | Setter.extra v => WithChatroomExtra v
  | Setter.destroyType v => WithChatroomDestroyType v
  | Setter.destroyTime v => WithChatroomDestroyTime v
  | Setter.isBan v => WithChatroomIsBan v
  | Setter.whiteUserIds v => WithChatroomWhiteUserIds v
  | Setter.entryOwnerId v => WithChatroomEntryOwnerId v
  | Setter.entryInfo v => WithChatroomEntryInfo v

/-- The value given by the last setter of a list for one field, the field being
named by the projection `field` that recognises its setter; `none` when the list
has no setter for the field. -/
def lastSetter {α : Type} (field : Setter → Option α) (setters : List Setter) : Option α :=
  (setters.filterMap field).getLast?

/-- The option set that the specification assigns to a list of setters: for
each field the value of the last setter for it, or else the documented
default. -/
def resolvedBySpec (setters : List Setter) : chatroomOptions :=
  { needNotify :=
      (lastSetter (fun s => match s with | Setter.needNotify v => some v | _ => none) setters).getD
        false
    extra :=
      (lastSetter (fun s => match s with | Setter.extra v => some v | _ => none) setters).getD ""
    destroyType :=
      (lastSetter (fun s => match s with | Setter.destroyType v => some v | _ => none)
        setters).getD 0
    destroyTime :=
      (lastSetter (fun s => match s with | Setter.destroyTime v => some v | _ => none)
        setters).getD 60
    isBan :=
      (lastSetter (fun s => match s with | Setter.isBan v => some v | _ => none) setters).getD
        false
    whiteUserIds :=
      (lastSetter (fun s => match s with | Setter.whiteUserIds v => some v | _ => none)
        setters).getD []
    entryOwnerId :=
      (lastSetter (fun s => match s with | Setter.entryOwnerId v => some v | _ => none)
        setters).getD ""
    entryInfo :=
      (lastSetter (fun s => match s with | Setter.entryInfo v => some v | _ => none)
        setters).getD [] }

/-- A codec for examples: `Marshal` yields an empty object and every
`Unmarshal` leaves its target untouched, both without error. -/
def stubJSON : JSON :=
  { Marshal := fun _ => ("\x7b\x7d", none)
    UnmarshalChatUserExistObj := fun _ v => (v, none)
    UnmarshalChatRoomGetResult := fun _ v => (v, none)
    UnmarshalChatRoomResult := fun _ v => (v, none)
    UnmarshalChatRoomAttrResult := fun _ v => (v, none)
    UnmarshalChatRoomQueryResult := fun _ v => (v, none)
    UnmarshalCodeResult := fun _ v => (v, none)
    UnmarshalMap := fun _ v => (v, none)
    UnmarshalBanCheckData := fun _ v => (v, none)
    UnmarshalBanWhitelistData := fun _ v => (v, none) }

/-- A client for examples: its transport answers every request with the body
`{"code":200}` and no error. -/
def stubClient : RongCloud :=
  { rongCloudURI := "http://api.example"
    timeout := 10
    ReqType := "json"
    headers := []
    do_ := fun _ => ("\x7b\"code\":200\x7d", none)
    Response := fun _ => none
    Bytes := fun _ => ("\x7b\"code\":200\x7d", none)
    json := stubJSON }

/-! ## A model of `encoding/json`

The general theorems hold for every behaviour of `encoding/json`, since the
codec is a field of the client.  The concrete response bodies of the
specification are decoded with the model below.  It follows the documented
rules of `json.Unmarshal`: the whole text is checked first; a struct takes the
members of an object whose key equals a field tag, also when they differ only
in letter case, and ignores the others; `null` leaves a scalar untouched and
empties a slice; a value of the wrong kind leaves its target untouched, is
remembered as the error of the call (the first one wins) and does not stop the
decoding; a later member with the same key is decoded over what the earlier
one left, an array going element by element into the elements already there; a
number that does not fit a `float64` is an error when it is stored into an
`interface{}`.
-/

/-- A JSON text as a tree.  A number keeps its integer value when its literal
has neither a fraction nor an exponent, always its rational value, and whether
that value rounds to a finite `float64`. -/
inductive JsonValue where
  | null
  | bool (b : Bool)
  | number (integer : Option Int) (value : Rat) (fits : Bool)
  | string (s : String)
  | array (xs : List JsonValue)
  | object (kv : List (String × JsonValue))

/-- JSON white space. -/
def json.isSpace (c : Char) : Bool :=
  c == ' ' || c == '\t' || c == '\n' || c == '\r'

/-- Drop leading white space. -/
def json.skipSpace : List Char → List Char
  | [] => []
  | c :: cs => if json.isSpace c then json.skipSpace cs else c :: cs

/-- The number written by a list of decimal digits. -/
def json.natOfDigits (ds : List Char) : Nat :=
  ds.foldl (fun n c => 10 * n + (c.toNat - 48)) 0

/-- The value of a hexadecimal digit. -/
def json.hexDigit (c : Char) : Option Nat :=
  if c.isDigit then some (c.toNat - 48)
  else if 97 ≤ c.toNat ∧ c.toNat ≤ 102 then some (c.toNat - 87)
  else if 65 ≤ c.toNat ∧ c.toNat ≤ 70 then some (c.toNat - 55)
  else none

/-- The number written by the four hexadecimal digits of a `\u` escape. -/
def json.hex4 (a b c d : Char) : Option Nat :=
  match json.hexDigit a, json.hexDigit b, json.hexDigit c, json.hexDigit d with
  | some x, some y, some z, some w => some (((x * 16 + y) * 16 + z) * 16 + w)
  | _, _, _, _ => none

/-- The second half of a surrogate pair that starts with the code unit `hi`:
when the input goes on with a `\u` escape of a low surrogate, the character of
the pair and the input after that escape. -/
def json.lowSurrogate (hi : Nat) : List Char → Option (Char × List Char)
  | '\x5c' :: 'u' :: a :: b :: c :: d :: rest =>
    match json.hex4 a b c d with
    | some lo =>
      if 0xD800 ≤ hi ∧ hi < 0xDC00 ∧ 0xDC00 ≤ lo ∧ lo < 0xE000 then
        some (Char.ofNat (0x10000 + (hi - 0xD800) * 0x400 + (lo - 0xDC00)), rest)
      else none
    | none => none
  | _ => none

/-- Read a string literal after its opening quote: the text up to the closing
quote, with the escapes decoded, and the rest of the input.  The first argument
bounds the number of characters read.  A `\u` escape of a surrogate that is not
followed by its other half becomes U+FFFD. -/
def json.scanStringFuel : Nat → List Char → List Char → Option (String × List Char)
  | 0, _, _ => none
  | _ + 1, [], _ => none
  | _ + 1, '\x22' :: cs, acc => some (String.mk acc.reverse, cs)
  | fuel + 1, '\x5c' :: '\x22' :: cs, acc => json.scanStringFuel fuel cs ('\x22' :: acc)
  | fuel + 1, '\x5c' :: '\x5c' :: cs, acc => json.scanStringFuel fuel cs ('\x5c' :: acc)
  | fuel + 1, '\x5c' :: '/' :: cs, acc => json.scanStringFuel fuel cs ('/' :: acc)
  | fuel + 1, '\x5c' :: 'b' :: cs, acc => json.scanStringFuel fuel cs ('\x08' :: acc)
  | fuel + 1, '\x5c' :: 'f' :: cs, acc => json.scanStringFuel fuel cs ('\x0c' :: acc)
  | fuel + 1, '\x5c' :: 'n' :: cs, acc => json.scanStringFuel fuel cs ('\n' :: acc)
  | fuel + 1, '\x5c' :: 'r' :: cs, acc => json.scanStringFuel fuel cs ('\r' :: acc)
  | fuel + 1, '\x5c' :: 't' :: cs, acc => json.scanStringFuel fuel cs ('\t' :: acc)
  | fuel + 1, '\x5c' :: 'u' :: a :: b :: c :: d :: cs, acc =>
    match json.hex4 a b c d with
    | none => none
    | some u =>
      if 0xD800 ≤ u ∧ u < 0xE000 then
        match json.lowSurrogate u cs with
        | some (ch, rest) => json.scanStringFuel fuel rest (ch :: acc)
        | none => json.scanStringFuel fuel cs (Char.ofNat 0xFFFD :: acc)
      else json.scanStringFuel fuel cs (Char.ofNat u :: acc)
  | _ + 1, '\x5c' :: _, _ => none
  | fuel + 1, c :: cs, acc =>
    if c.toNat < 32 then none else json.scanStringFuel fuel cs (c :: acc)

/-- Read a string literal after its opening quote; every step reads at least
one character, so the length of the input bounds the steps. -/
def json.scanString (cs : List Char) (acc : List Char) : Option (String × List Char) :=
  json.scanStringFuel (cs.length + 1) cs acc

/-- The threshold at which a number rounds to an infinite `float64`:
`2^1024 - 2^970`, half a unit in the last place above the largest one. -/
def json.float64Limit : Nat :=
  179769313486231580793728971405303415079934132710037826936173778980444968292764750946649017977587207096330286416692887910946555547851940402630657488671505820681908902000708383676273854845817711531764475730270069855571366959622842914819860834936475292719074168444365510704342711559699508093042880177904174497792

/-- The number `m * 10^e` rounds to a finite `float64`. -/
def json.fitsFloat64 (m : Nat) (e : Int) : Bool :=
  if 0 ≤ e then decide (m * 10 ^ e.toNat < json.float64Limit)
  else decide (m < json.float64Limit * 10 ^ (-e).toNat)

/-- Read a number literal: an optional minus sign, an integer part without
leading zero, an optional fraction and an optional exponent. -/
def json.scanNumber (cs : List Char) : Option (JsonValue × List Char) :=
  let neg : Bool := cs.head? == some '-'
  let cs1 := if neg then cs.tail else cs
  let ds := cs1.takeWhile Char.isDigit
  let cs2 := cs1.dropWhile Char.isDigit
  if ds.isEmpty || (decide (ds.length > 1) && ds.head? == some '0') then none
  else
    let hasFrac : Bool := cs2.head? == some '.'
    let fs := if hasFrac then cs2.tail.takeWhile Char.isDigit else []
    let cs3 := if hasFrac then cs2.tail.dropWhile Char.isDigit else cs2
    if hasFrac && fs.isEmpty then none
    else
      let hasExp : Bool := cs3.head? == some 'e' || cs3.head? == some 'E'
      let cs4 := if hasExp then cs3.tail else cs3
      let expNeg : Bool := hasExp && cs4.head? == some '-'
      let cs5 :=
        if hasExp && (cs4.head? == some '-' || cs4.head? == some '+') then cs4.tail else cs4
      let es := if hasExp then cs5.takeWhile Char.isDigit else []
      let cs6 := if hasExp then cs5.dropWhile Char.isDigit else cs5
      if hasExp && es.isEmpty then none
      else
        let mantissa : Rat := (json.natOfDigits (ds ++ fs) : Rat) / 10 ^ fs.length
        let scaled : Rat :=
          if expNeg then mantissa / 10 ^ json.natOfDigits es
          else mantissa * 10 ^ json.natOfDigits es
        let value : Rat := if neg then -scaled else scaled
        let integer : Option Int :=
          if hasFrac || hasExp then none
          else some (if neg then -(json.natOfDigits ds : Int) else (json.natOfDigits ds : Int))
        let exponent : Int :=
          (if expNeg then -(json.natOfDigits es : Int) else (json.natOfDigits es : Int)) -
            (fs.length : Int)
        some (JsonValue.number integer value
          (json.fitsFloat64 (json.natOfDigits (ds ++ fs)) exponent), cs6)

/-- What the reader is in the middle of: a value, the elements of an array
after those already read, or the members of an object after those already
read. -/
inductive json.Goal where
  | value
  | elements (acc : List JsonValue)
  | members (acc : List (String × JsonValue))

/-- Read JSON by recursive descent; the first argument bounds the number of
nested and successive steps. -/
def json.read : Nat → json.Goal → List Char → Option (JsonValue × List Char)
  | 0, _, _ => none
  | fuel + 1, json.Goal.value, cs =>
    match json.skipSpace cs with
    | '\x7b' :: rest =>
      match json.skipSpace rest with
      | '\x7d' :: rest => some (JsonValue.object [], rest)
      | rest => json.read fuel (json.Goal.members []) rest
    | '[' :: rest =>
      match json.skipSpace rest with
      | ']' :: rest => some (JsonValue.array [], rest)
      | rest => json.read fuel (json.Goal.elements []) rest
    | '\x22' :: rest =>
      match json.scanString rest [] with
      | some (s, rest) => some (JsonValue.string s, rest)
      | none => none
    | 't' :: 'r' :: 'u' :: 'e' :: rest => some (JsonValue.bool true, rest)
    | 'f' :: 'a' :: 'l' :: 's' :: 'e' :: rest => some (JsonValue.bool false, rest)
    | 'n' :: 'u' :: 'l' :: 'l' :: rest => some (JsonValue.null, rest)
    | rest => json.scanNumber rest
  | fuel + 1, json.Goal.elements acc, cs =>
    match json.read fuel json.Goal.value cs with
    | none => none
    | some (v, rest) =>
      match json.skipSpace rest with
      | ',' :: rest => json.read fuel (json.Goal.elements (acc ++ [v])) rest
      | ']' :: rest => some (JsonValue.array (acc ++ [v]), rest)
      | _ => none
  | fuel + 1, json.Goal.members acc, cs =>
    match json.skipSpace cs with
    | '\x22' :: rest =>
      match json.scanString rest [] with
      | none => none
      | some (k, rest) =>
        match json.skipSpace rest with
        | ':' :: rest =>
          match json.read fuel json.Goal.value rest with
          | none => none
          | some (v, rest) =>
            match json.skipSpace rest with
            | ',' :: rest => json.read fuel (json.Goal.members (acc ++ [(k, v)])) rest
            | '\x7d' :: rest => some (JsonValue.object (acc ++ [(k, v)]), rest)
            | _ => none
        | _ => none
    | _ => none

/-- The tree of a whole JSON text, `none` when the text is malformed. -/
def json.parse (data : Bytes) : Option JsonValue :=
  match json.read (2 * data.data.length + 2) json.Goal.value data.data with
  | some (v, rest) => if (json.skipSpace rest).isEmpty then some v else none
  | none => none

/-- The error of the call: the first error met wins. -/
def json.firstError (a b : Option Error) : Option Error :=
  match a with
  | some e => some e
  | none => b

/-- The error `UnmarshalTypeError` for a value that does not fit a Go type. -/
def json.typeError (goType : String) : Error :=
  Error.decode ("json: cannot unmarshal value into Go value of type " ++ goType)

/-- Simple case folding as far as it reaches the letters of the field tags,
which are all ASCII: a letter goes to its lower case, and so do the two other
characters that fold to an ASCII letter, U+017F to `s` and U+212A to `k`. -/
def json.foldChar (c : Char) : Char :=
  if c.toNat = 0x017F then 's' else if c.toNat = 0x212A then 'k' else c.toLower

/-- A key selects the field with this tag: equal, or equal up to letter case. -/
def json.sameField (tag key : String) : Bool :=
  key == tag || key.data.map json.foldChar == tag.data.map json.foldChar

/-- Decode into an `int`. -/
def json.decodeInt (j : JsonValue) (old : Int) : Int × Option Error :=
  match j with
  | JsonValue.null => (old, none)
  | JsonValue.number (some i) _ _ =>
    if -(2 ^ 63) ≤ i ∧ i < 2 ^ 63 then (i, none) else (old, some (json.typeError "int"))
  | _ => (old, some (json.typeError "int"))

/-- Decode into a `string`. -/
def json.decodeString (j : JsonValue) (old : String) : String × Option Error :=
  match j with
  | JsonValue.null => (old, none)
  | JsonValue.string s => (s, none)
  | _ => (old, some (json.typeError "string"))

/-- Decode into a `bool`. -/
def json.decodeBool (j : JsonValue) (old : Bool) : Bool × Option Error :=
  match j with
  | JsonValue.null => (old, none)
  | JsonValue.bool b => (b, none)
  | _ => (old, some (json.typeError "bool"))

/-- Decode the elements of an array one after the other: into the element that
the slice already has at that place, or into the zero value `zero` beyond its
length. -/
def json.decodeElements {α : Type} (zero : α) (elem : JsonValue → α → α × Option Error) :
    List JsonValue → List α → List (α × Option Error)
  | [], _ => []
  | x :: xs, [] => elem x zero :: json.decodeElements zero elem xs []
  | x :: xs, o :: os => elem x o :: json.decodeElements zero elem xs os

/-- Decode into a slice whose elements are decoded by `elem`; the slice gets
the length of the array. -/
def json.decodeSlice {α : Type} (goType : String) (zero : α)
    (elem : JsonValue → α → α × Option Error) (j : JsonValue) (old : List α) :
    List α × Option Error :=
  match j with
  | JsonValue.null => ([], none)
  | JsonValue.array xs =>
    ((json.decodeElements zero elem xs old).map Prod.fst,
      (json.decodeElements zero elem xs old).foldl (fun e r => json.firstError e r.2) none)
  | _ => (old, some (json.typeError goType))

/-- Decode the members of an object one after the other into a struct; `step`
stores one member. -/
def json.decodeMembers {α : Type} (step : String → JsonValue → α → α × Option Error) :
    List (String × JsonValue) → α → Option Error → α × Option Error
  | [], v, e => (v, e)
  | (k, j) :: rest, v, e =>
    json.decodeMembers step rest (step k j v).1 (json.firstError e (step k j v).2)

/-- Decode into a struct. -/
def json.decodeStruct {α : Type} (goType : String)
    (step : String → JsonValue → α → α × Option Error) (j : JsonValue) (old : α) :
    α × Option Error :=
  match j with
  | JsonValue.null => (old, none)
  | JsonValue.object kv => json.decodeMembers step kv old none
  | _ => (old, some (json.typeError goType))

/-- The call `json.Unmarshal(data, &v)` for a target decoded by `decode`. -/
def json.Unmarshal {α : Type} (decode : JsonValue → α → α × Option Error) : Decoder α :=
  fun data v =>
    match json.parse data with
    | none => (v, some (Error.decode "invalid character in JSON text"))
    | some j => decode j v

/-- One member of a `CodeResult`. -/
def json.stepCodeResult (key : String) (j : JsonValue) (v : CodeResult) :
    CodeResult × Option Error :=
  if json.sameField "code" key then
    ({ v with Code := (json.decodeInt j v.Code).1 }, (json.decodeInt j v.Code).2)
  else if json.sameField "message" key then
    ({ v with Message := (json.decodeString j v.Message).1 }, (json.decodeString j v.Message).2)
  else (v, none)

/-- One member of a `ChatRoomUser`. -/
def json.stepChatRoomUser (key : String) (j : JsonValue) (v : ChatRoomUser) :
    ChatRoomUser × Option Error :=
  if json.sameField "id" key then
    ({ v with ID := (json.decodeString j v.ID).1 }, (json.decodeString j v.ID).2)
  else if json.sameField "userId" key then
    ({ v with UserID := (json.decodeString j v.UserID).1 }, (json.decodeString j v.UserID).2)
  else if json.sameField "time" key then
    ({ v with Time := (json.decodeString j v.Time).1 }, (json.decodeString j v.Time).2)
  else if json.sameField "isInChrm" key then
    ({ v with IsInChrm := (json.decodeInt j v.IsInChrm).1 }, (json.decodeInt j v.IsInChrm).2)
  else (v, none)

/-- Decode into a `[]ChatRoomUser`. -/
def json.decodeUsers : JsonValue → List ChatRoomUser → List ChatRoomUser × Option Error :=
  json.decodeSlice "[]sdk.ChatRoomUser" {} (json.decodeStruct "sdk.ChatRoomUser" json.stepChatRoomUser)

/-- Decode into a `[]string`. -/
def json.decodeStrings : JsonValue → List String → List String × Option Error :=
  json.decodeSlice "[]string" "" json.decodeString

/-- One member of a `ChatRoomResult`. -/
def json.stepChatRoomResult (key : String) (j : JsonValue) (v : ChatRoomResult) :
    ChatRoomResult × Option Error :=
  if json.sameField "total" key then
    ({ v with Total := (json.decodeInt j v.Total).1 }, (json.decodeInt j v.Total).2)
  else if json.sameField "users" key then
    ({ v with Users := (json.decodeUsers j v.Users).1 }, (json.decodeUsers j v.Users).2)
  else if json.sameField "result" key then
    ({ v with Result := (json.decodeUsers j v.Result).1 }, (json.decodeUsers j v.Result).2)
  else if json.sameField "objectNames" key then
    ({ v with ObjectNames := (json.decodeStrings j v.ObjectNames).1 },
      (json.decodeStrings j v.ObjectNames).2)
  else if json.sameField "chatroomids" key then
    ({ v with ChatRoomIDs := (json.decodeStrings j v.ChatRoomIDs).1 },
      (json.decodeStrings j v.ChatRoomIDs).2)
  else if json.sameField "whitlistMsgType" key then
    ({ v with WhitelistMsgType := (json.decodeStrings j v.WhitelistMsgType).1 },
      (json.decodeStrings j v.WhitelistMsgType).2)
  else (v, none)

/-- One member of a `ChatRoomGetResult`. -/
def json.stepChatRoomGetResult (key : String) (j : JsonValue) (v : ChatRoomGetResult) :
    ChatRoomGetResult × Option Error :=
  if json.sameField "code" key then
    ({ v with Code := (json.decodeInt j v.Code).1 }, (json.decodeInt j v.Code).2)
  else if json.sameField "chatroomId" key then
    ({ v with ChatroomId := (json.decodeString j v.ChatroomId).1 },
      (json.decodeString j v.ChatroomId).2)
  else if json.sameField "createTime" key then
    ({ v with CreateTime := (json.decodeInt j v.CreateTime).1 }, (json.decodeInt j v.CreateTime).2)
  else if json.sameField "memberCount" key then
    ({ v with MemberCount := (json.decodeInt j v.MemberCount).1 },
      (json.decodeInt j v.MemberCount).2)
  else if json.sameField "destroyType" key then
    ({ v with DestroyType := (json.decodeInt j v.DestroyType).1 },
      (json.decodeInt j v.DestroyType).2)
  else if json.sameField "destroyTime" key then
    ({ v with DestroyTime := (json.decodeInt j v.DestroyTime).1 },
      (json.decodeInt j v.DestroyTime).2)
  else if json.sameField "ban" key then
    ({ v with IsBan := (json.decodeBool j v.IsBan).1 }, (json.decodeBool j v.IsBan).2)
  else (v, none)

/-- One member of a `ChatUserExistObj`. -/
def json.stepChatUserExistObj (key : String) (j : JsonValue) (v : ChatUserExistObj) :
    ChatUserExistObj × Option Error :=
  if json.sameField "code" key then
    ({ v with Code := (json.decodeInt j v.Code).1 }, (json.decodeInt j v.Code).2)
  else if json.sameField "isInChrm" key then
    ({ v with IsInChrm := (json.decodeBool j v.IsInChrm).1 }, (json.decodeBool j v.IsInChrm).2)
  else (v, none)

/-- One member of a `ChatRoomAttr`. -/
def json.stepChatRoomAttr (key : String) (j : JsonValue) (v : ChatRoomAttr) :
    ChatRoomAttr × Option Error :=
  if json.sameField "key" key then
    ({ v with Key := (json.decodeString j v.Key).1 }, (json.decodeString j v.Key).2)
  else if json.sameField "value" key then
    ({ v with Value := (json.decodeString j v.Value).1 }, (json.decodeString j v.Value).2)
  else if json.sameField "userID" key then
    ({ v with UserID := (json.decodeString j v.UserID).1 }, (json.decodeString j v.UserID).2)
  else if json.sameField "autoDelete" key then
    ({ v with AutoDelete := (json.decodeString j v.AutoDelete).1 },
      (json.decodeString j v.AutoDelete).2)
  else if json.sameField "lastSetTime" key then
    ({ v with LastSetTime := (json.decodeString j v.LastSetTime).1 },
      (json.decodeString j v.LastSetTime).2)
  else (v, none)

/-- One member of a `ChatRoomAttrResult`. -/
def json.stepChatRoomAttrResult (key : String) (j : JsonValue) (v : ChatRoomAttrResult) :
    ChatRoomAttrResult × Option Error :=
  if json.sameField "keys" key then
    ({ v with
        Keys := (json.decodeSlice "[]sdk.ChatRoomAttr" {}
          (json.decodeStruct "sdk.ChatRoomAttr" json.stepChatRoomAttr) j v.Keys).1 },
      (json.decodeSlice "[]sdk.ChatRoomAttr" {}
        (json.decodeStruct "sdk.ChatRoomAttr" json.stepChatRoomAttr) j v.Keys).2)
  else (v, none)

/-- One member of a `ChatRoom`. -/
def json.stepChatRoom (key : String) (j : JsonValue) (v : ChatRoom) : ChatRoom × Option Error :=
  if json.sameField "chrmId" key then
    ({ v with ChatRoomID := (json.decodeString j v.ChatRoomID).1 },
      (json.decodeString j v.ChatRoomID).2)
  else if json.sameField "name" key then
    ({ v with Name := (json.decodeString j v.Name).1 }, (json.decodeString j v.Name).2)
  else if json.sameField "time" key then
    ({ v with Time := (json.decodeString j v.Time).1 }, (json.decodeString j v.Time).2)
  else (v, none)

/-- One member of a `ChatRoomQueryResult`. -/
def json.stepChatRoomQueryResult (key : String) (j : JsonValue) (v : ChatRoomQueryResult) :
    ChatRoomQueryResult × Option Error :=
  if json.sameField "chatRooms" key then
    ({ v with
        ChatRooms := (json.decodeSlice "[]sdk.ChatRoom" {}
          (json.decodeStruct "sdk.ChatRoom" json.stepChatRoom) j v.ChatRooms).1 },
      (json.decodeSlice "[]sdk.ChatRoom" {}
        (json.decodeStruct "sdk.ChatRoom" json.stepChatRoom) j v.ChatRooms).2)
  else (v, none)

/-- One member of the struct decoded by `ChatRoomBanCheck`. -/
def json.stepBanCheckData (key : String) (j : JsonValue) (v : BanCheckData) :
    BanCheckData × Option Error :=
  if json.sameField "code" key then
    ({ v with Code := (json.decodeInt j v.Code).1 }, (json.decodeInt j v.Code).2)
  else if json.sameField "status" key then
    ({ v with Status := (json.decodeInt j v.Status).1 }, (json.decodeInt j v.Status).2)
  else (v, none)

/-- One member of the struct decoded by `ChatRoomUserBanWhitelistQuery`. -/
def json.stepBanWhitelistData (key : String) (j : JsonValue) (v : BanWhitelistData) :
    BanWhitelistData × Option Error :=
  if json.sameField "code" key then
    ({ v with Code := (json.decodeInt j v.Code).1 }, (json.decodeInt j v.Code).2)
  else if json.sameField "userIds" key then
    ({ v with UserIds := (json.decodeStrings j v.UserIds).1 }, (json.decodeStrings j v.UserIds).2)
  else (v, none)

mutual
/-- The Go value that `json.Unmarshal` stores into an `interface{}`; a number
that does not fit a `float64` leaves nil. -/
def json.toGoValue : JsonValue → GoValue
  | JsonValue.null => GoValue.nil
  | JsonValue.bool b => GoValue.bool b
  | JsonValue.number _ q fits => if fits then GoValue.float64 q else GoValue.nil
  | JsonValue.string s => GoValue.string s
  | JsonValue.array xs => GoValue.slice (json.toGoValues xs)
  | JsonValue.object kv => GoValue.map (json.toGoMap kv [])
/-- The Go values of the elements of an array. -/
def json.toGoValues : List JsonValue → List GoValue
  | [] => []
  | x :: xs => json.toGoValue x :: json.toGoValues xs
/-- The members of an object stored one after the other into a Go map: a
member replaces the entry that has its key. -/
def json.toGoMap : List (String × JsonValue) → GoMap → GoMap
  | [], m => m
  | (k, j) :: rest, m =>
    json.toGoMap rest ((m.filter (fun p => p.1 != k)) ++ [(k, json.toGoValue j)])
end

mutual
/-- Every number of the value fits a `float64`. -/
def json.numbersFit : JsonValue → Bool
  | JsonValue.null => true
  | JsonValue.bool _ => true
  | JsonValue.number _ _ fits => fits
  | JsonValue.string _ => true
  | JsonValue.array xs => json.numbersFitAll xs
  | JsonValue.object kv => json.numbersFitMembers kv
/-- Every number of the elements fits a `float64`. -/
def json.numbersFitAll : List JsonValue → Bool
  | [] => true
  | x :: xs => json.numbersFit x && json.numbersFitAll xs
/-- Every number of the members fits a `float64`. -/
def json.numbersFitMembers : List (String × JsonValue) → Bool
  | [] => true
  | (_, j) :: rest => json.numbersFit j && json.numbersFitMembers rest
end

/-- Decode into a `map[string]interface{}`: every member is stored, and a
number that does not fit a `float64` is the error of the call. -/
def json.decodeMap (j : JsonValue) (old : GoMap) : GoMap × Option Error :=
  match j with
  | JsonValue.null => ([], none)
  | JsonValue.object kv =>
    (json.toGoMap kv old,
      if json.numbersFitMembers kv then none else some (json.typeError "float64"))
  | _ => (old, some (json.typeError "map[string]interface {}"))

/-- The model of `encoding/json` as a codec; `Marshal` stays a parameter. -/
def goJSON (Marshal : GoMap → Bytes × Option Error) : JSON :=
  { Marshal := Marshal
    UnmarshalChatUserExistObj :=
      json.Unmarshal (json.decodeStruct "sdk.ChatUserExistObj" json.stepChatUserExistObj)
    UnmarshalChatRoomGetResult :=
      json.Unmarshal (json.decodeStruct "sdk.ChatRoomGetResult" json.stepChatRoomGetResult)
    UnmarshalChatRoomResult :=
      json.Unmarshal (json.decodeStruct "sdk.ChatRoomResult" json.stepChatRoomResult)
    UnmarshalChatRoomAttrResult :=
      json.Unmarshal (json.decodeStruct "sdk.ChatRoomAttrResult" json.stepChatRoomAttrResult)
    UnmarshalChatRoomQueryResult :=
      json.Unmarshal (json.decodeStruct "sdk.ChatRoomQueryResult" json.stepChatRoomQueryResult)
    UnmarshalCodeResult := json.Unmarshal (json.decodeStruct "sdk.CodeResult" json.stepCodeResult)
    UnmarshalMap := json.Unmarshal json.decodeMap
    UnmarshalBanCheckData :=
      json.Unmarshal (json.decodeStruct "struct" json.stepBanCheckData)
    UnmarshalBanWhitelistData :=
      json.Unmarshal (json.decodeStruct "struct" json.stepBanWhitelistData) }

/-- A client for examples whose transport answers every request with the given
body and no error, and that decodes with the model of `encoding/json`. -/
def replyClient (body : Bytes) : RongCloud :=
  { rongCloudURI := "http://api.example"
    timeout := 10
    ReqType := "json"
    headers := []
    do_ := fun _ => (body, none)
    Response := fun _ => none
    Bytes := fun _ => (body, none)
    json := goJSON (fun _ => ("\x7b\x7d", none)) }

/-- A client for examples whose transport fails on every request with a
time-out error. -/
def failingClient : RongCloud :=
  { rongCloudURI := "http://api.example"
    timeout := 10
    ReqType := "json"
    headers := []
    do_ := fun _ => ("", some (Error.transport "timeout"))
    Response := fun _ => some (Error.transport "timeout")
    Bytes := fun _ => ("", some (Error.transport "timeout"))
    json := goJSON (fun _ => ("\x7b\x7d", none)) }

/-- A client for examples whose format constant `ReqType` is "xml". -/
def xmlClient : RongCloud :=
  { rongCloudURI := "http://api.example"
    timeout := 10
    ReqType := "xml"
    headers := []
    do_ := fun _ => ("", none)
    Response := fun _ => none
    Bytes := fun _ => ("", none)
    json := stubJSON }

/-- Read a natural number from its decimal representation: a non-empty text
of decimal digits. -/
def parseDecimal (s : String) : Option Nat :=
  if s.data.isEmpty || !(s.data.all Char.isDigit) then none
  else some (json.natOfDigits s.data)

/-- The transport of the client fails on every request with the error `e`,
whatever bytes it returns with it. -/
def RongCloud.transportFails (rc : RongCloud) (e : Error) : Prop :=
  ∀ req, (rc.do_ req).2 = some e

/-- Modelled from the spec: the transport `rc.do` is defined in a file of the
repository that is not part of the sources at hand; section 2 says it returns
raw bytes or a transport error, so no bytes come with an error. -/
def RongCloud.bytesOrError (rc : RongCloud) : Prop :=
  ∀ req, (rc.do_ req).2 ≠ none → (rc.do_ req).1 = ""

/-- The call handed exactly one request to the transport and returned the
error `e` together with the value `zero`. -/
def Outcome.returnsError {α : Type} (o : Outcome α) (e : Error) (zero : α) : Prop :=
  o.sent.length = 1 ∧ o.err = some e ∧ o.value = zero

/-- Every request the call handed to the transport went to this URL. -/
def Outcome.sentTo {α : Type} (o : Outcome α) (url : String) : Prop :=
  ∀ req ∈ o.sent, req.url = url

/-- Every request the run handed to the transport went to this URL. -/
def Run.sentTo {α : Type} (r : Run α) (url : String) : Prop :=
  ∀ req ∈ r.sent, req.url = url

/-- A run panicked. -/
def Run.didPanic {α : Type} : Run α → Bool
  | Run.returned _ => false
  | Run.panicked _ => true

/-- The value a run returned, `none` when it panicked. -/
def Run.value {α : Type} : Run α → Option α
  | Run.returned o => some o.value
  | Run.panicked _ => none

/-- A transport collaborator that holds state of its own (the rooms and members
of the remote service, the clock and nonce of the signature): `reply` answers a
request in a state and gives the next state, `headers` is what the hook
`fillHeader` injects in a state.  The theorems hold for every such service. -/
structure Service (σ : Type) where
  reply : σ → Request → (Bytes × Option Error) × σ
  headers : σ → List (String × String)

/-- The client as a call finds it while the service is in the state `s`: the
configuration of `rc`, with the transport and the header hook of the service. -/
def RongCloud.inState {σ : Type} (rc : RongCloud) (srv : Service σ) (s : σ) : RongCloud :=
  { rc with do_ := fun req => (srv.reply s req).1, headers := srv.headers s }

/-- The state of the service after it has answered the given requests in
order. -/
def Service.after {σ : Type} (srv : Service σ) (s : σ) (reqs : List Request) : σ :=
  reqs.foldl (fun t req => (srv.reply t req).2) s

/-- Two successive calls of one operation on one client, the service starting
in the state `s`: the outcome of the first call and the outcome of the second,
which finds the service in the state the first call left. -/
def twice {σ α : Type} (srv : Service σ) (rc : RongCloud) (op : RongCloud → Outcome α)
    (s : σ) : Outcome α × Outcome α :=
  let first := op (rc.inState srv s)
  (first, op (rc.inState srv (srv.after s first.sent)))

/-- What the operation itself puts into a request: everything but the headers
that the hook `fillHeader` injects. -/
def Request.withoutHeader (req : Request) : Request :=
  { req with header := [] }

/-- An operation keeps no state over two successive calls on one client.  Each
call hands exactly one request to the transport.  The two requests agree in
all that the operation builds (method, URL, time-outs, form fields), each
carries the headers the hook injects at its time, and they are the same request
when the hook injects the same headers.  The error of each call is the error of
the reply to its own request, whatever that reply is, and against a service
that always returns success both calls return a nil error. -/
def statelessOn {σ : Type} (srv : Service σ) (rc : RongCloud)
    (op : RongCloud → Outcome Unit) (s : σ) : Prop :=
  ∃ req1 req2,
    (twice srv rc op s).1.sent = [req1] ∧
    (twice srv rc op s).2.sent = [req2] ∧
    req2.withoutHeader = req1.withoutHeader ∧
    req1.header = srv.headers s ∧
    req2.header = srv.headers (srv.reply s req1).2 ∧
    (srv.headers (srv.reply s req1).2 = srv.headers s → req2 = req1) ∧
    (twice srv rc op s).1.err = (srv.reply s req1).1.2 ∧
    (twice srv rc op s).2.err = (srv.reply (srv.reply s req1).2 req2).1.2 ∧
    ((∀ t req, (srv.reply t req).1.2 = none) →
      (twice srv rc op s).1.err = none ∧ (twice srv rc op s).2.err = none)

/-- A service for examples that conditions removal on prior presence.  Its
state is the list of members under a restriction; a request whose "userId"
fields are all in the list succeeds and removes them, any other request fails;
the header it injects changes with the state. -/
def presenceService : Service (List String) :=
  { reply := fun t req =>
      if (req.values "userId").all (fun m => t.contains m) then
        (("\x7b\"code\":200\x7d", none),
          t.filter (fun m => !(req.values "userId").contains m))
      else (("", some (Error.transport "not present")), t)
    headers := fun t => [("Nonce", String.join t)] }

/-! ## Auxiliary facts -/

theorem len_empty : len "" = 0 := by decide

theorem len_eq_zero_iff (s : String) : len s = 0 ↔ s = "" := by
  constructor
  · intro h
    cases s with
    | mk cs =>
      cases cs with
      | nil => rfl
      | cons c cs =>
        have hpos := Char.utf8Size_pos c
        simp only [len, String.utf8ByteSize, String.utf8ByteSize.go] at h
        omega
  · rintro rfl
    rfl

theorem ParamEach_eq (req : Request) (key : String) (vs : List String) :
    req.ParamEach key vs = { req with params := req.params ++ vs.map (fun v => (key, v)) } := by
  unfold Request.ParamEach
  induction vs generalizing req with
  | nil => simp
  | cons v vs ih =>
    rw [List.foldl_cons, ih]
    simp [Request.Param]

theorem ParamEach_params (req : Request) (key : String) (vs : List String) :
    (req.ParamEach key vs).params = req.params ++ vs.map (fun v => (key, v)) := by
  rw [ParamEach_eq]

theorem values_newRequest (rc : RongCloud) (url key : String) :
    (rc.newRequest url).values key = [] := rfl

theorem values_Param (req : Request) (k v key : String) :
    (req.Param k v).values key = req.values key ++ (if k = key then [v] else []) := by
  by_cases h : k = key <;> simp [Request.values, Request.Param, List.filter_append, h]

theorem values_ParamEach (req : Request) (k : String) (vs : List String) (key : String) :
    (req.ParamEach k vs).values key = req.values key ++ (if k = key then vs else []) := by
  simp only [Request.values, ParamEach_params, List.filter_append, List.map_append]
  congr 1
  by_cases h : k = key
  · subst h
    simp [List.filter_map, Function.comp_def]
  · simp [List.filter_map, Function.comp_def, h]

theorem values_ParamNotify (req : Request) (o : chatroomOptions) (key : String) :
    (req.ParamNotify o).values key =
      req.values key ++
        (if o.needNotify then
          (if "needNotify" = key then ["true"] else []) ++ (if "extra" = key then [o.extra] else [])
        else []) := by
  unfold Request.ParamNotify
  cases h : o.needNotify
  · simp
  · simp [values_Param, strconv.FormatBool]

theorem mem_keys_iff (req : Request) (key : String) :
    key ∈ req.keys ↔ req.values key ≠ [] := by
  simp only [Request.keys, Request.values, List.mem_map, ne_eq, List.map_eq_nil_iff,
    List.filter_eq_nil_iff, not_forall]
  constructor
  · rintro ⟨p, hp, rfl⟩
    exact ⟨p, hp, by simp⟩
  · rintro ⟨p, hp, h⟩
    exact ⟨p, hp, by simpa using h⟩

theorem notifyFieldsAsSpecified_of_values (o : chatroomOptions) (req : Request)
    (h1 : req.values "needNotify" = if o.needNotify then ["true"] else [])
    (h2 : req.values "extra" = if o.needNotify then [o.extra] else []) :
    notifyFieldsAsSpecified o req := by
  unfold notifyFieldsAsSpecified
  rw [mem_keys_iff, mem_keys_iff, h1, h2]
  cases o.needNotify <;> simp

theorem notify_only_if_needNotify_of_values (o : chatroomOptions) (req : Request)
    (h1 : req.values "needNotify" = if o.needNotify then ["true"] else [])
    (h2 : req.values "extra" = if o.needNotify then [o.extra] else []) :
    ("needNotify" ∈ req.keys → o.needNotify = true) ∧
    ("extra" ∈ req.keys → o.needNotify = true) := by
  rw [mem_keys_iff, mem_keys_iff, h1, h2]
  cases o.needNotify <;> simp

theorem length_ne_zero_of_ne_nil {α : Type} {l : List α} (h : l ≠ []) : ¬ l.length = 0 := by
  simpa [List.length_eq_zero] using h

/-! ### The request of each operation with a member list or notify fields -/

theorem ChatRoomIsExist_sent (rc : RongCloud) (id : String) (members : List String)
    (hid : id ≠ "") (hms : members ≠ []) :
    (ChatRoomIsExist rc id members).sent =
      [((rc.newRequest (rc.rongCloudURI ++ "/chatroom/users/exist." ++ rc.ReqType)).Param
        "chatroomId" id).ParamEach "userId" members] := by
  unfold ChatRoomIsExist
  rw [if_neg hid, if_neg (length_ne_zero_of_ne_nil hms)]
  simp only []
  split
  · rfl
  · split <;> rfl

theorem ChatRoomBlockAdd_valid (rc : RongCloud) (id : String) (members : List String)
    (minute : Nat) (options : List ChatroomOption)
    (hid : id ≠ "") (hms : members ≠ []) (hmin : minute ≠ 0) :
    ChatRoomBlockAdd rc id members minute options =
      rc.send (((((rc.newRequest
        (rc.rongCloudURI ++ "/chatroom/user/block/add." ++ rc.ReqType)).Param
        "chatroomId" id).ParamEach "userId" members).Param "minute"
        (strconv.Itoa (intOfUint minute))).ParamNotify (modifyChatroomOptions options)) := by
  unfold ChatRoomBlockAdd
  rw [if_neg hid, if_neg (length_ne_zero_of_ne_nil hms), if_neg hmin]

theorem ChatRoomBlockRemove_valid (rc : RongCloud) (id : String) (members : List String)
    (options : List ChatroomOption) (hid : id ≠ "") (hms : members ≠ []) :
    ChatRoomBlockRemove rc id members options =
      rc.send ((((rc.newRequest
        (rc.rongCloudURI ++ "/chatroom/user/block/rollback." ++ rc.ReqType)).ParamEach
        "userId" members).Param "chatroomId" id).ParamNotify (modifyChatroomOptions options)) := by
  unfold ChatRoomBlockRemove
  rw [if_neg hid, if_neg (length_ne_zero_of_ne_nil hms)]

theorem ChatRoomBanAdd_valid (rc : RongCloud) (members : List String)
    (minute : Nat) (options : List ChatroomOption) (hms : members ≠ []) (hmin : minute ≠ 0) :
    ChatRoomBanAdd rc members minute options =
      rc.send ((((rc.newRequest
        (rc.rongCloudURI ++ "/chatroom/user/ban/add." ++ rc.ReqType)).ParamEach
        "userId" members).Param "minute"
        (strconv.Itoa (intOfUint minute))).ParamNotify (modifyChatroomOptions options)) := by
  unfold ChatRoomBanAdd
  rw [if_neg (length_ne_zero_of_ne_nil hms), if_neg hmin]

theorem ChatRoomBanRemove_valid (rc : RongCloud) (members : List String)
    (options : List ChatroomOption) (hms : members ≠ []) :
    ChatRoomBanRemove rc members options =
      rc.send (((rc.newRequest
        (rc.rongCloudURI ++ "/chatroom/user/ban/remove." ++ rc.ReqType)).ParamEach
        "userId" members).ParamNotify (modifyChatroomOptions options)) := by
  unfold ChatRoomBanRemove
  rw [if_neg (length_ne_zero_of_ne_nil hms)]

theorem ChatRoomGagAdd_valid (rc : RongCloud) (id : String) (members : List String)
    (minute : Nat) (options : List ChatroomOption)
    (hid : id ≠ "") (hms : members ≠ []) (hmin : minute ≠ 0) :
    ChatRoomGagAdd rc id members minute options =
      rc.send (((((rc.newRequest
        (rc.rongCloudURI ++ "/chatroom/user/gag/add." ++ rc.ReqType)).ParamEach
        "userId" members).Param "chatroomId" id).Param "minute"
        (strconv.Itoa (intOfUint minute))).ParamNotify (modifyChatroomOptions options)) := by
  unfold ChatRoomGagAdd
  rw [if_neg hid, if_neg (length_ne_zero_of_ne_nil hms), if_neg hmin]

theorem ChatRoomGagRemove_valid (rc : RongCloud) (id : String) (members : List String)
    (options : List ChatroomOption) (hid : id ≠ "") (hms : members ≠ []) :
    ChatRoomGagRemove rc id members options =
      rc.send ((((rc.newRequest
        (rc.rongCloudURI ++ "/chatroom/user/gag/rollback." ++ rc.ReqType)).ParamEach
        "userId" members).Param "chatroomId" id).ParamNotify (modifyChatroomOptions options)) := by
  unfold ChatRoomGagRemove
  rw [if_neg hid, if_neg (length_ne_zero_of_ne_nil hms)]

theorem ChatRoomUserWhitelistAdd_valid (rc : RongCloud) (id : String) (members : List String)
    (hid : id ≠ "") (hms : members ≠ []) :
    ChatRoomUserWhitelistAdd rc id members =
      rc.send (((rc.newRequest
        (rc.rongCloudURI ++ "/chatroom/user/whitelist/add." ++ rc.ReqType)).Param
        "chatroomId" id).ParamEach "userId" members) := by
  unfold ChatRoomUserWhitelistAdd
  rw [if_neg hid, if_neg (length_ne_zero_of_ne_nil hms)]

theorem ChatRoomUserWhitelistRemove_valid (rc : RongCloud) (id : String)
    (members : List String) (hid : id ≠ "") (hms : members ≠ []) :
    ChatRoomUserWhitelistRemove rc id members =
      rc.send (((rc.newRequest
        (rc.rongCloudURI ++ "/chatroom/user/whitelist/remove." ++ rc.ReqType)).Param
        "chatroomId" id).ParamEach "userId" members) := by
  unfold ChatRoomUserWhitelistRemove
  rw [if_neg hid, if_neg (length_ne_zero_of_ne_nil hms)]

theorem ChatRoomMuteMembersAdd_valid (rc : RongCloud) (id : String) (members : List String)
    (minute : Nat) (options : List ChatroomOption)
    (hid : id ≠ "") (hms : members ≠ []) (hmin : minute ≠ 0) :
    ChatRoomMuteMembersAdd rc id members minute options =
      rc.send (((((rc.newRequest
        (rc.rongCloudURI ++ "/chatroom/user/gag/add." ++ rc.ReqType)).ParamEach
        "userId" members).Param "chatroomId" id).Param "minute"
        (strconv.Itoa (intOfUint minute))).ParamNotify (modifyChatroomOptions options)) := by
  unfold ChatRoomMuteMembersAdd
  rw [if_neg hid, if_neg (length_ne_zero_of_ne_nil hms), if_neg hmin]

theorem ChatRoomMuteMembersRemove_valid (rc : RongCloud) (id : String) (members : List String)
    (options : List ChatroomOption) (hid : id ≠ "") (hms : members ≠ []) :
    ChatRoomMuteMembersRemove rc id members options =
      rc.send ((((rc.newRequest
        (rc.rongCloudURI ++ "/chatroom/user/gag/rollback." ++ rc.ReqType)).ParamEach
        "userId" members).Param "chatroomId" id).ParamNotify (modifyChatroomOptions options)) := by
  unfold ChatRoomMuteMembersRemove
  rw [if_neg hid, if_neg (length_ne_zero_of_ne_nil hms)]

theorem ChatRoomBan_valid (rc : RongCloud) (chatroomId : String)
    (options : List ChatroomOption) (hid : chatroomId ≠ "") :
    ChatRoomBan rc chatroomId options =
      rc.send (((rc.newRequest (rc.rongCloudURI ++ "/chatroom/ban/add." ++ rc.ReqType)).Param
        "chatroomId" chatroomId).ParamNotify (modifyChatroomOptions options)) := by
  unfold ChatRoomBan
  rw [if_neg hid]

theorem ChatRoomBanRollback_valid (rc : RongCloud) (chatroomId : String)
    (options : List ChatroomOption) (hid : chatroomId ≠ "") :
    ChatRoomBanRollback rc chatroomId options =
      rc.send (((rc.newRequest
        (rc.rongCloudURI ++ "/chatroom/ban/rollback." ++ rc.ReqType)).Param
        "chatroomId" chatroomId).ParamNotify (modifyChatroomOptions options)) := by
  unfold ChatRoomBanRollback
  rw [if_neg hid]

theorem ChatRoomUserBanWhitelistAdd_valid (rc : RongCloud) (chatroomId : String)
    (members : List String) (options : List ChatroomOption)
    (hid : chatroomId ≠ "") (hms : members ≠ []) :
    ChatRoomUserBanWhitelistAdd rc chatroomId members options =
      rc.send ((((rc.newRequest
        (rc.rongCloudURI ++ "/chatroom/user/ban/whitelist/add." ++ rc.ReqType)).ParamEach
        "userId" members).Param "chatroomId" chatroomId).ParamNotify
        (modifyChatroomOptions options)) := by
  unfold ChatRoomUserBanWhitelistAdd
  rw [if_neg hid, if_neg (length_ne_zero_of_ne_nil hms)]

theorem ChatRoomUserBanWhitelistRollback_valid (rc : RongCloud) (chatroomId : String)
    (members : List String) (options : List ChatroomOption)
    (hid : chatroomId ≠ "") (hms : members ≠ []) :
    ChatRoomUserBanWhitelistRollback rc chatroomId members options =
      rc.send ((((rc.newRequest
        (rc.rongCloudURI ++ "/chatroom/user/ban/whitelist/rollback." ++ rc.ReqType)).ParamEach
        "userId" members).Param "chatroomId" chatroomId).ParamNotify
        (modifyChatroomOptions options)) := by
  unfold ChatRoomUserBanWhitelistRollback
  rw [if_neg hid, if_neg (length_ne_zero_of_ne_nil hms)]

/-! ## C1: an empty room ID is rejected before any network call -/

/-- C1. Every operation that takes a chat-room ID, called with the empty string
as room ID and any other arguments, returns a validation error (code 1002) and
hands no request to the transport. -/
theorem C1_empty_room_id_is_rejected (rc : RongCloud) :
    (∀ userId, (ChatUserExistResObj rc "" userId).rejected) ∧
    (∀ userId, (ChatUserExist rc "" userId).rejected) ∧
    (∀ name, (ChatRoomCreate rc "" name).rejected) ∧
    (∀ options, (ChatRoomCreateNew rc "" options).rejected) ∧
    (∀ destroyType destroyTime, (ChatRoomDestroySet rc "" destroyType destroyTime).rejected) ∧
    (ChatRoomGetNew rc "").rejected ∧
    (∀ autoDelete entryOwnerId entryInfo,
      (ChatRoomEntryBatchSet rc "" autoDelete entryOwnerId entryInfo).rejected) ∧
    (ChatRoomDestroy rc "").rejected ∧
    (∀ count order, (ChatRoomGet rc "" count order).rejected) ∧
    (∀ members, (ChatRoomIsExist rc "" members).rejected) ∧
    (∀ members minute options, (ChatRoomBlockAdd rc "" members minute options).rejected) ∧
    (∀ members options, (ChatRoomBlockRemove rc "" members options).rejected) ∧
    (ChatRoomBlockGetList rc "").rejected ∧
    (∀ members minute options, (ChatRoomGagAdd rc "" members minute options).rejected) ∧
    (∀ members options, (ChatRoomGagRemove rc "" members options).rejected) ∧
    (ChatRoomGagGetList rc "").rejected ∧
    (ChatRoomDistributionStop rc "").rejected ∧
    (ChatRoomDistributionResume rc "").rejected ∧
    (ChatRoomKeepAliveAdd rc "").rejected ∧
    (ChatRoomKeepAliveRemove rc "").rejected ∧
    (∀ members, (ChatRoomUserWhitelistAdd rc "" members).rejected) ∧
    (∀ members, (ChatRoomUserWhitelistRemove rc "" members).rejected) ∧
    (ChatRoomUserWhitelistGetList rc "").rejected ∧
    (∀ members minute options, (ChatRoomMuteMembersAdd rc "" members minute options).rejected) ∧
    (∀ members options, (ChatRoomMuteMembersRemove rc "" members options).rejected) ∧
    (ChatRoomMuteMembersGetList rc "").rejected ∧
    (∀ userID key value autoDelete,
      (ChatRoomEntrySet rc "" userID key value autoDelete).rejected) ∧
    (∀ userID key, (ChatRoomEntryRemove rc "" userID key).rejected) ∧
    (∀ keys, (ChatRoomEntryQuery rc "" keys).rejected) ∧
    (∀ options, (ChatRoomBan rc "" options).rejected) ∧
    (∀ options, (ChatRoomBanRollback rc "" options).rejected) ∧
    (ChatRoomBanCheck rc "").rejected ∧
    (∀ members options, (ChatRoomUserBanWhitelistAdd rc "" members options).rejected) ∧
    (∀ members options, (ChatRoomUserBanWhitelistRollback rc "" members options).rejected) ∧
    (ChatRoomUserBanWhitelistQuery rc "").rejected := by
  refine ⟨?_, ?_, ?_, ?_, ?_, ?_, ?_, ?_, ?_, ?_, ?_, ?_, ?_, ?_, ?_, ?_, ?_, ?_, ?_, ?_, ?_,
    ?_, ?_, ?_, ?_, ?_, ?_, ?_, ?_, ?_, ?_, ?_, ?_, ?_, ?_⟩
  all_goals intros
  all_goals exact ⟨rfl, _, rfl⟩

/-! ## C2: validation of `ChatRoomEntrySet` -/

/-- C2. When one of the four string arguments of `ChatRoomEntrySet` is empty,
the call sends no request and returns the error with code 1002 whose message
names the first empty argument in the order chatRoomID, userID, key, value;
when none is empty the call passes validation: it hands exactly one request to
the transport and returns the error of the transport. -/
theorem C2_entry_set_names_first_empty_argument (rc : RongCloud)
    (chatRoomID userID key value : String) (autoDelete : Bool) :
    match firstEmpty [("chatRoomID", chatRoomID), ("userID", userID), ("key", key),
        ("value", value)] with
    | some name =>
      (ChatRoomEntrySet rc chatRoomID userID key value autoDelete).sent = [] ∧
      (ChatRoomEntrySet rc chatRoomID userID key value autoDelete).err =
        some (RCErrorNew 1002 ("Paramer '" ++ name ++ "' is required"))
    | none =>
      (ChatRoomEntrySet rc chatRoomID userID key value autoDelete).sent =
        [{ rc.newRequest (rc.rongCloudURI ++ "/chatroom/entry/set." ++ rc.ReqType) with
            params := [("chatroomId", chatRoomID), ("userId", userID), ("key", key),
              ("value", value), ("autoDelete", strconv.FormatBool autoDelete)] }] ∧
      (ChatRoomEntrySet rc chatRoomID userID key value autoDelete).err =
        (rc.do_ { rc.newRequest (rc.rongCloudURI ++ "/chatroom/entry/set." ++ rc.ReqType) with
            params := [("chatroomId", chatRoomID), ("userId", userID), ("key", key),
              ("value", value), ("autoDelete", strconv.FormatBool autoDelete)] }).2 := by
  by_cases h1 : chatRoomID = ""
  · subst h1
    exact ⟨rfl, rfl⟩
  by_cases h2 : userID = ""
  · subst h2
    simp only [firstEmpty, ChatRoomEntrySet, if_neg h1, if_true]
    exact ⟨trivial, rfl⟩
  by_cases h3 : key = ""
  · subst h3
    simp only [firstEmpty, ChatRoomEntrySet, if_neg h1, if_neg h2, if_true]
    exact ⟨trivial, rfl⟩
  by_cases h4 : value = ""
  · subst h4
    simp only [firstEmpty, ChatRoomEntrySet, if_neg h1, if_neg h2, if_neg h3, if_true]
    exact ⟨trivial, rfl⟩
  simp only [firstEmpty, ChatRoomEntrySet, if_neg h1, if_neg h2, if_neg h3, if_neg h4]
  exact ⟨rfl, rfl⟩

/-! ## C3: the default options -/

/-- C3. Applied to the empty option list, `modifyChatroomOptions` returns the
option set with needNotify=false, extra="", destroyType=0, destroyTime=60,
isBan=false, an empty whiteUserIds list, an empty entryOwnerId and an empty
entryInfo map. -/
theorem C3_no_options_gives_defaults :
    (modifyChatroomOptions []).needNotify = false ∧
    (modifyChatroomOptions []).extra = "" ∧
    (modifyChatroomOptions []).destroyType = 0 ∧
    (modifyChatroomOptions []).destroyTime = 60 ∧
    (modifyChatroomOptions []).isBan = false ∧
    (modifyChatroomOptions []).whiteUserIds = [] ∧
    (modifyChatroomOptions []).entryOwnerId = "" ∧
    (modifyChatroomOptions []).entryInfo = [] :=
  ⟨rfl, rfl, rfl, rfl, rfl, rfl, rfl, rfl⟩

/-! ## C4: later setters override earlier ones -/

theorem modifyChatroomOptions_append_one (options : List ChatroomOption) (ext : ChatroomOption) :
    modifyChatroomOptions (options ++ [ext]) = ext (modifyChatroomOptions options) := by
  simp [modifyChatroomOptions, List.foldl_append]

theorem lastSetter_append_one {α : Type} (field : Setter → Option α) (setters : List Setter)
    (s : Setter) :
    lastSetter field (setters ++ [s]) =
      match field s with
      | some v => some v
      | none => lastSetter field setters := by
  unfold lastSetter
  rw [List.filterMap_append]
  cases h : field s with
  | none => simp [List.filterMap, h]
  | some v => simp [List.filterMap, h]

theorem modifyChatroomOptions_setters (setters : List Setter) :
    modifyChatroomOptions (setters.map Setter.toOption) = resolvedBySpec setters := by
  induction setters using List.reverseRecOn with
  | nil => rfl
  | append_singleton setters s ih =>
    rw [List.map_append, List.map_singleton, modifyChatroomOptions_append_one, ih]
    cases s <;>
      simp [Setter.toOption, resolvedBySpec, lastSetter_append_one, WithChatroomNeedNotify,
        WithChatroomExtra, WithChatroomDestroyType, WithChatroomDestroyTime, WithChatroomIsBan,
        WithChatroomWhiteUserIds, WithChatroomEntryOwnerId, WithChatroomEntryInfo]

/-- C4. For every list built from the eight setters, `modifyChatroomOptions`
returns for each field the value of the last setter for that field, or the
default when the list has none; and for every option list `opts` and all `a`,
`b`, resolving `opts` followed by `WithChatroomDestroyTime(a)` and
`WithChatroomDestroyTime(b)` gives destroyTime = b. -/
theorem C4_last_setter_wins :
    (∀ setters : List Setter,
      modifyChatroomOptions (setters.map Setter.toOption) = resolvedBySpec setters) ∧
    (∀ (opts : List ChatroomOption) (a b : Int),
      (modifyChatroomOptions
        (opts ++ [WithChatroomDestroyTime a, WithChatroomDestroyTime b])).destroyTime = b) := by
  refine ⟨modifyChatroomOptions_setters, ?_⟩
  intro opts a b
  simp [modifyChatroomOptions, List.foldl_append, WithChatroomDestroyTime]

/-! ## C5: every setter writes one field -/

/-- C5. Each of the eight option setters, applied with any argument to any
option set, sets its own field to the argument and leaves the other seven
fields unchanged. -/
theorem C5_setter_writes_exactly_its_field (s : chatroomOptions) :
    (∀ v, (WithChatroomNeedNotify v s).needNotify = v ∧
      (WithChatroomNeedNotify v s).extra = s.extra ∧
      (WithChatroomNeedNotify v s).destroyType = s.destroyType ∧
      (WithChatroomNeedNotify v s).destroyTime = s.destroyTime ∧
      (WithChatroomNeedNotify v s).isBan = s.isBan ∧
      (WithChatroomNeedNotify v s).whiteUserIds = s.whiteUserIds ∧
      (WithChatroomNeedNotify v s).entryOwnerId = s.entryOwnerId ∧
      (WithChatroomNeedNotify v s).entryInfo = s.entryInfo) ∧
    (∀ v, (WithChatroomExtra v s).needNotify = s.needNotify ∧
      (WithChatroomExtra v s).extra = v ∧
      (WithChatroomExtra v s).destroyType = s.destroyType ∧
      (WithChatroomExtra v s).destroyTime = s.destroyTime ∧
      (WithChatroomExtra v s).isBan = s.isBan ∧
      (WithChatroomExtra v s).whiteUserIds = s.whiteUserIds ∧
      (WithChatroomExtra v s).entryOwnerId = s.entryOwnerId ∧
      (WithChatroomExtra v s).entryInfo = s.entryInfo) ∧
    (∀ v, (WithChatroomDestroyType v s).needNotify = s.needNotify ∧
      (WithChatroomDestroyType v s).extra = s.extra ∧
      (WithChatroomDestroyType v s).destroyType = v ∧
      (WithChatroomDestroyType v s).destroyTime = s.destroyTime ∧
      (WithChatroomDestroyType v s).isBan = s.isBan ∧
      (WithChatroomDestroyType v s).whiteUserIds = s.whiteUserIds ∧
      (WithChatroomDestroyType v s).entryOwnerId = s.entryOwnerId ∧
      (WithChatroomDestroyType v s).entryInfo = s.entryInfo) ∧
    (∀ v, (WithChatroomDestroyTime v s).needNotify = s.needNotify ∧
      (WithChatroomDestroyTime v s).extra = s.extra ∧
      (WithChatroomDestroyTime v s).destroyType = s.destroyType ∧
      (WithChatroomDestroyTime v s).destroyTime = v ∧
      (WithChatroomDestroyTime v s).isBan = s.isBan ∧
      (WithChatroomDestroyTime v s).whiteUserIds = s.whiteUserIds ∧
      (WithChatroomDestroyTime v s).entryOwnerId = s.entryOwnerId ∧
      (WithChatroomDestroyTime v s).entryInfo = s.entryInfo) ∧
    (∀ v, (WithChatroomIsBan v s).needNotify = s.needNotify ∧
      (WithChatroomIsBan v s).extra = s.extra ∧
      (WithChatroomIsBan v s).destroyType = s.destroyType ∧
      (WithChatroomIsBan v s).destroyTime = s.destroyTime ∧
      (WithChatroomIsBan v s).isBan = v ∧
      (WithChatroomIsBan v s).whiteUserIds = s.whiteUserIds ∧
      (WithChatroomIsBan v s).entryOwnerId = s.entryOwnerId ∧
      (WithChatroomIsBan v s).entryInfo = s.entryInfo) ∧
    (∀ v, (WithChatroomWhiteUserIds v s).needNotify = s.needNotify ∧
      (WithChatroomWhiteUserIds v s).extra = s.extra ∧
      (WithChatroomWhiteUserIds v s).destroyType = s.destroyType ∧
      (WithChatroomWhiteUserIds v s).destroyTime = s.destroyTime ∧
      (WithChatroomWhiteUserIds v s).isBan = s.isBan ∧
      (WithChatroomWhiteUserIds v s).whiteUserIds = v ∧
      (WithChatroomWhiteUserIds v s).entryOwnerId = s.entryOwnerId ∧
      (WithChatroomWhiteUserIds v s).entryInfo = s.entryInfo) ∧
    (∀ v, (WithChatroomEntryOwnerId v s).needNotify = s.needNotify ∧
      (WithChatroomEntryOwnerId v s).extra = s.extra ∧
      (WithChatroomEntryOwnerId v s).destroyType = s.destroyType ∧
      (WithChatroomEntryOwnerId v s).destroyTime = s.destroyTime ∧
      (WithChatroomEntryOwnerId v s).isBan = s.isBan ∧
      (WithChatroomEntryOwnerId v s).whiteUserIds = s.whiteUserIds ∧
      (WithChatroomEntryOwnerId v s).entryOwnerId = v ∧
      (WithChatroomEntryOwnerId v s).entryInfo = s.entryInfo) ∧
    (∀ v, (WithChatroomEntryInfo v s).needNotify = s.needNotify ∧
      (WithChatroomEntryInfo v s).extra = s.extra ∧
      (WithChatroomEntryInfo v s).destroyType = s.destroyType ∧
      (WithChatroomEntryInfo v s).destroyTime = s.destroyTime ∧
      (WithChatroomEntryInfo v s).isBan = s.isBan ∧
      (WithChatroomEntryInfo v s).whiteUserIds = s.whiteUserIds ∧
      (WithChatroomEntryInfo v s).entryOwnerId = s.entryOwnerId ∧
      (WithChatroomEntryInfo v s).entryInfo = v) := by
  refine ⟨?_, ?_, ?_, ?_, ?_, ?_, ?_, ?_⟩ <;> intro v <;>
    exact ⟨rfl, rfl, rfl, rfl, rfl, rfl, rfl, rfl⟩

/-! ## C6: a member list becomes repeated "userId" fields -/

/-- C6. For every non-empty room ID and every non-empty member list `ms`, the
request built by a member-list operation (for the operations with a duration:
when the duration is positive, so that a request is built) has exactly the
"userId" fields of `ms`: one field per member, in input order, duplicates kept,
no joined value.  `ChatRoomBanAdd` and `ChatRoomBanRemove`, which take no room
ID, do the same. -/
theorem C6_members_become_repeated_userId_fields (rc : RongCloud) (id : String)
    (ms : List String) (minute : Nat) (options : List ChatroomOption)
    (hid : id ≠ "") (hms : ms ≠ []) (hmin : minute ≠ 0) :
    (ChatRoomIsExist rc id ms).sentOne (fun req => req.values "userId" = ms) ∧
    (ChatRoomBlockAdd rc id ms minute options).sentOne (fun req => req.values "userId" = ms) ∧
    (ChatRoomBlockRemove rc id ms options).sentOne (fun req => req.values "userId" = ms) ∧
    (ChatRoomGagAdd rc id ms minute options).sentOne (fun req => req.values "userId" = ms) ∧
    (ChatRoomGagRemove rc id ms options).sentOne (fun req => req.values "userId" = ms) ∧
    (ChatRoomUserWhitelistAdd rc id ms).sentOne (fun req => req.values "userId" = ms) ∧
    (ChatRoomUserWhitelistRemove rc id ms).sentOne (fun req => req.values "userId" = ms) ∧
    (ChatRoomMuteMembersAdd rc id ms minute options).sentOne (fun req => req.values "userId" = ms) ∧
    (ChatRoomMuteMembersRemove rc id ms options).sentOne (fun req => req.values "userId" = ms) ∧
    (ChatRoomUserBanWhitelistAdd rc id ms options).sentOne (fun req => req.values "userId" = ms) ∧
    (ChatRoomUserBanWhitelistRollback rc id ms options).sentOne (fun req => req.values "userId" = ms) ∧
    (ChatRoomBanAdd rc ms minute options).sentOne (fun req => req.values "userId" = ms) ∧
    (ChatRoomBanRemove rc ms options).sentOne (fun req => req.values "userId" = ms) := by
  refine ⟨?_, ?_, ?_, ?_, ?_, ?_, ?_, ?_, ?_, ?_, ?_, ?_, ?_⟩
  · exact ⟨_, ChatRoomIsExist_sent rc id ms hid hms, by simp [values_Param, values_ParamEach, values_newRequest]⟩
  · rw [ChatRoomBlockAdd_valid rc id ms minute options hid hms hmin]
    exact ⟨_, rfl, by simp [values_Param, values_ParamEach, values_ParamNotify, values_newRequest]⟩
  · rw [ChatRoomBlockRemove_valid rc id ms options hid hms]
    exact ⟨_, rfl, by simp [values_Param, values_ParamEach, values_ParamNotify, values_newRequest]⟩
  · rw [ChatRoomGagAdd_valid rc id ms minute options hid hms hmin]
    exact ⟨_, rfl, by simp [values_Param, values_ParamEach, values_ParamNotify, values_newRequest]⟩
  · rw [ChatRoomGagRemove_valid rc id ms options hid hms]
    exact ⟨_, rfl, by simp [values_Param, values_ParamEach, values_ParamNotify, values_newRequest]⟩
  · rw [ChatRoomUserWhitelistAdd_valid rc id ms hid hms]
    exact ⟨_, rfl, by simp [values_Param, values_ParamEach, values_ParamNotify, values_newRequest]⟩
  · rw [ChatRoomUserWhitelistRemove_valid rc id ms hid hms]
    exact ⟨_, rfl, by simp [values_Param, values_ParamEach, values_ParamNotify, values_newRequest]⟩
  · rw [ChatRoomMuteMembersAdd_valid rc id ms minute options hid hms hmin]
    exact ⟨_, rfl, by simp [values_Param, values_ParamEach, values_ParamNotify, values_newRequest]⟩
  · rw [ChatRoomMuteMembersRemove_valid rc id ms options hid hms]
    exact ⟨_, rfl, by simp [values_Param, values_ParamEach, values_ParamNotify, values_newRequest]⟩
  · rw [ChatRoomUserBanWhitelistAdd_valid rc id ms options hid hms]
    exact ⟨_, rfl, by simp [values_Param, values_ParamEach, values_ParamNotify, values_newRequest]⟩
  · rw [ChatRoomUserBanWhitelistRollback_valid rc id ms options hid hms]
    exact ⟨_, rfl, by simp [values_Param, values_ParamEach, values_ParamNotify, values_newRequest]⟩
  · rw [ChatRoomBanAdd_valid rc ms minute options hms hmin]
    exact ⟨_, rfl, by simp [values_Param, values_ParamEach, values_ParamNotify, values_newRequest]⟩
  · rw [ChatRoomBanRemove_valid rc ms options hms]
    exact ⟨_, rfl, by simp [values_Param, values_ParamEach, values_ParamNotify, values_newRequest]⟩

/-- C6, at a concrete call: three members, one of them twice, give three
"userId" fields in input order. -/
theorem C6_members_become_repeated_userId_fields_witness :
    "room1" ≠ "" ∧ ["u1", "u2", "u1"] ≠ [] ∧ 5 ≠ 0 ∧
    (ChatRoomBlockAdd stubClient "room1" ["u1", "u2", "u1"] 5 []).sentOne
      (fun req => req.values "userId" = ["u1", "u2", "u1"]) :=
  ⟨by decide, by decide, by decide,
    (C6_members_become_repeated_userId_fields stubClient "room1" ["u1", "u2", "u1"] 5 []
      (by decide) (by decide) (by decide)).2.1⟩

/-! ## C7: the notify fields -/

/-- C7. For every operation that emits notify fields and every valid call of
it (non-empty room ID, non-empty member list, positive duration, where the
operation has them), the request contains a "needNotify" field and an "extra"
field if and only if the resolved needNotify option is true; when it is true
there is exactly one "needNotify" field, with value "true", and exactly one
"extra" field, with the resolved extra string, also when that string is empty;
when it is false neither key occurs, whatever `WithChatroomExtra` supplied. -/
theorem C7_notify_fields_follow_needNotify (rc : RongCloud) (id : String)
    (ms : List String) (minute : Nat) (options : List ChatroomOption)
    (hid : id ≠ "") (hms : ms ≠ []) (hmin : minute ≠ 0) :
    (ChatRoomBlockAdd rc id ms minute options).sentOne
      (notifyFieldsAsSpecified (modifyChatroomOptions options)) ∧
    (ChatRoomBlockRemove rc id ms options).sentOne
      (notifyFieldsAsSpecified (modifyChatroomOptions options)) ∧
    (ChatRoomBanAdd rc ms minute options).sentOne
      (notifyFieldsAsSpecified (modifyChatroomOptions options)) ∧
    (ChatRoomBanRemove rc ms options).sentOne
      (notifyFieldsAsSpecified (modifyChatroomOptions options)) ∧
    (ChatRoomGagAdd rc id ms minute options).sentOne
      (notifyFieldsAsSpecified (modifyChatroomOptions options)) ∧
    (ChatRoomGagRemove rc id ms options).sentOne
      (notifyFieldsAsSpecified (modifyChatroomOptions options)) ∧
    (ChatRoomMuteMembersAdd rc id ms minute options).sentOne
      (notifyFieldsAsSpecified (modifyChatroomOptions options)) ∧
    (ChatRoomMuteMembersRemove rc id ms options).sentOne
      (notifyFieldsAsSpecified (modifyChatroomOptions options)) ∧
    (ChatRoomBan rc id options).sentOne
      (notifyFieldsAsSpecified (modifyChatroomOptions options)) ∧
    (ChatRoomBanRollback rc id options).sentOne
      (notifyFieldsAsSpecified (modifyChatroomOptions options)) ∧
    (ChatRoomUserBanWhitelistAdd rc id ms options).sentOne
      (notifyFieldsAsSpecified (modifyChatroomOptions options)) ∧
    (ChatRoomUserBanWhitelistRollback rc id ms options).sentOne
      (notifyFieldsAsSpecified (modifyChatroomOptions options)) := by
  refine ⟨?_, ?_, ?_, ?_, ?_, ?_, ?_, ?_, ?_, ?_, ?_, ?_⟩
  · rw [ChatRoomBlockAdd_valid rc id ms minute options hid hms hmin]
    exact ⟨_, rfl, notifyFieldsAsSpecified_of_values _ _
      (by simp [values_Param, values_ParamEach, values_ParamNotify, values_newRequest])
      (by simp [values_Param, values_ParamEach, values_ParamNotify, values_newRequest])⟩
  · rw [ChatRoomBlockRemove_valid rc id ms options hid hms]
    exact ⟨_, rfl, notifyFieldsAsSpecified_of_values _ _
      (by simp [values_Param, values_ParamEach, values_ParamNotify, values_newRequest])
      (by simp [values_Param, values_ParamEach, values_ParamNotify, values_newRequest])⟩
  · rw [ChatRoomBanAdd_valid rc ms minute options hms hmin]
    exact ⟨_, rfl, notifyFieldsAsSpecified_of_values _ _
      (by simp [values_Param, values_ParamEach, values_ParamNotify, values_newRequest])
      (by simp [values_Param, values_ParamEach, values_ParamNotify, values_newRequest])⟩
  · rw [ChatRoomBanRemove_valid rc ms options hms]
    exact ⟨_, rfl, notifyFieldsAsSpecified_of_values _ _
      (by simp [values_Param, values_ParamEach, values_ParamNotify, values_newRequest])
      (by simp [values_Param, values_ParamEach, values_ParamNotify, values_newRequest])⟩
  · rw [ChatRoomGagAdd_valid rc id ms minute options hid hms hmin]
    exact ⟨_, rfl, notifyFieldsAsSpecified_of_values _ _
      (by simp [values_Param, values_ParamEach, values_ParamNotify, values_newRequest])
      (by simp [values_Param, values_ParamEach, values_ParamNotify, values_newRequest])⟩
  · rw [ChatRoomGagRemove_valid rc id ms options hid hms]
    exact ⟨_, rfl, notifyFieldsAsSpecified_of_values _ _
      (by simp [values_Param, values_ParamEach, values_ParamNotify, values_newRequest])
      (by simp [values_Param, values_ParamEach, values_ParamNotify, values_newRequest])⟩
  · rw [ChatRoomMuteMembersAdd_valid rc id ms minute options hid hms hmin]
    exact ⟨_, rfl, notifyFieldsAsSpecified_of_values _ _
      (by simp [values_Param, values_ParamEach, values_ParamNotify, values_newRequest])
      (by simp [values_Param, values_ParamEach, values_ParamNotify, values_newRequest])⟩
  · rw [ChatRoomMuteMembersRemove_valid rc id ms options hid hms]
    exact ⟨_, rfl, notifyFieldsAsSpecified_of_values _ _
      (by simp [values_Param, values_ParamEach, values_ParamNotify, values_newRequest])
      (by simp [values_Param, values_ParamEach, values_ParamNotify, values_newRequest])⟩
  · rw [ChatRoomBan_valid rc id options hid]
    exact ⟨_, rfl, notifyFieldsAsSpecified_of_values _ _
      (by simp [values_Param, values_ParamEach, values_ParamNotify, values_newRequest])
      (by simp [values_Param, values_ParamEach, values_ParamNotify, values_newRequest])⟩
  · rw [ChatRoomBanRollback_valid rc id options hid]
    exact ⟨_, rfl, notifyFieldsAsSpecified_of_values _ _
      (by simp [values_Param, values_ParamEach, values_ParamNotify, values_newRequest])
      (by simp [values_Param, values_ParamEach, values_ParamNotify, values_newRequest])⟩
  · rw [ChatRoomUserBanWhitelistAdd_valid rc id ms options hid hms]
    exact ⟨_, rfl, notifyFieldsAsSpecified_of_values _ _
      (by simp [values_Param, values_ParamEach, values_ParamNotify, values_newRequest])
      (by simp [values_Param, values_ParamEach, values_ParamNotify, values_newRequest])⟩
  · rw [ChatRoomUserBanWhitelistRollback_valid rc id ms options hid hms]
    exact ⟨_, rfl, notifyFieldsAsSpecified_of_values _ _
      (by simp [values_Param, values_ParamEach, values_ParamNotify, values_newRequest])
      (by simp [values_Param, values_ParamEach, values_ParamNotify, values_newRequest])⟩

/-- C7, at a concrete call: with `WithChatroomExtra` alone the resolved
needNotify is false and the request of `ChatRoomBan` has neither field. -/
theorem C7_notify_fields_follow_needNotify_witness :
    "room1" ≠ "" ∧ ["u1"] ≠ [] ∧ 5 ≠ 0 ∧
    (ChatRoomBan stubClient "room1" [WithChatroomExtra "x"]).sentOne
      (notifyFieldsAsSpecified (modifyChatroomOptions [WithChatroomExtra "x"])) :=
  ⟨by decide, by decide, by decide,
    (C7_notify_fields_follow_needNotify stubClient "room1" ["u1"] 5 [WithChatroomExtra "x"]
      (by decide) (by decide) (by decide)).2.2.2.2.2.2.2.2.1⟩

/-! ## C8: which option fields `ChatRoomCreateNew` emits -/

theorem ChatRoomCreateNew_sent (rc : RongCloud) (chatroomId : String)
    (options : List ChatroomOption) (hid : chatroomId ≠ "") :
    ∀ req ∈ (ChatRoomCreateNew rc chatroomId options).sent,
      req.params =
        createNewFields chatroomId (modifyChatroomOptions options)
          (rc.json.Marshal (modifyChatroomOptions options).entryInfo).1 := by
  unfold createNewFields
  intro req hreq
  unfold ChatRoomCreateNew at hreq
  rw [if_neg hid] at hreq
  simp only [] at hreq
  by_cases hinfo : (modifyChatroomOptions options).entryInfo.length > 0
  swap
  · rw [if_neg hinfo] at hreq
    simp only [RongCloud.send, List.mem_singleton] at hreq
    subst hreq
    by_cases hown : (modifyChatroomOptions options).entryOwnerId = ""
    · simp [hown, hinfo, ParamEach_params, Request.Param, RongCloud.newRequest,
        RongCloud.fillHeader, Request.SetTimeout, httplib.Post]
    · have hown2 : "" ≠ (modifyChatroomOptions options).entryOwnerId := fun h => hown h.symm
      simp [hown, hown2, hinfo, ParamEach_params, Request.Param, RongCloud.newRequest,
        RongCloud.fillHeader, Request.SetTimeout, httplib.Post]
  · rw [if_pos hinfo] at hreq
    split at hreq
    · simp at hreq
    · rename_i entryInfo hm
      simp only [RongCloud.send, List.mem_singleton] at hreq
      subst hreq
      have hfst : (rc.json.Marshal (modifyChatroomOptions options).entryInfo).1 = entryInfo := by
        rw [hm]
      by_cases hown : (modifyChatroomOptions options).entryOwnerId = ""
      · simp [hown, hinfo, hfst, ParamEach_params, Request.Param, RongCloud.newRequest,
          RongCloud.fillHeader, Request.SetTimeout, httplib.Post]
      · have hown2 : "" ≠ (modifyChatroomOptions options).entryOwnerId := fun h => hown h.symm
        simp [hown, hown2, hinfo, hfst, ParamEach_params, Request.Param, RongCloud.newRequest,
          RongCloud.fillHeader, Request.SetTimeout, httplib.Post]

theorem ChatRoomCreateNew_sent_length (rc : RongCloud) (chatroomId : String)
    (options : List ChatroomOption) (hid : chatroomId ≠ "")
    (h : (modifyChatroomOptions options).entryInfo.length = 0 ∨
      (rc.json.Marshal (modifyChatroomOptions options).entryInfo).2 = none) :
    (ChatRoomCreateNew rc chatroomId options).sent.length = 1 := by
  unfold ChatRoomCreateNew
  rw [if_neg hid]
  simp only []
  by_cases hinfo : (modifyChatroomOptions options).entryInfo.length > 0
  · rw [if_pos hinfo]
    have hm : (rc.json.Marshal (modifyChatroomOptions options).entryInfo).2 = none := by
      rcases h with h | h
      · omega
      · exact h
    split
    · rename_i heq
      rw [heq] at hm
      simp at hm
    · rfl
  · rw [if_neg hinfo]
    rfl

/-- C8, refuted as stated: `ChatRoomCreateNew` with a non-empty room ID and no
options sends one request, and that request carries the fields "destroyType",
"destroyTime" and "isBan" with the default values "0", "60" and "false". -/
theorem C8_counterexample_create_new_sends_defaults :
    (ChatRoomCreateNew stubClient "room1" []).sent.map Request.params =
      [[("chatroomId", "room1"), ("destroyType", "0"), ("destroyTime", "60"),
        ("isBan", "false")]] ∧
    ¬ (∀ req ∈ (ChatRoomCreateNew stubClient "room1" []).sent,
        "destroyType" ∉ req.keys ∧ "destroyTime" ∉ req.keys ∧ "isBan" ∉ req.keys) := by
  constructor
  · decide
  · decide

/-- C8, amended. `ChatRoomCreateNew` with a non-empty room ID emits in every
request the fields chatroomId, destroyType, destroyTime and isBan with the
resolved values, the defaults included (with no options: "0", "60", "false");
it emits one whiteUserIds field per resolved whitelist entry, entryOwnerId only
when the resolved owner ID is not empty and entryInfo only when the resolved
map is not empty, and it sends exactly one request unless marshalling the map
fails.  In the request of every valid call of an operation with notify fields,
"needNotify" and "extra" occur only if the resolved needNotify is true. -/
theorem C8_option_fields_emitted (rc : RongCloud) (id : String)
    (ms : List String) (minute : Nat) (options : List ChatroomOption)
    (hid : id ≠ "") (hms : ms ≠ []) (hmin : minute ≠ 0) :
    (∀ req ∈ (ChatRoomCreateNew rc id options).sent,
      req.params =
        createNewFields id (modifyChatroomOptions options)
          (rc.json.Marshal (modifyChatroomOptions options).entryInfo).1) ∧
    (((modifyChatroomOptions options).entryInfo.length = 0 ∨
        (rc.json.Marshal (modifyChatroomOptions options).entryInfo).2 = none) →
      (ChatRoomCreateNew rc id options).sent.length = 1) ∧
    (ChatRoomCreateNew rc id []).sentOne
      (fun req => req.params =
        [("chatroomId", id), ("destroyType", "0"), ("destroyTime", "60"),
          ("isBan", "false")]) ∧
    (ChatRoomBlockAdd rc id ms minute options).sentOne
      (notifyOnlyIfEnabled (modifyChatroomOptions options)) ∧
    (ChatRoomBlockRemove rc id ms options).sentOne
      (notifyOnlyIfEnabled (modifyChatroomOptions options)) ∧
    (ChatRoomBanAdd rc ms minute options).sentOne
      (notifyOnlyIfEnabled (modifyChatroomOptions options)) ∧
    (ChatRoomBanRemove rc ms options).sentOne
      (notifyOnlyIfEnabled (modifyChatroomOptions options)) ∧
    (ChatRoomGagAdd rc id ms minute options).sentOne
      (notifyOnlyIfEnabled (modifyChatroomOptions options)) ∧
    (ChatRoomGagRemove rc id ms options).sentOne
      (notifyOnlyIfEnabled (modifyChatroomOptions options)) ∧
    (ChatRoomMuteMembersAdd rc id ms minute options).sentOne
      (notifyOnlyIfEnabled (modifyChatroomOptions options)) ∧
    (ChatRoomMuteMembersRemove rc id ms options).sentOne
      (notifyOnlyIfEnabled (modifyChatroomOptions options)) ∧
    (ChatRoomBan rc id options).sentOne
      (notifyOnlyIfEnabled (modifyChatroomOptions options)) ∧
    (ChatRoomBanRollback rc id options).sentOne
      (notifyOnlyIfEnabled (modifyChatroomOptions options)) ∧
    (ChatRoomUserBanWhitelistAdd rc id ms options).sentOne
      (notifyOnlyIfEnabled (modifyChatroomOptions options)) ∧
    (ChatRoomUserBanWhitelistRollback rc id ms options).sentOne
      (notifyOnlyIfEnabled (modifyChatroomOptions options)) := by
  refine ⟨ChatRoomCreateNew_sent rc id options hid,
    ChatRoomCreateNew_sent_length rc id options hid, ?_,
    ?_, ?_, ?_, ?_, ?_, ?_, ?_, ?_, ?_, ?_, ?_, ?_⟩
  · have hlen := ChatRoomCreateNew_sent_length rc id [] hid (Or.inl rfl)
    have hall := ChatRoomCreateNew_sent rc id [] hid
    match hs : (ChatRoomCreateNew rc id []).sent, hlen with
    | [req], _ =>
      refine ⟨req, hs, ?_⟩
      show req.params = _
      rw [hall req (by rw [hs]; exact List.mem_singleton.mpr rfl)]
      rfl
  · rw [ChatRoomBlockAdd_valid rc id ms minute options hid hms hmin]
    exact ⟨_, rfl, notify_only_if_needNotify_of_values _ _
      (by simp [values_Param, values_ParamEach, values_ParamNotify, values_newRequest])
      (by simp [values_Param, values_ParamEach, values_ParamNotify, values_newRequest])⟩
  · rw [ChatRoomBlockRemove_valid rc id ms options hid hms]
    exact ⟨_, rfl, notify_only_if_needNotify_of_values _ _
      (by simp [values_Param, values_ParamEach, values_ParamNotify, values_newRequest])
      (by simp [values_Param, values_ParamEach, values_ParamNotify, values_newRequest])⟩
  · rw [ChatRoomBanAdd_valid rc ms minute options hms hmin]
    exact ⟨_, rfl, notify_only_if_needNotify_of_values _ _
      (by simp [values_Param, values_ParamEach, values_ParamNotify, values_newRequest])
      (by simp [values_Param, values_ParamEach, values_ParamNotify, values_newRequest])⟩
  · rw [ChatRoomBanRemove_valid rc ms options hms]
    exact ⟨_, rfl, notify_only_if_needNotify_of_values _ _
      (by simp [values_Param, values_ParamEach, values_ParamNotify, values_newRequest])
      (by simp [values_Param, values_ParamEach, values_ParamNotify, values_newRequest])⟩
  · rw [ChatRoomGagAdd_valid rc id ms minute options hid hms hmin]
    exact ⟨_, rfl, notify_only_if_needNotify_of_values _ _
      (by simp [values_Param, values_ParamEach, values_ParamNotify, values_newRequest])
      (by simp [values_Param, values_ParamEach, values_ParamNotify, values_newRequest])⟩
  · rw [ChatRoomGagRemove_valid rc id ms options hid hms]
    exact ⟨_, rfl, notify_only_if_needNotify_of_values _ _
      (by simp [values_Param, values_ParamEach, values_ParamNotify, values_newRequest])
      (by simp [values_Param, values_ParamEach, values_ParamNotify, values_newRequest])⟩
  · rw [ChatRoomMuteMembersAdd_valid rc id ms minute options hid hms hmin]
    exact ⟨_, rfl, notify_only_if_needNotify_of_values _ _
      (by simp [values_Param, values_ParamEach, values_ParamNotify, values_newRequest])
      (by simp [values_Param, values_ParamEach, values_ParamNotify, values_newRequest])⟩
  · rw [ChatRoomMuteMembersRemove_valid rc id ms options hid hms]
    exact ⟨_, rfl, notify_only_if_needNotify_of_values _ _
      (by simp [values_Param, values_ParamEach, values_ParamNotify, values_newRequest])
      (by simp [values_Param, values_ParamEach, values_ParamNotify, values_newRequest])⟩
  · rw [ChatRoomBan_valid rc id options hid]
    exact ⟨_, rfl, notify_only_if_needNotify_of_values _ _
      (by simp [values_Param, values_ParamEach, values_ParamNotify, values_newRequest])
      (by simp [values_Param, values_ParamEach, values_ParamNotify, values_newRequest])⟩
  · rw [ChatRoomBanRollback_valid rc id options hid]
    exact ⟨_, rfl, notify_only_if_needNotify_of_values _ _
      (by simp [values_Param, values_ParamEach, values_ParamNotify, values_newRequest])
      (by simp [values_Param, values_ParamEach, values_ParamNotify, values_newRequest])⟩
  · rw [ChatRoomUserBanWhitelistAdd_valid rc id ms options hid hms]
    exact ⟨_, rfl, notify_only_if_needNotify_of_values _ _
      (by simp [values_Param, values_ParamEach, values_ParamNotify, values_newRequest])
      (by simp [values_Param, values_ParamEach, values_ParamNotify, values_newRequest])⟩
  · rw [ChatRoomUserBanWhitelistRollback_valid rc id ms options hid hms]
    exact ⟨_, rfl, notify_only_if_needNotify_of_values _ _
      (by simp [values_Param, values_ParamEach, values_ParamNotify, values_newRequest])
      (by simp [values_Param, values_ParamEach, values_ParamNotify, values_newRequest])⟩

/-- C8 amended, at a concrete call: the request of `ChatRoomCreateNew` with two
whitelist users and no other option. -/
theorem C8_option_fields_emitted_witness :
    "room1" ≠ "" ∧ ["u1"] ≠ [] ∧ 5 ≠ 0 ∧
    ∀ req ∈ (ChatRoomCreateNew stubClient "room1" [WithChatroomWhiteUserIds ["a", "b"]]).sent,
      req.params =
        createNewFields "room1" (modifyChatroomOptions [WithChatroomWhiteUserIds ["a", "b"]])
          (stubClient.json.Marshal
            (modifyChatroomOptions [WithChatroomWhiteUserIds ["a", "b"]]).entryInfo).1 :=
  ⟨by decide, by decide, by decide,
    (C8_option_fields_emitted stubClient "room1" ["u1"] 5 [WithChatroomWhiteUserIds ["a", "b"]]
      (by decide) (by decide) (by decide)).1⟩

/-! ## C9: the cap of 100 keys of `ChatRoomEntryQuery` -/

theorem ChatRoomEntryQuery_sent (rc : RongCloud) (chatRoomID : String) (ks : List String)
    (hid : chatRoomID ≠ "") (hle : ks.length ≤ 100) :
    (ChatRoomEntryQuery rc chatRoomID ks).sent =
      [{ rc.newRequest (rc.rongCloudURI ++ "/chatroom/entry/query." ++ rc.ReqType) with
          params := ("chatroomId", chatRoomID) :: ks.map (fun k => ("keys", k)) }] := by
  have hreq :
      (if ks.length ≠ 0 then
          ((rc.newRequest (rc.rongCloudURI ++ "/chatroom/entry/query." ++ rc.ReqType)).Param
            "chatroomId" chatRoomID).ParamEach "keys" ks
        else (rc.newRequest (rc.rongCloudURI ++ "/chatroom/entry/query." ++ rc.ReqType)).Param
            "chatroomId" chatRoomID) =
        { rc.newRequest (rc.rongCloudURI ++ "/chatroom/entry/query." ++ rc.ReqType) with
          params := ("chatroomId", chatRoomID) :: ks.map (fun k => ("keys", k)) } := by
    cases ks with
    | nil => rfl
    | cons k ks =>
      rw [if_pos (by simp), ParamEach_eq]
      rfl
  unfold ChatRoomEntryQuery
  rw [if_neg hid, if_neg (by omega)]
  simp only []
  rw [hreq]
  split
  · rfl
  · split <;> rfl

/-- C9. For every non-empty room ID and every key list `ks`,
`ChatRoomEntryQuery` is rejected by validation (error 1002, no request sent)
if and only if `ks` has more than 100 keys; with at most 100 keys, the empty
list and exactly 100 keys included, it sends one request whose form fields are
"chatroomId" followed by one "keys" field per element of `ks`, in input order,
and none when `ks` is empty. -/
theorem C9_entry_query_caps_keys_at_100 (rc : RongCloud) (chatRoomID : String)
    (ks : List String) (hid : chatRoomID ≠ "") :
    ((ChatRoomEntryQuery rc chatRoomID ks).rejected ↔ ks.length > 100) ∧
    (ks.length > 100 →
      (ChatRoomEntryQuery rc chatRoomID ks).sent = [] ∧
      (ChatRoomEntryQuery rc chatRoomID ks).err =
        some (RCErrorNew 1002 "Paramer 'keys' more than 100")) ∧
    (ks.length ≤ 100 →
      (ChatRoomEntryQuery rc chatRoomID ks).sentOne
        (fun req => req.params = ("chatroomId", chatRoomID) :: ks.map (fun k => ("keys", k)))) := by
  have hmore : ks.length > 100 →
      (ChatRoomEntryQuery rc chatRoomID ks).sent = [] ∧
      (ChatRoomEntryQuery rc chatRoomID ks).err =
        some (RCErrorNew 1002 "Paramer 'keys' more than 100") := by
    intro h
    unfold ChatRoomEntryQuery
    rw [if_neg hid, if_pos h]
    exact ⟨rfl, rfl⟩
  refine ⟨⟨?_, ?_⟩, hmore, ?_⟩
  · intro hrej
    by_contra hle
    have hsent := ChatRoomEntryQuery_sent rc chatRoomID ks hid (by omega)
    rw [hrej.1] at hsent
    exact List.noConfusion hsent
  · intro h
    exact ⟨(hmore h).1, _, (hmore h).2⟩
  · intro hle
    exact ⟨_, ChatRoomEntryQuery_sent rc chatRoomID ks hid hle, rfl⟩

/-- C9, at concrete calls: exactly 100 keys pass validation. -/
theorem C9_entry_query_caps_keys_at_100_witness :
    "room1" ≠ "" ∧
    ¬ (ChatRoomEntryQuery stubClient "room1" (List.replicate 100 "k")).rejected :=
  ⟨by decide, fun h =>
    absurd ((C9_entry_query_caps_keys_at_100 stubClient "room1" (List.replicate 100 "k")
      (by decide)).1.mp h) (by simp)⟩

/-! ## C10: the whitelist of `ChatRoomCreateNew` has no local cap -/

/-- C10, refuted as stated: with a whitelist of 21 user IDs `ChatRoomCreateNew`
is not rejected; it sends one request that carries all 21 "whiteUserIds" fields
and returns no error when the transport returns none. -/
theorem C10_counterexample_whitelist_of_21_is_sent :
    ¬ (ChatRoomCreateNew stubClient "room1"
        [WithChatroomWhiteUserIds (List.replicate 21 "u")]).rejected ∧
    (ChatRoomCreateNew stubClient "room1"
        [WithChatroomWhiteUserIds (List.replicate 21 "u")]).err = none ∧
    (ChatRoomCreateNew stubClient "room1"
        [WithChatroomWhiteUserIds (List.replicate 21 "u")]).sent.map
          (fun req => req.values "whiteUserIds") = [List.replicate 21 "u"] := by
  refine ⟨fun h => absurd h.1 (by decide), by decide, by decide⟩

/-- C10, amended. For every non-empty room ID and every whitelist `ws`, of any
length, `ChatRoomCreateNew(chatroomId, WithChatroomWhiteUserIds(ws))` passes
the local validation: it sends exactly one request, which carries one
"whiteUserIds" field per element of `ws` in input order, neither truncated nor
rejected, and it returns the error of the transport.  No cap is enforced
locally. -/
theorem C10_whitelist_is_passed_through (rc : RongCloud) (chatroomId : String)
    (ws : List String) (hid : chatroomId ≠ "") :
    ChatRoomCreateNew rc chatroomId [WithChatroomWhiteUserIds ws] =
      rc.send
        { rc.newRequest (rc.rongCloudURI ++ "/chatroom/create_new." ++ rc.ReqType) with
          params :=
            [("chatroomId", chatroomId), ("destroyType", "0"), ("destroyTime", "60"),
              ("isBan", "false")] ++ ws.map (fun v => ("whiteUserIds", v)) } ∧
    (ChatRoomCreateNew rc chatroomId [WithChatroomWhiteUserIds ws]).sentOne
      (fun req => req.values "whiteUserIds" = ws) ∧
    ¬ (ChatRoomCreateNew rc chatroomId [WithChatroomWhiteUserIds ws]).rejected := by
  have hmain : ChatRoomCreateNew rc chatroomId [WithChatroomWhiteUserIds ws] =
      rc.send
        { rc.newRequest (rc.rongCloudURI ++ "/chatroom/create_new." ++ rc.ReqType) with
          params :=
            [("chatroomId", chatroomId), ("destroyType", "0"), ("destroyTime", "60"),
              ("isBan", "false")] ++ ws.map (fun v => ("whiteUserIds", v)) } := by
    have ho : modifyChatroomOptions [WithChatroomWhiteUserIds ws] =
        { defaultOptions with whiteUserIds := ws } := rfl
    have h0 : strconv.Itoa 0 = "0" := by decide
    have h60 : strconv.Itoa 60 = "60" := by decide
    unfold ChatRoomCreateNew
    rw [if_neg hid, ho]
    simp [defaultOptions, ParamEach_eq, Request.Param, h0, h60, strconv.FormatBool,
      RongCloud.newRequest, RongCloud.fillHeader, Request.SetTimeout, httplib.Post]
  refine ⟨hmain, ?_, ?_⟩
  · rw [hmain]
    refine ⟨_, rfl, ?_⟩
    simp [Request.values, List.filter_append, List.filter_map, Function.comp_def]
  · rw [hmain]
    intro h
    exact List.noConfusion h.1

/-- C10 amended, at a concrete call: a whitelist of 21 users goes out as 21
"whiteUserIds" fields. -/
theorem C10_whitelist_is_passed_through_witness :
    "room1" ≠ "" ∧
    (ChatRoomCreateNew stubClient "room1"
        [WithChatroomWhiteUserIds (List.replicate 21 "u")]).sentOne
      (fun req => req.values "whiteUserIds" = List.replicate 21 "u") :=
  ⟨by decide,
    (C10_whitelist_is_passed_through stubClient "room1" (List.replicate 21 "u")
      (by decide)).2.1⟩

/-! ## C11: a duration of zero minutes is rejected -/

/-- C11. For `ChatRoomBlockAdd`, `ChatRoomBanAdd`, `ChatRoomGagAdd` and
`ChatRoomMuteMembersAdd` with otherwise valid arguments (non-empty room ID
where there is one, non-empty member list), the call sends no request and
returns the error with code 1002 that names 'minute' if and only if minute is
zero; every positive minute passes validation, one request being handed to the
transport. -/
theorem C11_zero_minute_is_rejected (rc : RongCloud) (id : String) (ms : List String)
    (minute : Nat) (options : List ChatroomOption) (hid : id ≠ "") (hms : ms ≠ []) :
    (((ChatRoomBlockAdd rc id ms minute options).sent = [] ∧
        (ChatRoomBlockAdd rc id ms minute options).err =
          some (RCErrorNew 1002 "Paramer 'minute' is required")) ↔ minute = 0) ∧
    (0 < minute → (ChatRoomBlockAdd rc id ms minute options).sent.length = 1) ∧
    (((ChatRoomBanAdd rc ms minute options).sent = [] ∧
        (ChatRoomBanAdd rc ms minute options).err =
          some (RCErrorNew 1002 "Paramer 'minute' is required")) ↔ minute = 0) ∧
    (0 < minute → (ChatRoomBanAdd rc ms minute options).sent.length = 1) ∧
    (((ChatRoomGagAdd rc id ms minute options).sent = [] ∧
        (ChatRoomGagAdd rc id ms minute options).err =
          some (RCErrorNew 1002 "Paramer 'minute' is required")) ↔ minute = 0) ∧
    (0 < minute → (ChatRoomGagAdd rc id ms minute options).sent.length = 1) ∧
    (((ChatRoomMuteMembersAdd rc id ms minute options).sent = [] ∧
        (ChatRoomMuteMembersAdd rc id ms minute options).err =
          some (RCErrorNew 1002 "Paramer 'minute' is required")) ↔ minute = 0) ∧
    (0 < minute → (ChatRoomMuteMembersAdd rc id ms minute options).sent.length = 1) := by
  refine ⟨?_, ?_, ?_, ?_, ?_, ?_, ?_, ?_⟩
  · by_cases hmin : minute = 0
    · subst hmin
      unfold ChatRoomBlockAdd
      rw [if_neg hid, if_neg (length_ne_zero_of_ne_nil hms), if_pos rfl]
      simp
    · rw [ChatRoomBlockAdd_valid rc id ms minute options hid hms hmin]
      simp [RongCloud.send, hmin]
  · intro hpos
    rw [ChatRoomBlockAdd_valid rc id ms minute options hid hms (by omega)]
    rfl
  · by_cases hmin : minute = 0
    · subst hmin
      unfold ChatRoomBanAdd
      rw [if_neg (length_ne_zero_of_ne_nil hms), if_pos rfl]
      simp
    · rw [ChatRoomBanAdd_valid rc ms minute options hms hmin]
      simp [RongCloud.send, hmin]
  · intro hpos
    rw [ChatRoomBanAdd_valid rc ms minute options hms (by omega)]
    rfl
  · by_cases hmin : minute = 0
    · subst hmin
      unfold ChatRoomGagAdd
      rw [if_neg hid, if_neg (length_ne_zero_of_ne_nil hms), if_pos rfl]
      simp
    · rw [ChatRoomGagAdd_valid rc id ms minute options hid hms hmin]
      simp [RongCloud.send, hmin]
  · intro hpos
    rw [ChatRoomGagAdd_valid rc id ms minute options hid hms (by omega)]
    rfl
  · by_cases hmin : minute = 0
    · subst hmin
      unfold ChatRoomMuteMembersAdd
      rw [if_neg hid, if_neg (length_ne_zero_of_ne_nil hms), if_pos rfl]
      simp
    · rw [ChatRoomMuteMembersAdd_valid rc id ms minute options hid hms hmin]
      simp [RongCloud.send, hmin]
  · intro hpos
    rw [ChatRoomMuteMembersAdd_valid rc id ms minute options hid hms (by omega)]
    rfl

/-- C11, at concrete calls: zero minutes are rejected by `ChatRoomGagAdd`, one
minute passes. -/
theorem C11_zero_minute_is_rejected_witness :
    "room1" ≠ "" ∧ ["u1"] ≠ [] ∧
    ((ChatRoomGagAdd stubClient "room1" ["u1"] 0 []).sent = [] ∧
      (ChatRoomGagAdd stubClient "room1" ["u1"] 0 []).err =
        some (RCErrorNew 1002 "Paramer 'minute' is required")) ∧
    (ChatRoomGagAdd stubClient "room1" ["u1"] 1 []).sent.length = 1 :=
  ⟨by decide, by decide,
    (C11_zero_minute_is_rejected stubClient "room1" ["u1"] 0 [] (by decide)
      (by decide)).2.2.2.2.1.mpr rfl,
    (C11_zero_minute_is_rejected stubClient "room1" ["u1"] 1 [] (by decide)
      (by decide)).2.2.2.2.2.1 (by decide)⟩

/-! ## C12: the checked decode of the two member lists -/

theorem assertStrings_map_string (users : List String) :
    assertStrings (users.map GoValue.string) = some users := by
  induction users with
  | nil => rfl
  | cons u users ih => simp [assertStrings, ih]

theorem float64Limit_eq : json.float64Limit = 2 ^ 1024 - 2 ^ 970 := by
  norm_num [json.float64Limit]

set_option exponentiation.threshold 2000 in
theorem whitelist_get_list_number_out_of_range :
    (ChatRoomUserWhitelistGetList
      (replyClient "\x7b\"code\":200,\"other\":1e400,\"users\":[\"a\"]\x7d") "room1").value =
        some [] ∧
    (ChatRoomUserWhitelistGetList
      (replyClient "\x7b\"code\":200,\"other\":1e400,\"users\":[\"a\"]\x7d") "room1").err =
        some (json.typeError "float64") := by
  constructor <;> decide

/-- C12, refuted as stated: the body `{"code":200,"users":5}` is a JSON object
with code 200, and `ChatRoomMuteMembersGetList` returns a decode error and an
empty list for it, not a nil error. -/
theorem C12_counterexample_code_200_with_bad_payload :
    (json.parse "\x7b\"code\":200,\"users\":5\x7d").isSome = true ∧
    ((replyClient "\x7b\"code\":200,\"users\":5\x7d").json.UnmarshalCodeResult
      "\x7b\"code\":200,\"users\":5\x7d" {}).1.Code = 200 ∧
    (ChatRoomMuteMembersGetList (replyClient "\x7b\"code\":200,\"users\":5\x7d") "room1").err =
      some (json.typeError "[]sdk.ChatRoomUser") ∧
    (ChatRoomMuteMembersGetList (replyClient "\x7b\"code\":200,\"users\":5\x7d") "room1").value =
      [] := by
  refine ⟨by decide, by decide, by decide, by decide⟩

/-- C12, amended. For every non-empty room ID and every response body whose
`{code, message}` envelope decodes: when the code is not 200,
`ChatRoomMuteMembersGetList` and `ChatRoomUserWhitelistGetList` return the
envelope as the error together with an empty list, whatever the payload
decoder would do; when the code is 200 they decode the whole body again, and
if that second decoding fails both return its error with an empty list; if it
succeeds, `ChatRoomMuteMembersGetList` returns no error and the decoded "users"
list in response order, and `ChatRoomUserWhitelistGetList` returns no error and
the strings of "users" in response order when "users" is an array of strings,
and an empty list when it is absent or null.  The body
`{"code":200,"users":[{"id":"1","userId":"u1","time":"t","isInChrm":1}]}` yields
exactly one user with those four fields, `{"code":404,"message":"not found"}`
yields an error with code 404, and `{"code":200,"other":1e400,"users":["a"]}`,
whose second decoding fails on the number, yields that error and an empty list
from `ChatRoomUserWhitelistGetList`. -/
theorem C12_checked_decode (rc : RongCloud) (id : String) (rep : Bytes) (code : CodeResult)
    (hid : id ≠ "") (hresp : ∀ req, rc.Response req = none)
    (hbytes : ∀ req, rc.Bytes req = (rep, none))
    (hcode : rc.json.UnmarshalCodeResult rep {} = (code, none)) :
    (code.Code ≠ 200 →
      (ChatRoomMuteMembersGetList rc id).value = [] ∧
      (ChatRoomMuteMembersGetList rc id).err = some (Error.codeResult code) ∧
      (ChatRoomUserWhitelistGetList rc id).value = some [] ∧
      (ChatRoomUserWhitelistGetList rc id).err = some (Error.codeResult code) ∧
      ∀ users strings,
        (ChatRoomMuteMembersGetList
          { rc with json := { rc.json with UnmarshalChatRoomResult := users } } id).value = [] ∧
        (ChatRoomMuteMembersGetList
          { rc with json := { rc.json with UnmarshalChatRoomResult := users } } id).err =
            some (Error.codeResult code) ∧
        (ChatRoomUserWhitelistGetList
          { rc with json := { rc.json with UnmarshalMap := strings } } id).value = some [] ∧
        (ChatRoomUserWhitelistGetList
          { rc with json := { rc.json with UnmarshalMap := strings } } id).err =
            some (Error.codeResult code)) ∧
    (code.Code = 200 →
      (∀ dat, rc.json.UnmarshalChatRoomResult rep {} = (dat, none) →
        (ChatRoomMuteMembersGetList rc id).value = dat.Users ∧
        (ChatRoomMuteMembersGetList rc id).err = none) ∧
      (∀ dat e, rc.json.UnmarshalChatRoomResult rep {} = (dat, some e) →
        (ChatRoomMuteMembersGetList rc id).value = [] ∧
        (ChatRoomMuteMembersGetList rc id).err = some e) ∧
      (∀ dat users, rc.json.UnmarshalMap rep [] = (dat, none) →
        dat.index "users" = GoValue.slice (users.map GoValue.string) →
        (ChatRoomUserWhitelistGetList rc id).value = some users ∧
        (ChatRoomUserWhitelistGetList rc id).err = none) ∧
      (∀ dat, rc.json.UnmarshalMap rep [] = (dat, none) →
        dat.index "users" = GoValue.nil →
        (ChatRoomUserWhitelistGetList rc id).value = some [] ∧
        (ChatRoomUserWhitelistGetList rc id).err = none) ∧
      (∀ dat e, rc.json.UnmarshalMap rep [] = (dat, some e) →
        (ChatRoomUserWhitelistGetList rc id).value = some [] ∧
        (ChatRoomUserWhitelistGetList rc id).err = some e)) ∧
    ((ChatRoomMuteMembersGetList
        (replyClient
          "\x7b\"code\":200,\"users\":[\x7b\"id\":\"1\",\"userId\":\"u1\",\"time\":\"t\",\"isInChrm\":1\x7d]\x7d")
        "room1").value = [{ ID := "1", UserID := "u1", Time := "t", IsInChrm := 1 }] ∧
      (ChatRoomMuteMembersGetList
        (replyClient
          "\x7b\"code\":200,\"users\":[\x7b\"id\":\"1\",\"userId\":\"u1\",\"time\":\"t\",\"isInChrm\":1\x7d]\x7d")
        "room1").err = none ∧
      (ChatRoomMuteMembersGetList
        (replyClient "\x7b\"code\":404,\"message\":\"not found\"\x7d") "room1").value = [] ∧
      (ChatRoomMuteMembersGetList
        (replyClient "\x7b\"code\":404,\"message\":\"not found\"\x7d") "room1").err =
          some (Error.codeResult { Code := 404, Message := "not found" }) ∧
      (ChatRoomUserWhitelistGetList
        (replyClient "\x7b\"code\":200,\"other\":1e400,\"users\":[\"a\"]\x7d") "room1").value =
          some [] ∧
      (ChatRoomUserWhitelistGetList
        (replyClient "\x7b\"code\":200,\"other\":1e400,\"users\":[\"a\"]\x7d") "room1").err =
          some (json.typeError "float64")) := by
  refine ⟨?_, ?_, by decide, by decide, by decide, by decide,
    whitelist_get_list_number_out_of_range.1, whitelist_get_list_number_out_of_range.2⟩
  · intro hne
    refine ⟨?_, ?_, ?_, ?_, ?_⟩
    · simp [ChatRoomMuteMembersGetList, hid, hresp, hbytes, hcode, hne]
    · simp [ChatRoomMuteMembersGetList, hid, hresp, hbytes, hcode, hne]
    · simp [ChatRoomUserWhitelistGetList, hid, hresp, hbytes, hcode, hne, Run.value]
    · simp [ChatRoomUserWhitelistGetList, hid, hresp, hbytes, hcode, hne, Run.err]
    · intro users strings
      refine ⟨?_, ?_, ?_, ?_⟩
      · simp [ChatRoomMuteMembersGetList, hid, hresp, hbytes, hcode, hne]
      · simp [ChatRoomMuteMembersGetList, hid, hresp, hbytes, hcode, hne]
      · simp [ChatRoomUserWhitelistGetList, hid, hresp, hbytes, hcode, hne, Run.value]
      · simp [ChatRoomUserWhitelistGetList, hid, hresp, hbytes, hcode, hne, Run.err]
  · intro heq
    refine ⟨?_, ?_, ?_, ?_, ?_⟩
    · intro dat hdat
      simp [ChatRoomMuteMembersGetList, hid, hresp, hbytes, hcode, heq, hdat]
    · intro dat e hdat
      simp [ChatRoomMuteMembersGetList, hid, hresp, hbytes, hcode, heq, hdat]
    · intro dat users hdat husers
      simp [ChatRoomUserWhitelistGetList, hid, hresp, hbytes, hcode, heq, hdat, husers,
        assertStrings_map_string, Run.value, Run.err]
    · intro dat hdat husers
      simp [ChatRoomUserWhitelistGetList, hid, hresp, hbytes, hcode, heq, hdat, husers,
        Run.value, Run.err]
    · intro dat e hdat
      simp [ChatRoomUserWhitelistGetList, hid, hresp, hbytes, hcode, heq, hdat,
        Run.value, Run.err]

/-! ## C13: the direct decode -/

/-- C13. For every direct-decode operation called with valid arguments, and
every response body that the transport returns without error and that
unmarshals successfully, the operation returns a nil error and the decoded
fields, whatever code the body carries: the code is not inspected.  The body
`{"code":404}`, a code other than 200 and no payload, yields the zero-value
payload and no error. -/
theorem C13_direct_decode_ignores_code (rc : RongCloud) (resp : Bytes)
    (id userId : String) (count order size page : Int) (ms ks ids : List String)
    (hdo : ∀ req, rc.do_ req = (resp, none))
    (hid : id ≠ "") (huid : userId ≠ "") (hcount : 0 < count) (horder : 0 < order)
    (hms : ms ≠ []) (hks : ks.length ≤ 100) (hids : ids ≠ []) :
    (∀ dat, rc.json.UnmarshalChatUserExistObj resp {} = (dat, none) →
      (ChatUserExistResObj rc id userId).value = dat ∧
      (ChatUserExistResObj rc id userId).err = none) ∧
    (∀ dat, rc.json.UnmarshalChatRoomGetResult resp {} = (dat, none) →
      (ChatRoomGetNew rc id).value = dat ∧
      (ChatRoomGetNew rc id).err = none) ∧
    (∀ dat, rc.json.UnmarshalChatRoomResult resp {} = (dat, none) →
      (ChatRoomGet rc id count order).value = dat ∧
      (ChatRoomGet rc id count order).err = none) ∧
    (∀ dat, rc.json.UnmarshalChatRoomResult resp {} = (dat, none) →
      (ChatRoomIsExist rc id ms).value = dat.Result ∧
      (ChatRoomIsExist rc id ms).err = none) ∧
    (∀ dat, rc.json.UnmarshalChatRoomResult resp {} = (dat, none) →
      (ChatRoomBlockGetList rc id).value = dat ∧
      (ChatRoomBlockGetList rc id).err = none) ∧
    (∀ dat, rc.json.UnmarshalChatRoomResult resp {} = (dat, none) →
      (ChatRoomBanGetList rc).value = dat.Users ∧
      (ChatRoomBanGetList rc).err = none) ∧
    (∀ dat, rc.json.UnmarshalChatRoomResult resp {} = (dat, none) →
      (ChatRoomGagGetList rc id).value = dat.Users ∧
      (ChatRoomGagGetList rc id).err = none) ∧
    (∀ dat, rc.json.UnmarshalChatRoomResult resp {} = (dat, none) →
      (ChatRoomDemotionGetList rc).value = dat.ObjectNames ∧
      (ChatRoomDemotionGetList rc).err = none) ∧
    (∀ dat, rc.json.UnmarshalChatRoomResult resp {} = (dat, none) →
      (ChatRoomKeepAliveGetList rc).value = dat.ChatRoomIDs ∧
      (ChatRoomKeepAliveGetList rc).err = none) ∧
    (∀ dat, rc.json.UnmarshalChatRoomResult resp {} = (dat, none) →
      (ChatRoomWhitelistGetList rc).value = dat.WhitelistMsgType ∧
      (ChatRoomWhitelistGetList rc).err = none) ∧
    (∀ dat, rc.json.UnmarshalChatRoomAttrResult resp {} = (dat, none) →
      (ChatRoomEntryQuery rc id ks).value = dat.Keys ∧
      (ChatRoomEntryQuery rc id ks).err = none) ∧
    (∀ dat, rc.json.UnmarshalChatRoomQueryResult resp {} = (dat, none) →
      (ChatRoomQuery rc ids).value = dat.ChatRooms ∧
      (ChatRoomQuery rc ids).err = none) ∧
    (∀ dat, rc.json.UnmarshalChatRoomResult resp {} = (dat, none) →
      (ChatRoomBanQuery rc size page).value = dat.ChatRoomIDs ∧
      (ChatRoomBanQuery rc size page).err = none) ∧
    (∀ dat, rc.json.UnmarshalBanCheckData resp {} = (dat, none) →
      (ChatRoomBanCheck rc id).value = decide (dat.Status = 1) ∧
      (ChatRoomBanCheck rc id).err = none) ∧
    (∀ dat, rc.json.UnmarshalBanWhitelistData resp {} = (dat, none) →
      (ChatRoomUserBanWhitelistQuery rc id).value = dat.UserIds ∧
      (ChatRoomUserBanWhitelistQuery rc id).err = none) ∧
    ((ChatRoomGagGetList (replyClient "\x7b\"code\":404\x7d") "room1").value = [] ∧
      (ChatRoomGagGetList (replyClient "\x7b\"code\":404\x7d") "room1").err = none ∧
      (ChatRoomBlockGetList (replyClient "\x7b\"code\":404\x7d") "room1").value = {} ∧
      (ChatRoomBlockGetList (replyClient "\x7b\"code\":404\x7d") "room1").err = none ∧
      (ChatRoomGetNew (replyClient "\x7b\"code\":404\x7d") "room1").value = { Code := 404 } ∧
      (ChatRoomGetNew (replyClient "\x7b\"code\":404\x7d") "room1").err = none ∧
      (ChatRoomBanCheck (replyClient "\x7b\"code\":404\x7d") "room1").value = false ∧
      (ChatRoomBanCheck (replyClient "\x7b\"code\":404\x7d") "room1").err = none) := by
  refine ⟨?_, ?_, ?_, ?_, ?_, ?_, ?_, ?_, ?_, ?_, ?_, ?_, ?_, ?_, ?_,
    by decide, by decide, by decide, by decide, by decide, by decide, by decide, by decide⟩
  · intro dat hdat
    simp [ChatUserExistResObj, len_eq_zero_iff, hid, huid, hms, hids, not_le.mpr hcount, not_le.mpr horder,
      not_lt.mpr hks, hdo, hdat]
  · intro dat hdat
    simp [ChatRoomGetNew, len_eq_zero_iff, hid, huid, hms, hids, not_le.mpr hcount, not_le.mpr horder,
      not_lt.mpr hks, hdo, hdat]
  · intro dat hdat
    simp [ChatRoomGet, len_eq_zero_iff, hid, huid, hms, hids, not_le.mpr hcount, not_le.mpr horder,
      not_lt.mpr hks, hdo, hdat]
  · intro dat hdat
    simp [ChatRoomIsExist, len_eq_zero_iff, hid, huid, hms, hids, not_le.mpr hcount, not_le.mpr horder,
      not_lt.mpr hks, hdo, hdat]
  · intro dat hdat
    simp [ChatRoomBlockGetList, len_eq_zero_iff, hid, huid, hms, hids, not_le.mpr hcount, not_le.mpr horder,
      not_lt.mpr hks, hdo, hdat]
  · intro dat hdat
    simp [ChatRoomBanGetList, len_eq_zero_iff, hid, huid, hms, hids, not_le.mpr hcount, not_le.mpr horder,
      not_lt.mpr hks, hdo, hdat]
  · intro dat hdat
    simp [ChatRoomGagGetList, len_eq_zero_iff, hid, huid, hms, hids, not_le.mpr hcount, not_le.mpr horder,
      not_lt.mpr hks, hdo, hdat]
  · intro dat hdat
    simp [ChatRoomDemotionGetList, len_eq_zero_iff, hid, huid, hms, hids, not_le.mpr hcount, not_le.mpr horder,
      not_lt.mpr hks, hdo, hdat]
  · intro dat hdat
    simp [ChatRoomKeepAliveGetList, len_eq_zero_iff, hid, huid, hms, hids, not_le.mpr hcount, not_le.mpr horder,
      not_lt.mpr hks, hdo, hdat]
  · intro dat hdat
    simp [ChatRoomWhitelistGetList, len_eq_zero_iff, hid, huid, hms, hids, not_le.mpr hcount, not_le.mpr horder,
      not_lt.mpr hks, hdo, hdat]
  · intro dat hdat
    simp [ChatRoomEntryQuery, len_eq_zero_iff, hid, huid, hms, hids, not_le.mpr hcount, not_le.mpr horder,
      not_lt.mpr hks, hdo, hdat]
  · intro dat hdat
    simp [ChatRoomQuery, len_eq_zero_iff, hid, huid, hms, hids, not_le.mpr hcount, not_le.mpr horder,
      not_lt.mpr hks, hdo, hdat]
  · intro dat hdat
    simp [ChatRoomBanQuery, len_eq_zero_iff, hid, huid, hms, hids, not_le.mpr hcount, not_le.mpr horder,
      not_lt.mpr hks, hdo, hdat]
  · intro dat hdat
    simp only [ChatRoomBanCheck, if_neg hid, hdo, hdat]
    by_cases hst : dat.Status = 1 <;> simp [hst]
  · intro dat hdat
    simp [ChatRoomUserBanWhitelistQuery, len_eq_zero_iff, hid, huid, hms, hids, not_le.mpr hcount, not_le.mpr horder,
      not_lt.mpr hks, hdo, hdat]

/-! ## C14: an error of the transport is returned unchanged -/

/-- C14. For every operation that sends through `rc.do` and every argument list
that passes validation, if the transport returns an error `e` then the
operation hands its one request to the transport and returns exactly `e`,
unchanged and unwrapped, together with an empty or zero-value result, and it
attempts no decoding of the response: the outcome of every decoding operation
is the same under every codec.  `ChatUserExist` returns as its result the bytes
the transport returned with `e`, which are empty as the transport returns raw
bytes or an error.  The two operations that marshal an attribute map before
they send reach the transport when the map marshals; when it does not, they
return the marshal error and send nothing. -/
theorem C14_transport_error_is_returned_unchanged (rc : RongCloud) (e : Error)
    (id uid name key value owner : String) (info : GoMap) (ms names ids ks : List String)
    (minute : Nat) (count order destroyType destroyTime size page autoDeleteInt : Int)
    (autoDelete : Bool) (options : List ChatroomOption)
    (hid : id ≠ "") (huid : uid ≠ "") (hname : name ≠ "") (hkey : key ≠ "")
    (hvalue : value ≠ "") (howner : owner ≠ "") (hinfo : info ≠ []) (hms : ms ≠ [])
    (hnames : names ≠ []) (hids : ids ≠ []) (hks : ks.length ≤ 100) (hminute : 0 < minute)
    (hcount : 0 < count) (horder : 0 < order)
    (hdo : rc.transportFails e) :
    (ChatUserExistResObj rc id uid).returnsError e {} ∧
    (∃ req, (ChatUserExist rc id uid).sent = [req] ∧ (ChatUserExist rc id uid).err = some e ∧
      (ChatUserExist rc id uid).value = (rc.do_ req).1) ∧
    (rc.bytesOrError → (ChatUserExist rc id uid).returnsError e "") ∧
    (ChatRoomCreate rc id name).returnsError e () ∧
    (((modifyChatroomOptions options).entryInfo = [] ∨
        (rc.json.Marshal (modifyChatroomOptions options).entryInfo).2 = none) →
      (ChatRoomCreateNew rc id options).returnsError e ()) ∧
    (∀ me, (modifyChatroomOptions options).entryInfo ≠ [] →
      (rc.json.Marshal (modifyChatroomOptions options).entryInfo).2 = some me →
      (ChatRoomCreateNew rc id options).sent = [] ∧
      (ChatRoomCreateNew rc id options).err = some me) ∧
    (ChatRoomDestroySet rc id destroyType destroyTime).returnsError e () ∧
    (ChatRoomGetNew rc id).returnsError e {} ∧
    ((rc.json.Marshal info).2 = none →
      (ChatRoomEntryBatchSet rc id autoDeleteInt owner info).returnsError e ()) ∧
    (∀ me, (rc.json.Marshal info).2 = some me →
      (ChatRoomEntryBatchSet rc id autoDeleteInt owner info).sent = [] ∧
      (ChatRoomEntryBatchSet rc id autoDeleteInt owner info).err = some me) ∧
    (ChatRoomDestroy rc id).returnsError e () ∧
    (ChatRoomGet rc id count order).returnsError e {} ∧
    (ChatRoomIsExist rc id ms).returnsError e [] ∧
    (ChatRoomBlockAdd rc id ms minute options).returnsError e () ∧
    (ChatRoomBlockRemove rc id ms options).returnsError e () ∧
    (ChatRoomBlockGetList rc id).returnsError e {} ∧
    (ChatRoomBanAdd rc ms minute options).returnsError e () ∧
    (ChatRoomBanRemove rc ms options).returnsError e () ∧
    (ChatRoomBanGetList rc).returnsError e [] ∧
    (ChatRoomGagAdd rc id ms minute options).returnsError e () ∧
    (ChatRoomGagRemove rc id ms options).returnsError e () ∧
    (ChatRoomGagGetList rc id).returnsError e [] ∧
    (ChatRoomDemotionAdd rc names).returnsError e () ∧
    (ChatRoomDemotionRemove rc names).returnsError e () ∧
    (ChatRoomDemotionGetList rc).returnsError e [] ∧
    (ChatRoomDistributionStop rc id).returnsError e () ∧
    (ChatRoomDistributionResume rc id).returnsError e () ∧
    (ChatRoomKeepAliveAdd rc id).returnsError e () ∧
    (ChatRoomKeepAliveRemove rc id).returnsError e () ∧
    (ChatRoomKeepAliveGetList rc).returnsError e [] ∧
    (ChatRoomWhitelistAdd rc names).returnsError e () ∧
    (ChatRoomWhitelistRemove rc names).returnsError e () ∧
    (ChatRoomWhitelistGetList rc).returnsError e [] ∧
    (ChatRoomUserWhitelistAdd rc id ms).returnsError e () ∧
    (ChatRoomUserWhitelistRemove rc id ms).returnsError e () ∧
    (ChatRoomMuteMembersAdd rc id ms minute options).returnsError e () ∧
    (ChatRoomMuteMembersRemove rc id ms options).returnsError e () ∧
    (ChatRoomEntrySet rc id uid key value autoDelete).returnsError e () ∧
    (ChatRoomEntryRemove rc id uid key).returnsError e () ∧
    (ChatRoomEntryQuery rc id ks).returnsError e [] ∧
    (ChatRoomQuery rc ids).returnsError e [] ∧
    (ChatRoomBan rc id options).returnsError e () ∧
    (ChatRoomBanRollback rc id options).returnsError e () ∧
    (ChatRoomBanQuery rc size page).returnsError e [] ∧
    (ChatRoomBanCheck rc id).returnsError e false ∧
    (ChatRoomUserBanWhitelistAdd rc id ms options).returnsError e () ∧
    (ChatRoomUserBanWhitelistRollback rc id ms options).returnsError e () ∧
    (ChatRoomUserBanWhitelistQuery rc id).returnsError e [] ∧
    (∀ codec : JSON,
      ChatUserExistResObj { rc with json := codec } id uid = ChatUserExistResObj rc id uid) ∧
    (∀ codec : JSON,
      ChatRoomGetNew { rc with json := codec } id = ChatRoomGetNew rc id) ∧
    (∀ codec : JSON,
      ChatRoomGet { rc with json := codec } id count order = ChatRoomGet rc id count order) ∧
    (∀ codec : JSON,
      ChatRoomIsExist { rc with json := codec } id ms = ChatRoomIsExist rc id ms) ∧
    (∀ codec : JSON,
      ChatRoomBlockGetList { rc with json := codec } id = ChatRoomBlockGetList rc id) ∧
    (∀ codec : JSON,
      ChatRoomBanGetList { rc with json := codec } = ChatRoomBanGetList rc) ∧
    (∀ codec : JSON,
      ChatRoomGagGetList { rc with json := codec } id = ChatRoomGagGetList rc id) ∧
    (∀ codec : JSON,
      ChatRoomDemotionGetList { rc with json := codec } = ChatRoomDemotionGetList rc) ∧
    (∀ codec : JSON,
      ChatRoomKeepAliveGetList { rc with json := codec } = ChatRoomKeepAliveGetList rc) ∧
    (∀ codec : JSON,
      ChatRoomWhitelistGetList { rc with json := codec } = ChatRoomWhitelistGetList rc) ∧
    (∀ codec : JSON,
      ChatRoomEntryQuery { rc with json := codec } id ks = ChatRoomEntryQuery rc id ks) ∧
    (∀ codec : JSON,
      ChatRoomQuery { rc with json := codec } ids = ChatRoomQuery rc ids) ∧
    (∀ codec : JSON,
      ChatRoomBanQuery { rc with json := codec } size page = ChatRoomBanQuery rc size page) ∧
    (∀ codec : JSON,
      ChatRoomBanCheck { rc with json := codec } id = ChatRoomBanCheck rc id) ∧
    (∀ codec : JSON,
      ChatRoomUserBanWhitelistQuery { rc with json := codec } id = ChatRoomUserBanWhitelistQuery rc id) := by
  obtain ⟨body, hb⟩ : ∃ body : Request → Bytes, ∀ req, rc.do_ req = (body req, some e) :=
    ⟨fun req => (rc.do_ req).1, fun req => Prod.ext rfl (hdo req)⟩
  refine ⟨?_, ?_, ?_, ?_, ?_, ?_, ?_, ?_, ?_, ?_, ?_, ?_, ?_, ?_, ?_, ?_, ?_, ?_, ?_, ?_, ?_, ?_,
    ?_, ?_, ?_, ?_, ?_, ?_, ?_, ?_, ?_, ?_, ?_, ?_, ?_, ?_, ?_, ?_, ?_, ?_, ?_, ?_, ?_, ?_,
    ?_, ?_, ?_, ?_, ?_, ?_, ?_, ?_, ?_, ?_, ?_, ?_, ?_, ?_, ?_, ?_, ?_, ?_, ?_⟩
  · simp [ChatUserExistResObj, RongCloud.send, Outcome.returnsError, hb _, len_eq_zero_iff, hid, huid, hname, hkey, hvalue, howner, hinfo, hms, hnames, hids,
      not_lt.mpr hks, Nat.pos_iff_ne_zero.mp hminute, not_le.mpr hcount, not_le.mpr horder]
  · simp [ChatUserExist, hb _, len_eq_zero_iff, hid, huid, hname, hkey, hvalue, howner, hinfo, hms, hnames, hids,
      not_lt.mpr hks, Nat.pos_iff_ne_zero.mp hminute, not_le.mpr hcount, not_le.mpr horder]
  · intro hspec
    have hnone := hspec
      (((rc.newRequest (rc.rongCloudURI ++ "/chatroom/user/exist.json")).Param
        "chatroomId" id).Param "userId" uid)
    simp [hb _] at hnone
    simp [ChatUserExist, Outcome.returnsError, hb _, hnone, len_eq_zero_iff, hid, huid, hname, hkey, hvalue, howner, hinfo, hms, hnames, hids,
      not_lt.mpr hks, Nat.pos_iff_ne_zero.mp hminute, not_le.mpr hcount, not_le.mpr horder]
  · simp [ChatRoomCreate, RongCloud.send, Outcome.returnsError, hb _, len_eq_zero_iff, hid, huid, hname, hkey, hvalue, howner, hinfo, hms, hnames, hids,
      not_lt.mpr hks, Nat.pos_iff_ne_zero.mp hminute, not_le.mpr hcount, not_le.mpr horder]
  · intro hm
    rcases hmar : rc.json.Marshal (modifyChatroomOptions options).entryInfo with ⟨bytes, _ | merr⟩
    · simp [ChatRoomCreateNew, RongCloud.send, Outcome.returnsError, hb _, hmar, hid]
      split <;> simp
    · rw [hmar] at hm
      rcases hm with hm | hm
      · simp [ChatRoomCreateNew, RongCloud.send, Outcome.returnsError, hb _, hm, hid]
      · simp at hm
  · intro me hne hme
    rcases hmar : rc.json.Marshal (modifyChatroomOptions options).entryInfo with ⟨bytes, _ | merr⟩
    · rw [hmar] at hme
      simp at hme
    · rw [hmar] at hme
      have hlen : 0 < (modifyChatroomOptions options).entryInfo.length :=
        List.length_pos.mpr hne
      simp only [Option.some.injEq] at hme
      subst hme
      simp [ChatRoomCreateNew, hmar, hid, hlen]
  · simp [ChatRoomDestroySet, RongCloud.send, Outcome.returnsError, hb _, len_eq_zero_iff, hid, huid, hname, hkey, hvalue, howner, hinfo, hms, hnames, hids,
      not_lt.mpr hks, Nat.pos_iff_ne_zero.mp hminute, not_le.mpr hcount, not_le.mpr horder]
  · simp [ChatRoomGetNew, RongCloud.send, Outcome.returnsError, hb _, len_eq_zero_iff, hid, huid, hname, hkey, hvalue, howner, hinfo, hms, hnames, hids,
      not_lt.mpr hks, Nat.pos_iff_ne_zero.mp hminute, not_le.mpr hcount, not_le.mpr horder]
  · intro hm
    rcases hmar : rc.json.Marshal info with ⟨bytes, _ | merr⟩
    · simp [ChatRoomEntryBatchSet, RongCloud.send, Outcome.returnsError, hb _, hmar, hid,
        howner, hinfo]
    · rw [hmar] at hm
      simp at hm
  · intro me hme
    rcases hmar : rc.json.Marshal info with ⟨bytes, _ | merr⟩
    · rw [hmar] at hme
      simp at hme
    · rw [hmar] at hme
      simp only [Option.some.injEq] at hme
      subst hme
      simp [ChatRoomEntryBatchSet, hmar, hid, howner, hinfo]
  · simp [ChatRoomDestroy, RongCloud.send, Outcome.returnsError, hb _, len_eq_zero_iff, hid, huid, hname, hkey, hvalue, howner, hinfo, hms, hnames, hids,
      not_lt.mpr hks, Nat.pos_iff_ne_zero.mp hminute, not_le.mpr hcount, not_le.mpr horder]
  · simp [ChatRoomGet, RongCloud.send, Outcome.returnsError, hb _, len_eq_zero_iff, hid, huid, hname, hkey, hvalue, howner, hinfo, hms, hnames, hids,
      not_lt.mpr hks, Nat.pos_iff_ne_zero.mp hminute, not_le.mpr hcount, not_le.mpr horder]
  · simp [ChatRoomIsExist, RongCloud.send, Outcome.returnsError, hb _, len_eq_zero_iff, hid, huid, hname, hkey, hvalue, howner, hinfo, hms, hnames, hids,
      not_lt.mpr hks, Nat.pos_iff_ne_zero.mp hminute, not_le.mpr hcount, not_le.mpr horder]
  · simp [ChatRoomBlockAdd, RongCloud.send, Outcome.returnsError, hb _, len_eq_zero_iff, hid, huid, hname, hkey, hvalue, howner, hinfo, hms, hnames, hids,
      not_lt.mpr hks, Nat.pos_iff_ne_zero.mp hminute, not_le.mpr hcount, not_le.mpr horder]
  · simp [ChatRoomBlockRemove, RongCloud.send, Outcome.returnsError, hb _, len_eq_zero_iff, hid, huid, hname, hkey, hvalue, howner, hinfo, hms, hnames, hids,
      not_lt.mpr hks, Nat.pos_iff_ne_zero.mp hminute, not_le.mpr hcount, not_le.mpr horder]
  · simp [ChatRoomBlockGetList, RongCloud.send, Outcome.returnsError, hb _, len_eq_zero_iff, hid, huid, hname, hkey, hvalue, howner, hinfo, hms, hnames, hids,
      not_lt.mpr hks, Nat.pos_iff_ne_zero.mp hminute, not_le.mpr hcount, not_le.mpr horder]
  · simp [ChatRoomBanAdd, RongCloud.send, Outcome.returnsError, hb _, len_eq_zero_iff, hid, huid, hname, hkey, hvalue, howner, hinfo, hms, hnames, hids,
      not_lt.mpr hks, Nat.pos_iff_ne_zero.mp hminute, not_le.mpr hcount, not_le.mpr horder]
  · simp [ChatRoomBanRemove, RongCloud.send, Outcome.returnsError, hb _, len_eq_zero_iff, hid, huid, hname, hkey, hvalue, howner, hinfo, hms, hnames, hids,
      not_lt.mpr hks, Nat.pos_iff_ne_zero.mp hminute, not_le.mpr hcount, not_le.mpr horder]
  · simp [ChatRoomBanGetList, RongCloud.send, Outcome.returnsError, hb _, len_eq_zero_iff, hid, huid, hname, hkey, hvalue, howner, hinfo, hms, hnames, hids,
      not_lt.mpr hks, Nat.pos_iff_ne_zero.mp hminute, not_le.mpr hcount, not_le.mpr horder]
  · simp [ChatRoomGagAdd, RongCloud.send, Outcome.returnsError, hb _, len_eq_zero_iff, hid, huid, hname, hkey, hvalue, howner, hinfo, hms, hnames, hids,
      not_lt.mpr hks, Nat.pos_iff_ne_zero.mp hminute, not_le.mpr hcount, not_le.mpr horder]
  · simp [ChatRoomGagRemove, RongCloud.send, Outcome.returnsError, hb _, len_eq_zero_iff, hid, huid, hname, hkey, hvalue, howner, hinfo, hms, hnames, hids,
      not_lt.mpr hks, Nat.pos_iff_ne_zero.mp hminute, not_le.mpr hcount, not_le.mpr horder]
  · simp [ChatRoomGagGetList, RongCloud.send, Outcome.returnsError, hb _, len_eq_zero_iff, hid, huid, hname, hkey, hvalue, howner, hinfo, hms, hnames, hids,
      not_lt.mpr hks, Nat.pos_iff_ne_zero.mp hminute, not_le.mpr hcount, not_le.mpr horder]
  · simp [ChatRoomDemotionAdd, RongCloud.send, Outcome.returnsError, hb _, len_eq_zero_iff, hid, huid, hname, hkey, hvalue, howner, hinfo, hms, hnames, hids,
      not_lt.mpr hks, Nat.pos_iff_ne_zero.mp hminute, not_le.mpr hcount, not_le.mpr horder]
  · simp [ChatRoomDemotionRemove, RongCloud.send, Outcome.returnsError, hb _, len_eq_zero_iff, hid, huid, hname, hkey, hvalue, howner, hinfo, hms, hnames, hids,
      not_lt.mpr hks, Nat.pos_iff_ne_zero.mp hminute, not_le.mpr hcount, not_le.mpr horder]
  · simp [ChatRoomDemotionGetList, RongCloud.send, Outcome.returnsError, hb _, len_eq_zero_iff, hid, huid, hname, hkey, hvalue, howner, hinfo, hms, hnames, hids,
      not_lt.mpr hks, Nat.pos_iff_ne_zero.mp hminute, not_le.mpr hcount, not_le.mpr horder]
  · simp [ChatRoomDistributionStop, RongCloud.send, Outcome.returnsError, hb _, len_eq_zero_iff, hid, huid, hname, hkey, hvalue, howner, hinfo, hms, hnames, hids,
      not_lt.mpr hks, Nat.pos_iff_ne_zero.mp hminute, not_le.mpr hcount, not_le.mpr horder]
  · simp [ChatRoomDistributionResume, RongCloud.send, Outcome.returnsError, hb _, len_eq_zero_iff, hid, huid, hname, hkey, hvalue, howner, hinfo, hms, hnames, hids,
      not_lt.mpr hks, Nat.pos_iff_ne_zero.mp hminute, not_le.mpr hcount, not_le.mpr horder]
  · simp [ChatRoomKeepAliveAdd, RongCloud.send, Outcome.returnsError, hb _, len_eq_zero_iff, hid, huid, hname, hkey, hvalue, howner, hinfo, hms, hnames, hids,
      not_lt.mpr hks, Nat.pos_iff_ne_zero.mp hminute, not_le.mpr hcount, not_le.mpr horder]
  · simp [ChatRoomKeepAliveRemove, RongCloud.send, Outcome.returnsError, hb _, len_eq_zero_iff, hid, huid, hname, hkey, hvalue, howner, hinfo, hms, hnames, hids,
      not_lt.mpr hks, Nat.pos_iff_ne_zero.mp hminute, not_le.mpr hcount, not_le.mpr horder]
  · simp [ChatRoomKeepAliveGetList, RongCloud.send, Outcome.returnsError, hb _, len_eq_zero_iff, hid, huid, hname, hkey, hvalue, howner, hinfo, hms, hnames, hids,
      not_lt.mpr hks, Nat.pos_iff_ne_zero.mp hminute, not_le.mpr hcount, not_le.mpr horder]
  · simp [ChatRoomWhitelistAdd, RongCloud.send, Outcome.returnsError, hb _, len_eq_zero_iff, hid, huid, hname, hkey, hvalue, howner, hinfo, hms, hnames, hids,
      not_lt.mpr hks, Nat.pos_iff_ne_zero.mp hminute, not_le.mpr hcount, not_le.mpr horder]
  · simp [ChatRoomWhitelistRemove, RongCloud.send, Outcome.returnsError, hb _, len_eq_zero_iff, hid, huid, hname, hkey, hvalue, howner, hinfo, hms, hnames, hids,
      not_lt.mpr hks, Nat.pos_iff_ne_zero.mp hminute, not_le.mpr hcount, not_le.mpr horder]
  · simp [ChatRoomWhitelistGetList, RongCloud.send, Outcome.returnsError, hb _, len_eq_zero_iff, hid, huid, hname, hkey, hvalue, howner, hinfo, hms, hnames, hids,
      not_lt.mpr hks, Nat.pos_iff_ne_zero.mp hminute, not_le.mpr hcount, not_le.mpr horder]
  · simp [ChatRoomUserWhitelistAdd, RongCloud.send, Outcome.returnsError, hb _, len_eq_zero_iff, hid, huid, hname, hkey, hvalue, howner, hinfo, hms, hnames, hids,
      not_lt.mpr hks, Nat.pos_iff_ne_zero.mp hminute, not_le.mpr hcount, not_le.mpr horder]
  · simp [ChatRoomUserWhitelistRemove, RongCloud.send, Outcome.returnsError, hb _, len_eq_zero_iff, hid, huid, hname, hkey, hvalue, howner, hinfo, hms, hnames, hids,
      not_lt.mpr hks, Nat.pos_iff_ne_zero.mp hminute, not_le.mpr hcount, not_le.mpr horder]
  · simp [ChatRoomMuteMembersAdd, RongCloud.send, Outcome.returnsError, hb _, len_eq_zero_iff, hid, huid, hname, hkey, hvalue, howner, hinfo, hms, hnames, hids,
      not_lt.mpr hks, Nat.pos_iff_ne_zero.mp hminute, not_le.mpr hcount, not_le.mpr horder]
  · simp [ChatRoomMuteMembersRemove, RongCloud.send, Outcome.returnsError, hb _, len_eq_zero_iff, hid, huid, hname, hkey, hvalue, howner, hinfo, hms, hnames, hids,
      not_lt.mpr hks, Nat.pos_iff_ne_zero.mp hminute, not_le.mpr hcount, not_le.mpr horder]
  · simp [ChatRoomEntrySet, RongCloud.send, Outcome.returnsError, hb _, len_eq_zero_iff, hid, huid, hname, hkey, hvalue, howner, hinfo, hms, hnames, hids,
      not_lt.mpr hks, Nat.pos_iff_ne_zero.mp hminute, not_le.mpr hcount, not_le.mpr horder]
  · simp [ChatRoomEntryRemove, RongCloud.send, Outcome.returnsError, hb _, len_eq_zero_iff, hid, huid, hname, hkey, hvalue, howner, hinfo, hms, hnames, hids,
      not_lt.mpr hks, Nat.pos_iff_ne_zero.mp hminute, not_le.mpr hcount, not_le.mpr horder]
  · simp [ChatRoomEntryQuery, RongCloud.send, Outcome.returnsError, hb _, len_eq_zero_iff, hid, huid, hname, hkey, hvalue, howner, hinfo, hms, hnames, hids,
      not_lt.mpr hks, Nat.pos_iff_ne_zero.mp hminute, not_le.mpr hcount, not_le.mpr horder]
  · simp [ChatRoomQuery, RongCloud.send, Outcome.returnsError, hb _, len_eq_zero_iff, hid, huid, hname, hkey, hvalue, howner, hinfo, hms, hnames, hids,
      not_lt.mpr hks, Nat.pos_iff_ne_zero.mp hminute, not_le.mpr hcount, not_le.mpr horder]
  · simp [ChatRoomBan, RongCloud.send, Outcome.returnsError, hb _, len_eq_zero_iff, hid, huid, hname, hkey, hvalue, howner, hinfo, hms, hnames, hids,
      not_lt.mpr hks, Nat.pos_iff_ne_zero.mp hminute, not_le.mpr hcount, not_le.mpr horder]
  · simp [ChatRoomBanRollback, RongCloud.send, Outcome.returnsError, hb _, len_eq_zero_iff, hid, huid, hname, hkey, hvalue, howner, hinfo, hms, hnames, hids,
      not_lt.mpr hks, Nat.pos_iff_ne_zero.mp hminute, not_le.mpr hcount, not_le.mpr horder]
  · simp [ChatRoomBanQuery, RongCloud.send, Outcome.returnsError, hb _, len_eq_zero_iff, hid, huid, hname, hkey, hvalue, howner, hinfo, hms, hnames, hids,
      not_lt.mpr hks, Nat.pos_iff_ne_zero.mp hminute, not_le.mpr hcount, not_le.mpr horder]
  · simp [ChatRoomBanCheck, RongCloud.send, Outcome.returnsError, hb _, len_eq_zero_iff, hid, huid, hname, hkey, hvalue, howner, hinfo, hms, hnames, hids,
      not_lt.mpr hks, Nat.pos_iff_ne_zero.mp hminute, not_le.mpr hcount, not_le.mpr horder]
  · simp [ChatRoomUserBanWhitelistAdd, RongCloud.send, Outcome.returnsError, hb _, len_eq_zero_iff, hid, huid, hname, hkey, hvalue, howner, hinfo, hms, hnames, hids,
      not_lt.mpr hks, Nat.pos_iff_ne_zero.mp hminute, not_le.mpr hcount, not_le.mpr horder]
  · simp [ChatRoomUserBanWhitelistRollback, RongCloud.send, Outcome.returnsError, hb _, len_eq_zero_iff, hid, huid, hname, hkey, hvalue, howner, hinfo, hms, hnames, hids,
      not_lt.mpr hks, Nat.pos_iff_ne_zero.mp hminute, not_le.mpr hcount, not_le.mpr horder]
  · simp [ChatRoomUserBanWhitelistQuery, RongCloud.send, Outcome.returnsError, hb _, len_eq_zero_iff, hid, huid, hname, hkey, hvalue, howner, hinfo, hms, hnames, hids,
      not_lt.mpr hks, Nat.pos_iff_ne_zero.mp hminute, not_le.mpr hcount, not_le.mpr horder]
  · intro codec
    simp [ChatUserExistResObj, RongCloud.newRequest, RongCloud.fillHeader, hb _, len_eq_zero_iff, hid, huid, hname, hkey, hvalue, howner, hinfo, hms, hnames, hids,
      not_lt.mpr hks, Nat.pos_iff_ne_zero.mp hminute, not_le.mpr hcount, not_le.mpr horder]
  · intro codec
    simp [ChatRoomGetNew, RongCloud.newRequest, RongCloud.fillHeader, hb _, len_eq_zero_iff, hid, huid, hname, hkey, hvalue, howner, hinfo, hms, hnames, hids,
      not_lt.mpr hks, Nat.pos_iff_ne_zero.mp hminute, not_le.mpr hcount, not_le.mpr horder]
  · intro codec
    simp [ChatRoomGet, RongCloud.newRequest, RongCloud.fillHeader, hb _, len_eq_zero_iff, hid, huid, hname, hkey, hvalue, howner, hinfo, hms, hnames, hids,
      not_lt.mpr hks, Nat.pos_iff_ne_zero.mp hminute, not_le.mpr hcount, not_le.mpr horder]
  · intro codec
    simp [ChatRoomIsExist, RongCloud.newRequest, RongCloud.fillHeader, hb _, len_eq_zero_iff, hid, huid, hname, hkey, hvalue, howner, hinfo, hms, hnames, hids,
      not_lt.mpr hks, Nat.pos_iff_ne_zero.mp hminute, not_le.mpr hcount, not_le.mpr horder]
  · intro codec
    simp [ChatRoomBlockGetList, RongCloud.newRequest, RongCloud.fillHeader, hb _, len_eq_zero_iff, hid, huid, hname, hkey, hvalue, howner, hinfo, hms, hnames, hids,
      not_lt.mpr hks, Nat.pos_iff_ne_zero.mp hminute, not_le.mpr hcount, not_le.mpr horder]
  · intro codec
    simp [ChatRoomBanGetList, RongCloud.newRequest, RongCloud.fillHeader, hb _, len_eq_zero_iff, hid, huid, hname, hkey, hvalue, howner, hinfo, hms, hnames, hids,
      not_lt.mpr hks, Nat.pos_iff_ne_zero.mp hminute, not_le.mpr hcount, not_le.mpr horder]
  · intro codec
    simp [ChatRoomGagGetList, RongCloud.newRequest, RongCloud.fillHeader, hb _, len_eq_zero_iff, hid, huid, hname, hkey, hvalue, howner, hinfo, hms, hnames, hids,
      not_lt.mpr hks, Nat.pos_iff_ne_zero.mp hminute, not_le.mpr hcount, not_le.mpr horder]
  · intro codec
    simp [ChatRoomDemotionGetList, RongCloud.newRequest, RongCloud.fillHeader, hb _, len_eq_zero_iff, hid, huid, hname, hkey, hvalue, howner, hinfo, hms, hnames, hids,
      not_lt.mpr hks, Nat.pos_iff_ne_zero.mp hminute, not_le.mpr hcount, not_le.mpr horder]
  · intro codec
    simp [ChatRoomKeepAliveGetList, RongCloud.newRequest, RongCloud.fillHeader, hb _, len_eq_zero_iff, hid, huid, hname, hkey, hvalue, howner, hinfo, hms, hnames, hids,
      not_lt.mpr hks, Nat.pos_iff_ne_zero.mp hminute, not_le.mpr hcount, not_le.mpr horder]
  · intro codec
    simp [ChatRoomWhitelistGetList, RongCloud.newRequest, RongCloud.fillHeader, hb _, len_eq_zero_iff, hid, huid, hname, hkey, hvalue, howner, hinfo, hms, hnames, hids,
      not_lt.mpr hks, Nat.pos_iff_ne_zero.mp hminute, not_le.mpr hcount, not_le.mpr horder]
  · intro codec
    simp [ChatRoomEntryQuery, RongCloud.newRequest, RongCloud.fillHeader, hb _, len_eq_zero_iff, hid, huid, hname, hkey, hvalue, howner, hinfo, hms, hnames, hids,
      not_lt.mpr hks, Nat.pos_iff_ne_zero.mp hminute, not_le.mpr hcount, not_le.mpr horder]
  · intro codec
    simp [ChatRoomQuery, RongCloud.newRequest, RongCloud.fillHeader, hb _, len_eq_zero_iff, hid, huid, hname, hkey, hvalue, howner, hinfo, hms, hnames, hids,
      not_lt.mpr hks, Nat.pos_iff_ne_zero.mp hminute, not_le.mpr hcount, not_le.mpr horder]
  · intro codec
    simp [ChatRoomBanQuery, RongCloud.newRequest, RongCloud.fillHeader, hb _, len_eq_zero_iff, hid, huid, hname, hkey, hvalue, howner, hinfo, hms, hnames, hids,
      not_lt.mpr hks, Nat.pos_iff_ne_zero.mp hminute, not_le.mpr hcount, not_le.mpr horder]
  · intro codec
    simp [ChatRoomBanCheck, RongCloud.newRequest, RongCloud.fillHeader, hb _, len_eq_zero_iff, hid, huid, hname, hkey, hvalue, howner, hinfo, hms, hnames, hids,
      not_lt.mpr hks, Nat.pos_iff_ne_zero.mp hminute, not_le.mpr hcount, not_le.mpr horder]
  · intro codec
    simp [ChatRoomUserBanWhitelistQuery, RongCloud.newRequest, RongCloud.fillHeader, hb _, len_eq_zero_iff, hid, huid, hname, hkey, hvalue, howner, hinfo, hms, hnames, hids,
      not_lt.mpr hks, Nat.pos_iff_ne_zero.mp hminute, not_le.mpr hcount, not_le.mpr horder]

/-- C12 amended, at a concrete call: the body `{"code":404,"message":"not found"}`
makes both operations return the envelope with code 404 as the error. -/
theorem C12_checked_decode_witness :
    "room1" ≠ "" ∧
    (ChatRoomMuteMembersGetList (replyClient "\x7b\"code\":404,\"message\":\"not found\"\x7d") "room1").value = [] ∧
    (ChatRoomMuteMembersGetList (replyClient "\x7b\"code\":404,\"message\":\"not found\"\x7d") "room1").err =
      some (Error.codeResult { Code := 404, Message := "not found" }) ∧
    (ChatRoomUserWhitelistGetList (replyClient "\x7b\"code\":404,\"message\":\"not found\"\x7d") "room1").value = some [] ∧
    (ChatRoomUserWhitelistGetList (replyClient "\x7b\"code\":404,\"message\":\"not found\"\x7d") "room1").err =
      some (Error.codeResult { Code := 404, Message := "not found" }) :=
  ⟨by decide,
    ((C12_checked_decode (replyClient "\x7b\"code\":404,\"message\":\"not found\"\x7d") "room1" "\x7b\"code\":404,\"message\":\"not found\"\x7d"
      { Code := 404, Message := "not found" } (by decide) (fun _ => rfl) (fun _ => rfl)
      (by decide)).1 (by decide)).1,
    ((C12_checked_decode (replyClient "\x7b\"code\":404,\"message\":\"not found\"\x7d") "room1" "\x7b\"code\":404,\"message\":\"not found\"\x7d"
      { Code := 404, Message := "not found" } (by decide) (fun _ => rfl) (fun _ => rfl)
      (by decide)).1 (by decide)).2.1,
    ((C12_checked_decode (replyClient "\x7b\"code\":404,\"message\":\"not found\"\x7d") "room1" "\x7b\"code\":404,\"message\":\"not found\"\x7d"
      { Code := 404, Message := "not found" } (by decide) (fun _ => rfl) (fun _ => rfl)
      (by decide)).1 (by decide)).2.2.1,
    ((C12_checked_decode (replyClient "\x7b\"code\":404,\"message\":\"not found\"\x7d") "room1" "\x7b\"code\":404,\"message\":\"not found\"\x7d"
      { Code := 404, Message := "not found" } (by decide) (fun _ => rfl) (fun _ => rfl)
      (by decide)).1 (by decide)).2.2.2.1⟩

/-- C13, at a concrete call: `ChatRoomGetNew` on the body `{"code":404}` returns
the decoded code, the zero value of every other field and no error. -/
theorem C13_direct_decode_ignores_code_witness :
    "room1" ≠ "" ∧ "u1" ≠ "" ∧ (0 : Int) < 1 ∧ ["u1"] ≠ [] ∧ ["k"].length ≤ 100 ∧
    (ChatRoomGetNew (replyClient "\x7b\"code\":404\x7d") "room1").value = { Code := 404 } ∧
    (ChatRoomGetNew (replyClient "\x7b\"code\":404\x7d") "room1").err = none :=
  ⟨by decide, by decide, by decide, by decide, by decide,
    (C13_direct_decode_ignores_code (replyClient "\x7b\"code\":404\x7d") "\x7b\"code\":404\x7d" "room1" "u1" 1 1 10 1 ["u1"]
      ["k"] ["room1"] (fun _ => rfl) (by decide) (by decide) (by decide) (by decide)
      (by decide) (by decide) (by decide)).2.1 { Code := 404 } (by decide)⟩

/-- C14, at concrete calls on a client whose transport fails with a time-out:
`ChatRoomGagGetList` hands its request to the transport and returns that error
with an empty list, and `ChatUserExist` returns it with no bytes. -/
theorem C14_transport_error_is_returned_unchanged_witness :
    "room1" ≠ "" ∧ "u1" ≠ "" ∧ failingClient.transportFails (Error.transport "timeout") ∧
    failingClient.bytesOrError ∧
    (ChatRoomGagGetList failingClient "room1").returnsError (Error.transport "timeout") [] ∧
    (ChatUserExist failingClient "room1" "u1").returnsError (Error.transport "timeout") "" :=
  have h := C14_transport_error_is_returned_unchanged failingClient (Error.transport "timeout")
    "room1" "u1" "n" "k" "v" "o" [("a", GoValue.nil)] ["u1"] ["t"] ["room1"] ["k"] 1 1 1 0 60
    10 1 0 true [] (by decide) (by decide) (by decide) (by decide) (by decide) (by decide)
    (by simp) (by decide) (by decide) (by decide) (by decide) (by decide) (by decide)
    (by decide) (fun _ => rfl)
  ⟨by decide, by decide, fun _ => rfl, fun _ _ => rfl, h.2.2.2.2.2.2.2.2.2.2.2.2.2.2.2.2.2.2.2.2.2.1, h.2.2.1 (fun _ _ => rfl)⟩

/-! ## C15: unexpected shapes of the user whitelist -/

/-- C15, the code at the failing inputs: for a body with code 200 whose "users"
value is a string, and for one whose "users" array holds a number,
`ChatRoomUserWhitelistGetList` panics after having sent its request; it returns
neither a value nor an error. -/
theorem C15_whitelist_get_list_panics_on_unexpected_users :
    (ChatRoomUserWhitelistGetList
      (replyClient "\x7b\"code\":200,\"users\":\"x\"\x7d") "room1").didPanic = true ∧
    (ChatRoomUserWhitelistGetList
      (replyClient "\x7b\"code\":200,\"users\":\"x\"\x7d") "room1").err = none ∧
    (ChatRoomUserWhitelistGetList
      (replyClient "\x7b\"code\":200,\"users\":\"x\"\x7d") "room1").value = none ∧
    (ChatRoomUserWhitelistGetList
      (replyClient "\x7b\"code\":200,\"users\":[\"a\",1]\x7d") "room1").didPanic = true ∧
    (ChatRoomUserWhitelistGetList
      (replyClient "\x7b\"code\":200,\"users\":[\"a\",1]\x7d") "room1").err = none ∧
    (ChatRoomUserWhitelistGetList
      (replyClient "\x7b\"code\":200,\"users\":[\"a\",1]\x7d") "room1").value = none ∧
    (ChatRoomUserWhitelistGetList
      (replyClient "\x7b\"code\":200,\"users\":[\"a\",\"b\"]\x7d") "room1").value =
        some ["a", "b"] := by
  refine ⟨by decide, by decide, by decide, by decide, by decide, by decide, by decide⟩

theorem url_ParamEach (req : Request) (key : String) (vs : List String) :
    (req.ParamEach key vs).url = req.url := by
  rw [ParamEach_eq]

theorem url_ParamNotify (req : Request) (o : chatroomOptions) :
    (req.ParamNotify o).url = req.url := by
  unfold Request.ParamNotify
  split <;> rfl

theorem url_path (base path format : String) :
    base ++ "/chatroom/" ++ path ++ "." ++ format = base ++ ("/chatroom/" ++ path ++ ".") ++ format := by
  simp [String.append_assoc]

theorem ChatRoomUserWhitelistGetList_sent (rc : RongCloud) (id : String) (hid : id ≠ "") :
    (ChatRoomUserWhitelistGetList rc id).sent =
      [(rc.newRequest (rc.rongCloudURI ++ "/chatroom/user/whitelist/query." ++ rc.ReqType)).Param
        "chatroomId" id] := by
  unfold ChatRoomUserWhitelistGetList
  rw [if_neg hid]
  simp only []
  repeat' (first | rfl | split)

theorem ChatRoomMuteMembersGetList_sent (rc : RongCloud) (id : String) (hid : id ≠ "") :
    (ChatRoomMuteMembersGetList rc id).sent =
      [(rc.newRequest (rc.rongCloudURI ++ "/chatroom/user/gag/list." ++ rc.ReqType)).Param
        "chatroomId" id] := by
  unfold ChatRoomMuteMembersGetList
  rw [if_neg hid]
  simp only []
  repeat' (first | rfl | split)

theorem ChatRoomBanCheck_sent (rc : RongCloud) (id : String) (hid : id ≠ "") :
    (ChatRoomBanCheck rc id).sent =
      [(rc.newRequest (rc.rongCloudURI ++ "/chatroom/ban/check." ++ rc.ReqType)).Param
        "chatroomId" id] := by
  unfold ChatRoomBanCheck
  rw [if_neg hid]
  simp only []
  repeat' (first | rfl | split)

set_option linter.unusedTactic false in
set_option linter.unnecessarySeqFocus false in
theorem url_of_every_other_operation (rc : RongCloud) :
    (∀ id name, (ChatRoomCreate rc id name).sentTo (rc.rongCloudURI ++ "/chatroom/" ++ "create" ++ "." ++ rc.ReqType)) ∧
    (∀ chatroomId options, (ChatRoomCreateNew rc chatroomId options).sentTo (rc.rongCloudURI ++ "/chatroom/" ++ "create_new" ++ "." ++ rc.ReqType)) ∧
    (∀ chatroomId destroyType destroyTime, (ChatRoomDestroySet rc chatroomId destroyType destroyTime).sentTo (rc.rongCloudURI ++ "/chatroom/" ++ "destroy/set" ++ "." ++ rc.ReqType)) ∧
    (∀ chatroomId, (ChatRoomGetNew rc chatroomId).sentTo (rc.rongCloudURI ++ "/chatroom/" ++ "get" ++ "." ++ rc.ReqType)) ∧
    (∀ chatroomId autoDelete entryOwnerId entryInfo, (ChatRoomEntryBatchSet rc chatroomId autoDelete entryOwnerId entryInfo).sentTo (rc.rongCloudURI ++ "/chatroom/" ++ "entry/batch/set" ++ "." ++ rc.ReqType)) ∧
    (∀ id, (ChatRoomDestroy rc id).sentTo (rc.rongCloudURI ++ "/chatroom/" ++ "destroy" ++ "." ++ rc.ReqType)) ∧
    (∀ id count order, (ChatRoomGet rc id count order).sentTo (rc.rongCloudURI ++ "/chatroom/" ++ "user/query" ++ "." ++ rc.ReqType)) ∧
    (∀ id members, (ChatRoomIsExist rc id members).sentTo (rc.rongCloudURI ++ "/chatroom/" ++ "users/exist" ++ "." ++ rc.ReqType)) ∧
    (∀ id members minute options, (ChatRoomBlockAdd rc id members minute options).sentTo (rc.rongCloudURI ++ "/chatroom/" ++ "user/block/add" ++ "." ++ rc.ReqType)) ∧
    (∀ id members options, (ChatRoomBlockRemove rc id members options).sentTo (rc.rongCloudURI ++ "/chatroom/" ++ "user/block/rollback" ++ "." ++ rc.ReqType)) ∧
    (∀ id, (ChatRoomBlockGetList rc id).sentTo (rc.rongCloudURI ++ "/chatroom/" ++ "user/block/list" ++ "." ++ rc.ReqType)) ∧
    (∀ members minute options, (ChatRoomBanAdd rc members minute options).sentTo (rc.rongCloudURI ++ "/chatroom/" ++ "user/ban/add" ++ "." ++ rc.ReqType)) ∧
    (∀ members options, (ChatRoomBanRemove rc members options).sentTo (rc.rongCloudURI ++ "/chatroom/" ++ "user/ban/remove" ++ "." ++ rc.ReqType)) ∧
    ((ChatRoomBanGetList rc).sentTo (rc.rongCloudURI ++ "/chatroom/" ++ "user/ban/query" ++ "." ++ rc.ReqType)) ∧
    (∀ id members minute options, (ChatRoomGagAdd rc id members minute options).sentTo (rc.rongCloudURI ++ "/chatroom/" ++ "user/gag/add" ++ "." ++ rc.ReqType)) ∧
    (∀ id members options, (ChatRoomGagRemove rc id members options).sentTo (rc.rongCloudURI ++ "/chatroom/" ++ "user/gag/rollback" ++ "." ++ rc.ReqType)) ∧
    (∀ id, (ChatRoomGagGetList rc id).sentTo (rc.rongCloudURI ++ "/chatroom/" ++ "user/gag/list" ++ "." ++ rc.ReqType)) ∧
    (∀ objectNames, (ChatRoomDemotionAdd rc objectNames).sentTo (rc.rongCloudURI ++ "/chatroom/" ++ "message/priority/add" ++ "." ++ rc.ReqType)) ∧
    (∀ objectNames, (ChatRoomDemotionRemove rc objectNames).sentTo (rc.rongCloudURI ++ "/chatroom/" ++ "message/priority/remove" ++ "." ++ rc.ReqType)) ∧
    ((ChatRoomDemotionGetList rc).sentTo (rc.rongCloudURI ++ "/chatroom/" ++ "message/priority/query" ++ "." ++ rc.ReqType)) ∧
    (∀ id, (ChatRoomDistributionStop rc id).sentTo (rc.rongCloudURI ++ "/chatroom/" ++ "message/stopDistribution" ++ "." ++ rc.ReqType)) ∧
    (∀ id, (ChatRoomDistributionResume rc id).sentTo (rc.rongCloudURI ++ "/chatroom/" ++ "message/resumeDistribution" ++ "." ++ rc.ReqType)) ∧
    (∀ id, (ChatRoomKeepAliveAdd rc id).sentTo (rc.rongCloudURI ++ "/chatroom/" ++ "keepalive/add" ++ "." ++ rc.ReqType)) ∧
    (∀ id, (ChatRoomKeepAliveRemove rc id).sentTo (rc.rongCloudURI ++ "/chatroom/" ++ "keepalive/remove" ++ "." ++ rc.ReqType)) ∧
    ((ChatRoomKeepAliveGetList rc).sentTo (rc.rongCloudURI ++ "/chatroom/" ++ "keepalive/query" ++ "." ++ rc.ReqType)) ∧
    (∀ objectNames, (ChatRoomWhitelistAdd rc objectNames).sentTo (rc.rongCloudURI ++ "/chatroom/" ++ "whitelist/add" ++ "." ++ rc.ReqType)) ∧
    (∀ objectNames, (ChatRoomWhitelistRemove rc objectNames).sentTo (rc.rongCloudURI ++ "/chatroom/" ++ "whitelist/delete" ++ "." ++ rc.ReqType)) ∧
    ((ChatRoomWhitelistGetList rc).sentTo (rc.rongCloudURI ++ "/chatroom/" ++ "whitelist/query" ++ "." ++ rc.ReqType)) ∧
    (∀ id members, (ChatRoomUserWhitelistAdd rc id members).sentTo (rc.rongCloudURI ++ "/chatroom/" ++ "user/whitelist/add" ++ "." ++ rc.ReqType)) ∧
    (∀ id members, (ChatRoomUserWhitelistRemove rc id members).sentTo (rc.rongCloudURI ++ "/chatroom/" ++ "user/whitelist/remove" ++ "." ++ rc.ReqType)) ∧
    (∀ id, (ChatRoomUserWhitelistGetList rc id).sentTo (rc.rongCloudURI ++ "/chatroom/" ++ "user/whitelist/query" ++ "." ++ rc.ReqType)) ∧
    (∀ id members minute options, (ChatRoomMuteMembersAdd rc id members minute options).sentTo (rc.rongCloudURI ++ "/chatroom/" ++ "user/gag/add" ++ "." ++ rc.ReqType)) ∧
    (∀ id, (ChatRoomMuteMembersGetList rc id).sentTo (rc.rongCloudURI ++ "/chatroom/" ++ "user/gag/list" ++ "." ++ rc.ReqType)) ∧
    (∀ id members options, (ChatRoomMuteMembersRemove rc id members options).sentTo (rc.rongCloudURI ++ "/chatroom/" ++ "user/gag/rollback" ++ "." ++ rc.ReqType)) ∧
    (∀ chatRoomID userID key value autoDelete, (ChatRoomEntrySet rc chatRoomID userID key value autoDelete).sentTo (rc.rongCloudURI ++ "/chatroom/" ++ "entry/set" ++ "." ++ rc.ReqType)) ∧
    (∀ chatRoomID userID key, (ChatRoomEntryRemove rc chatRoomID userID key).sentTo (rc.rongCloudURI ++ "/chatroom/" ++ "entry/remove" ++ "." ++ rc.ReqType)) ∧
    (∀ chatRoomID keys, (ChatRoomEntryQuery rc chatRoomID keys).sentTo (rc.rongCloudURI ++ "/chatroom/" ++ "entry/query" ++ "." ++ rc.ReqType)) ∧
    (∀ chatRoomID, (ChatRoomQuery rc chatRoomID).sentTo (rc.rongCloudURI ++ "/chatroom/" ++ "query" ++ "." ++ rc.ReqType)) ∧
    (∀ chatroomId options, (ChatRoomBan rc chatroomId options).sentTo (rc.rongCloudURI ++ "/chatroom/" ++ "ban/add" ++ "." ++ rc.ReqType)) ∧
    (∀ chatroomId options, (ChatRoomBanRollback rc chatroomId options).sentTo (rc.rongCloudURI ++ "/chatroom/" ++ "ban/rollback" ++ "." ++ rc.ReqType)) ∧
    (∀ size page, (ChatRoomBanQuery rc size page).sentTo (rc.rongCloudURI ++ "/chatroom/" ++ "ban/query" ++ "." ++ rc.ReqType)) ∧
    (∀ chatroomId, (ChatRoomBanCheck rc chatroomId).sentTo (rc.rongCloudURI ++ "/chatroom/" ++ "ban/check" ++ "." ++ rc.ReqType)) ∧
    (∀ chatroomId members options, (ChatRoomUserBanWhitelistAdd rc chatroomId members options).sentTo (rc.rongCloudURI ++ "/chatroom/" ++ "user/ban/whitelist/add" ++ "." ++ rc.ReqType)) ∧
    (∀ chatroomId members options, (ChatRoomUserBanWhitelistRollback rc chatroomId members options).sentTo (rc.rongCloudURI ++ "/chatroom/" ++ "user/ban/whitelist/rollback" ++ "." ++ rc.ReqType)) ∧
    (∀ chatroomId, (ChatRoomUserBanWhitelistQuery rc chatroomId).sentTo (rc.rongCloudURI ++ "/chatroom/" ++ "user/ban/whitelist/query" ++ "." ++ rc.ReqType)) := by
  refine ⟨?_, ?_, ?_, ?_, ?_, ?_, ?_, ?_, ?_, ?_, ?_, ?_, ?_, ?_, ?_, ?_, ?_, ?_, ?_, ?_, ?_, ?_,
    ?_, ?_, ?_, ?_, ?_, ?_, ?_, ?_, ?_, ?_, ?_, ?_, ?_, ?_, ?_, ?_, ?_, ?_, ?_, ?_, ?_, ?_, ?_⟩
  all_goals intros
  all_goals first | unfold Outcome.sentTo | unfold Run.sentTo
  all_goals intro req hreq
  all_goals rw [url_path]
  · unfold ChatRoomCreate at hreq
    (try simp only [] at hreq) <;> (try split_ifs at hreq) <;> (try split at hreq) <;>
      (try split at hreq) <;>
      simp_all [RongCloud.send, Run.sent, url_ParamEach, url_ParamNotify, Request.Param,
        RongCloud.newRequest, RongCloud.fillHeader, Request.SetTimeout, httplib.Post,
        String.append_assoc]
  · unfold ChatRoomCreateNew at hreq
    (try simp only [] at hreq) <;> (try split_ifs at hreq) <;> (try split at hreq) <;>
      (try split at hreq) <;>
      simp_all [RongCloud.send, Run.sent, url_ParamEach, url_ParamNotify, Request.Param,
        RongCloud.newRequest, RongCloud.fillHeader, Request.SetTimeout, httplib.Post,
        String.append_assoc]
  · unfold ChatRoomDestroySet at hreq
    (try simp only [] at hreq) <;> (try split_ifs at hreq) <;> (try split at hreq) <;>
      (try split at hreq) <;>
      simp_all [RongCloud.send, Run.sent, url_ParamEach, url_ParamNotify, Request.Param,
        RongCloud.newRequest, RongCloud.fillHeader, Request.SetTimeout, httplib.Post,
        String.append_assoc]
  · unfold ChatRoomGetNew at hreq
    (try simp only [] at hreq) <;> (try split_ifs at hreq) <;> (try split at hreq) <;>
      (try split at hreq) <;>
      simp_all [RongCloud.send, Run.sent, url_ParamEach, url_ParamNotify, Request.Param,
        RongCloud.newRequest, RongCloud.fillHeader, Request.SetTimeout, httplib.Post,
        String.append_assoc]
  · unfold ChatRoomEntryBatchSet at hreq
    (try simp only [] at hreq) <;> (try split_ifs at hreq) <;> (try split at hreq) <;>
      (try split at hreq) <;>
      simp_all [RongCloud.send, Run.sent, url_ParamEach, url_ParamNotify, Request.Param,
        RongCloud.newRequest, RongCloud.fillHeader, Request.SetTimeout, httplib.Post,
        String.append_assoc]
  · unfold ChatRoomDestroy at hreq
    (try simp only [] at hreq) <;> (try split_ifs at hreq) <;> (try split at hreq) <;>
      (try split at hreq) <;>
      simp_all [RongCloud.send, Run.sent, url_ParamEach, url_ParamNotify, Request.Param,
        RongCloud.newRequest, RongCloud.fillHeader, Request.SetTimeout, httplib.Post,
        String.append_assoc]
  · unfold ChatRoomGet at hreq
    (try simp only [] at hreq) <;> (try split_ifs at hreq) <;> (try split at hreq) <;>
      (try split at hreq) <;>
      simp_all [RongCloud.send, Run.sent, url_ParamEach, url_ParamNotify, Request.Param,
        RongCloud.newRequest, RongCloud.fillHeader, Request.SetTimeout, httplib.Post,
        String.append_assoc]
  · unfold ChatRoomIsExist at hreq
    (try simp only [] at hreq) <;> (try split_ifs at hreq) <;> (try split at hreq) <;>
      (try split at hreq) <;>
      simp_all [RongCloud.send, Run.sent, url_ParamEach, url_ParamNotify, Request.Param,
        RongCloud.newRequest, RongCloud.fillHeader, Request.SetTimeout, httplib.Post,
        String.append_assoc]
  · unfold ChatRoomBlockAdd at hreq
    (try simp only [] at hreq) <;> (try split_ifs at hreq) <;> (try split at hreq) <;>
      (try split at hreq) <;>
      simp_all [RongCloud.send, Run.sent, url_ParamEach, url_ParamNotify, Request.Param,
        RongCloud.newRequest, RongCloud.fillHeader, Request.SetTimeout, httplib.Post,
        String.append_assoc]
  · unfold ChatRoomBlockRemove at hreq
    (try simp only [] at hreq) <;> (try split_ifs at hreq) <;> (try split at hreq) <;>
      (try split at hreq) <;>
      simp_all [RongCloud.send, Run.sent, url_ParamEach, url_ParamNotify, Request.Param,
        RongCloud.newRequest, RongCloud.fillHeader, Request.SetTimeout, httplib.Post,
        String.append_assoc]
  · unfold ChatRoomBlockGetList at hreq
    (try simp only [] at hreq) <;> (try split_ifs at hreq) <;> (try split at hreq) <;>
      (try split at hreq) <;>
      simp_all [RongCloud.send, Run.sent, url_ParamEach, url_ParamNotify, Request.Param,
        RongCloud.newRequest, RongCloud.fillHeader, Request.SetTimeout, httplib.Post,
        String.append_assoc]
  · unfold ChatRoomBanAdd at hreq
    (try simp only [] at hreq) <;> (try split_ifs at hreq) <;> (try split at hreq) <;>
      (try split at hreq) <;>
      simp_all [RongCloud.send, Run.sent, url_ParamEach, url_ParamNotify, Request.Param,
        RongCloud.newRequest, RongCloud.fillHeader, Request.SetTimeout, httplib.Post,
        String.append_assoc]
  · unfold ChatRoomBanRemove at hreq
    (try simp only [] at hreq) <;> (try split_ifs at hreq) <;> (try split at hreq) <;>
      (try split at hreq) <;>
      simp_all [RongCloud.send, Run.sent, url_ParamEach, url_ParamNotify, Request.Param,
        RongCloud.newRequest, RongCloud.fillHeader, Request.SetTimeout, httplib.Post,
        String.append_assoc]
  · unfold ChatRoomBanGetList at hreq
    (try simp only [] at hreq) <;> (try split_ifs at hreq) <;> (try split at hreq) <;>
      (try split at hreq) <;>
      simp_all [RongCloud.send, Run.sent, url_ParamEach, url_ParamNotify, Request.Param,
        RongCloud.newRequest, RongCloud.fillHeader, Request.SetTimeout, httplib.Post,
        String.append_assoc]
  · unfold ChatRoomGagAdd at hreq
    (try simp only [] at hreq) <;> (try split_ifs at hreq) <;> (try split at hreq) <;>
      (try split at hreq) <;>
      simp_all [RongCloud.send, Run.sent, url_ParamEach, url_ParamNotify, Request.Param,
        RongCloud.newRequest, RongCloud.fillHeader, Request.SetTimeout, httplib.Post,
        String.append_assoc]
  · unfold ChatRoomGagRemove at hreq
    (try simp only [] at hreq) <;> (try split_ifs at hreq) <;> (try split at hreq) <;>
      (try split at hreq) <;>
      simp_all [RongCloud.send, Run.sent, url_ParamEach, url_ParamNotify, Request.Param,
        RongCloud.newRequest, RongCloud.fillHeader, Request.SetTimeout, httplib.Post,
        String.append_assoc]
  · unfold ChatRoomGagGetList at hreq
    (try simp only [] at hreq) <;> (try split_ifs at hreq) <;> (try split at hreq) <;>
      (try split at hreq) <;>
      simp_all [RongCloud.send, Run.sent, url_ParamEach, url_ParamNotify, Request.Param,
        RongCloud.newRequest, RongCloud.fillHeader, Request.SetTimeout, httplib.Post,
        String.append_assoc]
  · unfold ChatRoomDemotionAdd at hreq
    (try simp only [] at hreq) <;> (try split_ifs at hreq) <;> (try split at hreq) <;>
      (try split at hreq) <;>
      simp_all [RongCloud.send, Run.sent, url_ParamEach, url_ParamNotify, Request.Param,
        RongCloud.newRequest, RongCloud.fillHeader, Request.SetTimeout, httplib.Post,
        String.append_assoc]
  · unfold ChatRoomDemotionRemove at hreq
    (try simp only [] at hreq) <;> (try split_ifs at hreq) <;> (try split at hreq) <;>
      (try split at hreq) <;>
      simp_all [RongCloud.send, Run.sent, url_ParamEach, url_ParamNotify, Request.Param,
        RongCloud.newRequest, RongCloud.fillHeader, Request.SetTimeout, httplib.Post,
        String.append_assoc]
  · unfold ChatRoomDemotionGetList at hreq
    (try simp only [] at hreq) <;> (try split_ifs at hreq) <;> (try split at hreq) <;>
      (try split at hreq) <;>
      simp_all [RongCloud.send, Run.sent, url_ParamEach, url_ParamNotify, Request.Param,
        RongCloud.newRequest, RongCloud.fillHeader, Request.SetTimeout, httplib.Post,
        String.append_assoc]
  · unfold ChatRoomDistributionStop at hreq
    (try simp only [] at hreq) <;> (try split_ifs at hreq) <;> (try split at hreq) <;>
      (try split at hreq) <;>
      simp_all [RongCloud.send, Run.sent, url_ParamEach, url_ParamNotify, Request.Param,
        RongCloud.newRequest, RongCloud.fillHeader, Request.SetTimeout, httplib.Post,
        String.append_assoc]
  · unfold ChatRoomDistributionResume at hreq
    (try simp only [] at hreq) <;> (try split_ifs at hreq) <;> (try split at hreq) <;>
      (try split at hreq) <;>
      simp_all [RongCloud.send, Run.sent, url_ParamEach, url_ParamNotify, Request.Param,
        RongCloud.newRequest, RongCloud.fillHeader, Request.SetTimeout, httplib.Post,
        String.append_assoc]
  · unfold ChatRoomKeepAliveAdd at hreq
    (try simp only [] at hreq) <;> (try split_ifs at hreq) <;> (try split at hreq) <;>
      (try split at hreq) <;>
      simp_all [RongCloud.send, Run.sent, url_ParamEach, url_ParamNotify, Request.Param,
        RongCloud.newRequest, RongCloud.fillHeader, Request.SetTimeout, httplib.Post,
        String.append_assoc]
  · unfold ChatRoomKeepAliveRemove at hreq
    (try simp only [] at hreq) <;> (try split_ifs at hreq) <;> (try split at hreq) <;>
      (try split at hreq) <;>
      simp_all [RongCloud.send, Run.sent, url_ParamEach, url_ParamNotify, Request.Param,
        RongCloud.newRequest, RongCloud.fillHeader, Request.SetTimeout, httplib.Post,
        String.append_assoc]
  · unfold ChatRoomKeepAliveGetList at hreq
    (try simp only [] at hreq) <;> (try split_ifs at hreq) <;> (try split at hreq) <;>
      (try split at hreq) <;>
      simp_all [RongCloud.send, Run.sent, url_ParamEach, url_ParamNotify, Request.Param,
        RongCloud.newRequest, RongCloud.fillHeader, Request.SetTimeout, httplib.Post,
        String.append_assoc]
  · unfold ChatRoomWhitelistAdd at hreq
    (try simp only [] at hreq) <;> (try split_ifs at hreq) <;> (try split at hreq) <;>
      (try split at hreq) <;>
      simp_all [RongCloud.send, Run.sent, url_ParamEach, url_ParamNotify, Request.Param,
        RongCloud.newRequest, RongCloud.fillHeader, Request.SetTimeout, httplib.Post,
        String.append_assoc]
  · unfold ChatRoomWhitelistRemove at hreq
    (try simp only [] at hreq) <;> (try split_ifs at hreq) <;> (try split at hreq) <;>
      (try split at hreq) <;>
      simp_all [RongCloud.send, Run.sent, url_ParamEach, url_ParamNotify, Request.Param,
        RongCloud.newRequest, RongCloud.fillHeader, Request.SetTimeout, httplib.Post,
        String.append_assoc]
  · unfold ChatRoomWhitelistGetList at hreq
    (try simp only [] at hreq) <;> (try split_ifs at hreq) <;> (try split at hreq) <;>
      (try split at hreq) <;>
      simp_all [RongCloud.send, Run.sent, url_ParamEach, url_ParamNotify, Request.Param,
        RongCloud.newRequest, RongCloud.fillHeader, Request.SetTimeout, httplib.Post,
        String.append_assoc]
  · unfold ChatRoomUserWhitelistAdd at hreq
    (try simp only [] at hreq) <;> (try split_ifs at hreq) <;> (try split at hreq) <;>
      (try split at hreq) <;>
      simp_all [RongCloud.send, Run.sent, url_ParamEach, url_ParamNotify, Request.Param,
        RongCloud.newRequest, RongCloud.fillHeader, Request.SetTimeout, httplib.Post,
        String.append_assoc]
  · unfold ChatRoomUserWhitelistRemove at hreq
    (try simp only [] at hreq) <;> (try split_ifs at hreq) <;> (try split at hreq) <;>
      (try split at hreq) <;>
      simp_all [RongCloud.send, Run.sent, url_ParamEach, url_ParamNotify, Request.Param,
        RongCloud.newRequest, RongCloud.fillHeader, Request.SetTimeout, httplib.Post,
        String.append_assoc]
  · rename_i id
    by_cases hid : id = ""
    · subst hid
      exact absurd hreq (List.not_mem_nil _)
    · rw [ChatRoomUserWhitelistGetList_sent rc id hid] at hreq
      simp_all [Request.Param, RongCloud.newRequest, RongCloud.fillHeader, Request.SetTimeout,
        httplib.Post, String.append_assoc]
  · unfold ChatRoomMuteMembersAdd at hreq
    (try simp only [] at hreq) <;> (try split_ifs at hreq) <;> (try split at hreq) <;>
      (try split at hreq) <;>
      simp_all [RongCloud.send, Run.sent, url_ParamEach, url_ParamNotify, Request.Param,
        RongCloud.newRequest, RongCloud.fillHeader, Request.SetTimeout, httplib.Post,
        String.append_assoc]
  · rename_i id
    by_cases hid : id = ""
    · subst hid
      exact absurd hreq (List.not_mem_nil _)
    · rw [ChatRoomMuteMembersGetList_sent rc id hid] at hreq
      simp_all [Request.Param, RongCloud.newRequest, RongCloud.fillHeader, Request.SetTimeout,
        httplib.Post, String.append_assoc]
  · unfold ChatRoomMuteMembersRemove at hreq
    (try simp only [] at hreq) <;> (try split_ifs at hreq) <;> (try split at hreq) <;>
      (try split at hreq) <;>
      simp_all [RongCloud.send, Run.sent, url_ParamEach, url_ParamNotify, Request.Param,
        RongCloud.newRequest, RongCloud.fillHeader, Request.SetTimeout, httplib.Post,
        String.append_assoc]
  · unfold ChatRoomEntrySet at hreq
    (try simp only [] at hreq) <;> (try split_ifs at hreq) <;> (try split at hreq) <;>
      (try split at hreq) <;>
      simp_all [RongCloud.send, Run.sent, url_ParamEach, url_ParamNotify, Request.Param,
        RongCloud.newRequest, RongCloud.fillHeader, Request.SetTimeout, httplib.Post,
        String.append_assoc]
  · unfold ChatRoomEntryRemove at hreq
    (try simp only [] at hreq) <;> (try split_ifs at hreq) <;> (try split at hreq) <;>
      (try split at hreq) <;>
      simp_all [RongCloud.send, Run.sent, url_ParamEach, url_ParamNotify, Request.Param,
        RongCloud.newRequest, RongCloud.fillHeader, Request.SetTimeout, httplib.Post,
        String.append_assoc]
  · unfold ChatRoomEntryQuery at hreq
    (try simp only [] at hreq) <;> (try split_ifs at hreq) <;> (try split at hreq) <;>
      (try split at hreq) <;>
      simp_all [RongCloud.send, Run.sent, url_ParamEach, url_ParamNotify, Request.Param,
        RongCloud.newRequest, RongCloud.fillHeader, Request.SetTimeout, httplib.Post,
        String.append_assoc]
  · unfold ChatRoomQuery at hreq
    (try simp only [] at hreq) <;> (try split_ifs at hreq) <;> (try split at hreq) <;>
      (try split at hreq) <;>
      simp_all [RongCloud.send, Run.sent, url_ParamEach, url_ParamNotify, Request.Param,
        RongCloud.newRequest, RongCloud.fillHeader, Request.SetTimeout, httplib.Post,
        String.append_assoc]
  · unfold ChatRoomBan at hreq
    (try simp only [] at hreq) <;> (try split_ifs at hreq) <;> (try split at hreq) <;>
      (try split at hreq) <;>
      simp_all [RongCloud.send, Run.sent, url_ParamEach, url_ParamNotify, Request.Param,
        RongCloud.newRequest, RongCloud.fillHeader, Request.SetTimeout, httplib.Post,
        String.append_assoc]
  · unfold ChatRoomBanRollback at hreq
    (try simp only [] at hreq) <;> (try split_ifs at hreq) <;> (try split at hreq) <;>
      (try split at hreq) <;>
      simp_all [RongCloud.send, Run.sent, url_ParamEach, url_ParamNotify, Request.Param,
        RongCloud.newRequest, RongCloud.fillHeader, Request.SetTimeout, httplib.Post,
        String.append_assoc]
  · unfold ChatRoomBanQuery at hreq
    (try simp only [] at hreq) <;> (try split_ifs at hreq) <;> (try split at hreq) <;>
      (try split at hreq) <;>
      simp_all [RongCloud.send, Run.sent, url_ParamEach, url_ParamNotify, Request.Param,
        RongCloud.newRequest, RongCloud.fillHeader, Request.SetTimeout, httplib.Post,
        String.append_assoc]
  · rename_i id
    by_cases hid : id = ""
    · subst hid
      exact absurd hreq (List.not_mem_nil _)
    · rw [ChatRoomBanCheck_sent rc id hid] at hreq
      simp_all [Request.Param, RongCloud.newRequest, RongCloud.fillHeader, Request.SetTimeout,
        httplib.Post, String.append_assoc]
  · unfold ChatRoomUserBanWhitelistAdd at hreq
    (try simp only [] at hreq) <;> (try split_ifs at hreq) <;> (try split at hreq) <;>
      (try split at hreq) <;>
      simp_all [RongCloud.send, Run.sent, url_ParamEach, url_ParamNotify, Request.Param,
        RongCloud.newRequest, RongCloud.fillHeader, Request.SetTimeout, httplib.Post,
        String.append_assoc]
  · unfold ChatRoomUserBanWhitelistRollback at hreq
    (try simp only [] at hreq) <;> (try split_ifs at hreq) <;> (try split at hreq) <;>
      (try split at hreq) <;>
      simp_all [RongCloud.send, Run.sent, url_ParamEach, url_ParamNotify, Request.Param,
        RongCloud.newRequest, RongCloud.fillHeader, Request.SetTimeout, httplib.Post,
        String.append_assoc]
  · unfold ChatRoomUserBanWhitelistQuery at hreq
    (try simp only [] at hreq) <;> (try split_ifs at hreq) <;> (try split at hreq) <;>
      (try split at hreq) <;>
      simp_all [RongCloud.send, Run.sent, url_ParamEach, url_ParamNotify, Request.Param,
        RongCloud.newRequest, RongCloud.fillHeader, Request.SetTimeout, httplib.Post,
        String.append_assoc]

/-! ## C16: the request URL -/

set_option linter.unusedTactic false in
set_option linter.unnecessarySeqFocus false in
set_option linter.unusedVariables false in
set_option linter.unreachableTactic false in
theorem valid_call_sends_one_request (rc : RongCloud)
    (id uid name key value owner : String) (info : GoMap) (ms names ids ks : List String)
    (minute : Nat) (count order destroyType destroyTime size page autoDeleteInt : Int)
    (autoDelete : Bool) (options : List ChatroomOption)
    (hid : id ≠ "") (huid : uid ≠ "") (hname : name ≠ "") (hkey : key ≠ "")
    (hvalue : value ≠ "") (howner : owner ≠ "") (hinfo : info ≠ []) (hms : ms ≠ [])
    (hnames : names ≠ []) (hids : ids ≠ []) (hks : ks.length ≤ 100) (hminute : 0 < minute)
    (hcount : 0 < count) (horder : 0 < order)
    (hinfoMarshal : (rc.json.Marshal info).2 = none)
    (hoptionsMarshal : (rc.json.Marshal (modifyChatroomOptions options).entryInfo).2 = none) :
    (ChatUserExistResObj rc id uid).sent.length = 1 ∧
    (ChatUserExist rc id uid).sent.length = 1 ∧
    (ChatRoomCreate rc id name).sent.length = 1 ∧
    (ChatRoomCreateNew rc id options).sent.length = 1 ∧
    (ChatRoomDestroySet rc id destroyType destroyTime).sent.length = 1 ∧
    (ChatRoomGetNew rc id).sent.length = 1 ∧
    (ChatRoomEntryBatchSet rc id autoDeleteInt owner info).sent.length = 1 ∧
    (ChatRoomDestroy rc id).sent.length = 1 ∧
    (ChatRoomGet rc id count order).sent.length = 1 ∧
    (ChatRoomIsExist rc id ms).sent.length = 1 ∧
    (ChatRoomBlockAdd rc id ms minute options).sent.length = 1 ∧
    (ChatRoomBlockRemove rc id ms options).sent.length = 1 ∧
    (ChatRoomBlockGetList rc id).sent.length = 1 ∧
    (ChatRoomBanAdd rc ms minute options).sent.length = 1 ∧
    (ChatRoomBanRemove rc ms options).sent.length = 1 ∧
    (ChatRoomBanGetList rc).sent.length = 1 ∧
    (ChatRoomGagAdd rc id ms minute options).sent.length = 1 ∧
    (ChatRoomGagRemove rc id ms options).sent.length = 1 ∧
    (ChatRoomGagGetList rc id).sent.length = 1 ∧
    (ChatRoomDemotionAdd rc names).sent.length = 1 ∧
    (ChatRoomDemotionRemove rc names).sent.length = 1 ∧
    (ChatRoomDemotionGetList rc).sent.length = 1 ∧
    (ChatRoomDistributionStop rc id).sent.length = 1 ∧
    (ChatRoomDistributionResume rc id).sent.length = 1 ∧
    (ChatRoomKeepAliveAdd rc id).sent.length = 1 ∧
    (ChatRoomKeepAliveRemove rc id).sent.length = 1 ∧
    (ChatRoomKeepAliveGetList rc).sent.length = 1 ∧
    (ChatRoomWhitelistAdd rc names).sent.length = 1 ∧
    (ChatRoomWhitelistRemove rc names).sent.length = 1 ∧
    (ChatRoomWhitelistGetList rc).sent.length = 1 ∧
    (ChatRoomUserWhitelistAdd rc id ms).sent.length = 1 ∧
    (ChatRoomUserWhitelistRemove rc id ms).sent.length = 1 ∧
    (ChatRoomUserWhitelistGetList rc id).sent.length = 1 ∧
    (ChatRoomMuteMembersAdd rc id ms minute options).sent.length = 1 ∧
    (ChatRoomMuteMembersGetList rc id).sent.length = 1 ∧
    (ChatRoomMuteMembersRemove rc id ms options).sent.length = 1 ∧
    (ChatRoomEntrySet rc id uid key value autoDelete).sent.length = 1 ∧
    (ChatRoomEntryRemove rc id uid key).sent.length = 1 ∧
    (ChatRoomEntryQuery rc id ks).sent.length = 1 ∧
    (ChatRoomQuery rc ids).sent.length = 1 ∧
    (ChatRoomBan rc id options).sent.length = 1 ∧
    (ChatRoomBanRollback rc id options).sent.length = 1 ∧
    (ChatRoomBanQuery rc size page).sent.length = 1 ∧
    (ChatRoomBanCheck rc id).sent.length = 1 ∧
    (ChatRoomUserBanWhitelistAdd rc id ms options).sent.length = 1 ∧
    (ChatRoomUserBanWhitelistRollback rc id ms options).sent.length = 1 ∧
    (ChatRoomUserBanWhitelistQuery rc id).sent.length = 1 := by
  refine ⟨?_, ?_, ?_, ?_, ?_, ?_, ?_, ?_, ?_, ?_, ?_, ?_, ?_, ?_, ?_, ?_, ?_, ?_, ?_, ?_, ?_, ?_,
    ?_, ?_, ?_, ?_, ?_, ?_, ?_, ?_, ?_, ?_, ?_, ?_, ?_, ?_, ?_, ?_, ?_, ?_, ?_, ?_, ?_, ?_,
    ?_, ?_, ?_⟩
  · simp [ChatUserExistResObj, RongCloud.send, len_eq_zero_iff, hid, huid, hname, hkey, hvalue, howner, hinfo, hms, hnames, hids,
      not_lt.mpr hks, Nat.pos_iff_ne_zero.mp hminute, not_le.mpr hcount, not_le.mpr horder] <;>
      repeat' (first | rfl | split)
  · simp [ChatUserExist, RongCloud.send, len_eq_zero_iff, hid, huid, hname, hkey, hvalue, howner, hinfo, hms, hnames, hids,
      not_lt.mpr hks, Nat.pos_iff_ne_zero.mp hminute, not_le.mpr hcount, not_le.mpr horder] <;>
      repeat' (first | rfl | split)
  · simp [ChatRoomCreate, RongCloud.send, len_eq_zero_iff, hid, huid, hname, hkey, hvalue, howner, hinfo, hms, hnames, hids,
      not_lt.mpr hks, Nat.pos_iff_ne_zero.mp hminute, not_le.mpr hcount, not_le.mpr horder] <;>
      repeat' (first | rfl | split)
  · have hm := hoptionsMarshal
    rcases hmar : rc.json.Marshal (modifyChatroomOptions options).entryInfo with ⟨bytes, _ | merr⟩
    · simp [ChatRoomCreateNew, RongCloud.send, hmar, len_eq_zero_iff, hid, huid, hname, hkey, hvalue, howner, hinfo, hms, hnames, hids,
      not_lt.mpr hks, Nat.pos_iff_ne_zero.mp hminute, not_le.mpr hcount, not_le.mpr horder] <;>
        repeat' (first | rfl | split)
    · rw [hmar] at hm
      simp at hm
  · simp [ChatRoomDestroySet, RongCloud.send, len_eq_zero_iff, hid, huid, hname, hkey, hvalue, howner, hinfo, hms, hnames, hids,
      not_lt.mpr hks, Nat.pos_iff_ne_zero.mp hminute, not_le.mpr hcount, not_le.mpr horder] <;>
      repeat' (first | rfl | split)
  · simp [ChatRoomGetNew, RongCloud.send, len_eq_zero_iff, hid, huid, hname, hkey, hvalue, howner, hinfo, hms, hnames, hids,
      not_lt.mpr hks, Nat.pos_iff_ne_zero.mp hminute, not_le.mpr hcount, not_le.mpr horder] <;>
      repeat' (first | rfl | split)
  · have hm := hinfoMarshal
    rcases hmar : rc.json.Marshal info with ⟨bytes, _ | merr⟩
    · simp [ChatRoomEntryBatchSet, RongCloud.send, hmar, len_eq_zero_iff, hid, huid, hname, hkey, hvalue, howner, hinfo, hms, hnames, hids,
      not_lt.mpr hks, Nat.pos_iff_ne_zero.mp hminute, not_le.mpr hcount, not_le.mpr horder] <;>
        repeat' (first | rfl | split)
    · rw [hmar] at hm
      simp at hm
  · simp [ChatRoomDestroy, RongCloud.send, len_eq_zero_iff, hid, huid, hname, hkey, hvalue, howner, hinfo, hms, hnames, hids,
      not_lt.mpr hks, Nat.pos_iff_ne_zero.mp hminute, not_le.mpr hcount, not_le.mpr horder] <;>
      repeat' (first | rfl | split)
  · simp [ChatRoomGet, RongCloud.send, len_eq_zero_iff, hid, huid, hname, hkey, hvalue, howner, hinfo, hms, hnames, hids,
      not_lt.mpr hks, Nat.pos_iff_ne_zero.mp hminute, not_le.mpr hcount, not_le.mpr horder] <;>
      repeat' (first | rfl | split)
  · simp [ChatRoomIsExist, RongCloud.send, len_eq_zero_iff, hid, huid, hname, hkey, hvalue, howner, hinfo, hms, hnames, hids,
      not_lt.mpr hks, Nat.pos_iff_ne_zero.mp hminute, not_le.mpr hcount, not_le.mpr horder] <;>
      repeat' (first | rfl | split)
  · simp [ChatRoomBlockAdd, RongCloud.send, len_eq_zero_iff, hid, huid, hname, hkey, hvalue, howner, hinfo, hms, hnames, hids,
      not_lt.mpr hks, Nat.pos_iff_ne_zero.mp hminute, not_le.mpr hcount, not_le.mpr horder] <;>
      repeat' (first | rfl | split)
  · simp [ChatRoomBlockRemove, RongCloud.send, len_eq_zero_iff, hid, huid, hname, hkey, hvalue, howner, hinfo, hms, hnames, hids,
      not_lt.mpr hks, Nat.pos_iff_ne_zero.mp hminute, not_le.mpr hcount, not_le.mpr horder] <;>
      repeat' (first | rfl | split)
  · simp [ChatRoomBlockGetList, RongCloud.send, len_eq_zero_iff, hid, huid, hname, hkey, hvalue, howner, hinfo, hms, hnames, hids,
      not_lt.mpr hks, Nat.pos_iff_ne_zero.mp hminute, not_le.mpr hcount, not_le.mpr horder] <;>
      repeat' (first | rfl | split)
  · simp [ChatRoomBanAdd, RongCloud.send, len_eq_zero_iff, hid, huid, hname, hkey, hvalue, howner, hinfo, hms, hnames, hids,
      not_lt.mpr hks, Nat.pos_iff_ne_zero.mp hminute, not_le.mpr hcount, not_le.mpr horder] <;>
      repeat' (first | rfl | split)
  · simp [ChatRoomBanRemove, RongCloud.send, len_eq_zero_iff, hid, huid, hname, hkey, hvalue, howner, hinfo, hms, hnames, hids,
      not_lt.mpr hks, Nat.pos_iff_ne_zero.mp hminute, not_le.mpr hcount, not_le.mpr horder] <;>
      repeat' (first | rfl | split)
  · simp [ChatRoomBanGetList, RongCloud.send, len_eq_zero_iff, hid, huid, hname, hkey, hvalue, howner, hinfo, hms, hnames, hids,
      not_lt.mpr hks, Nat.pos_iff_ne_zero.mp hminute, not_le.mpr hcount, not_le.mpr horder] <;>
      repeat' (first | rfl | split)
  · simp [ChatRoomGagAdd, RongCloud.send, len_eq_zero_iff, hid, huid, hname, hkey, hvalue, howner, hinfo, hms, hnames, hids,
      not_lt.mpr hks, Nat.pos_iff_ne_zero.mp hminute, not_le.mpr hcount, not_le.mpr horder] <;>
      repeat' (first | rfl | split)
  · simp [ChatRoomGagRemove, RongCloud.send, len_eq_zero_iff, hid, huid, hname, hkey, hvalue, howner, hinfo, hms, hnames, hids,
      not_lt.mpr hks, Nat.pos_iff_ne_zero.mp hminute, not_le.mpr hcount, not_le.mpr horder] <;>
      repeat' (first | rfl | split)
  · simp [ChatRoomGagGetList, RongCloud.send, len_eq_zero_iff, hid, huid, hname, hkey, hvalue, howner, hinfo, hms, hnames, hids,
      not_lt.mpr hks, Nat.pos_iff_ne_zero.mp hminute, not_le.mpr hcount, not_le.mpr horder] <;>
      repeat' (first | rfl | split)
  · simp [ChatRoomDemotionAdd, RongCloud.send, len_eq_zero_iff, hid, huid, hname, hkey, hvalue, howner, hinfo, hms, hnames, hids,
      not_lt.mpr hks, Nat.pos_iff_ne_zero.mp hminute, not_le.mpr hcount, not_le.mpr horder] <;>
      repeat' (first | rfl | split)
  · simp [ChatRoomDemotionRemove, RongCloud.send, len_eq_zero_iff, hid, huid, hname, hkey, hvalue, howner, hinfo, hms, hnames, hids,
      not_lt.mpr hks, Nat.pos_iff_ne_zero.mp hminute, not_le.mpr hcount, not_le.mpr horder] <;>
      repeat' (first | rfl | split)
  · simp [ChatRoomDemotionGetList, RongCloud.send, len_eq_zero_iff, hid, huid, hname, hkey, hvalue, howner, hinfo, hms, hnames, hids,
      not_lt.mpr hks, Nat.pos_iff_ne_zero.mp hminute, not_le.mpr hcount, not_le.mpr horder] <;>
      repeat' (first | rfl | split)
  · simp [ChatRoomDistributionStop, RongCloud.send, len_eq_zero_iff, hid, huid, hname, hkey, hvalue, howner, hinfo, hms, hnames, hids,
      not_lt.mpr hks, Nat.pos_iff_ne_zero.mp hminute, not_le.mpr hcount, not_le.mpr horder] <;>
      repeat' (first | rfl | split)
  · simp [ChatRoomDistributionResume, RongCloud.send, len_eq_zero_iff, hid, huid, hname, hkey, hvalue, howner, hinfo, hms, hnames, hids,
      not_lt.mpr hks, Nat.pos_iff_ne_zero.mp hminute, not_le.mpr hcount, not_le.mpr horder] <;>
      repeat' (first | rfl | split)
  · simp [ChatRoomKeepAliveAdd, RongCloud.send, len_eq_zero_iff, hid, huid, hname, hkey, hvalue, howner, hinfo, hms, hnames, hids,
      not_lt.mpr hks, Nat.pos_iff_ne_zero.mp hminute, not_le.mpr hcount, not_le.mpr horder] <;>
      repeat' (first | rfl | split)
  · simp [ChatRoomKeepAliveRemove, RongCloud.send, len_eq_zero_iff, hid, huid, hname, hkey, hvalue, howner, hinfo, hms, hnames, hids,
      not_lt.mpr hks, Nat.pos_iff_ne_zero.mp hminute, not_le.mpr hcount, not_le.mpr horder] <;>
      repeat' (first | rfl | split)
  · simp [ChatRoomKeepAliveGetList, RongCloud.send, len_eq_zero_iff, hid, huid, hname, hkey, hvalue, howner, hinfo, hms, hnames, hids,
      not_lt.mpr hks, Nat.pos_iff_ne_zero.mp hminute, not_le.mpr hcount, not_le.mpr horder] <;>
      repeat' (first | rfl | split)
  · simp [ChatRoomWhitelistAdd, RongCloud.send, len_eq_zero_iff, hid, huid, hname, hkey, hvalue, howner, hinfo, hms, hnames, hids,
      not_lt.mpr hks, Nat.pos_iff_ne_zero.mp hminute, not_le.mpr hcount, not_le.mpr horder] <;>
      repeat' (first | rfl | split)
  · simp [ChatRoomWhitelistRemove, RongCloud.send, len_eq_zero_iff, hid, huid, hname, hkey, hvalue, howner, hinfo, hms, hnames, hids,
      not_lt.mpr hks, Nat.pos_iff_ne_zero.mp hminute, not_le.mpr hcount, not_le.mpr horder] <;>
      repeat' (first | rfl | split)
  · simp [ChatRoomWhitelistGetList, RongCloud.send, len_eq_zero_iff, hid, huid, hname, hkey, hvalue, howner, hinfo, hms, hnames, hids,
      not_lt.mpr hks, Nat.pos_iff_ne_zero.mp hminute, not_le.mpr hcount, not_le.mpr horder] <;>
      repeat' (first | rfl | split)
  · simp [ChatRoomUserWhitelistAdd, RongCloud.send, len_eq_zero_iff, hid, huid, hname, hkey, hvalue, howner, hinfo, hms, hnames, hids,
      not_lt.mpr hks, Nat.pos_iff_ne_zero.mp hminute, not_le.mpr hcount, not_le.mpr horder] <;>
      repeat' (first | rfl | split)
  · simp [ChatRoomUserWhitelistRemove, RongCloud.send, len_eq_zero_iff, hid, huid, hname, hkey, hvalue, howner, hinfo, hms, hnames, hids,
      not_lt.mpr hks, Nat.pos_iff_ne_zero.mp hminute, not_le.mpr hcount, not_le.mpr horder] <;>
      repeat' (first | rfl | split)
  · rw [ChatRoomUserWhitelistGetList_sent rc id hid]
    rfl
  · simp [ChatRoomMuteMembersAdd, RongCloud.send, len_eq_zero_iff, hid, huid, hname, hkey, hvalue, howner, hinfo, hms, hnames, hids,
      not_lt.mpr hks, Nat.pos_iff_ne_zero.mp hminute, not_le.mpr hcount, not_le.mpr horder] <;>
      repeat' (first | rfl | split)
  · rw [ChatRoomMuteMembersGetList_sent rc id hid]
    rfl
  · simp [ChatRoomMuteMembersRemove, RongCloud.send, len_eq_zero_iff, hid, huid, hname, hkey, hvalue, howner, hinfo, hms, hnames, hids,
      not_lt.mpr hks, Nat.pos_iff_ne_zero.mp hminute, not_le.mpr hcount, not_le.mpr horder] <;>
      repeat' (first | rfl | split)
  · simp [ChatRoomEntrySet, RongCloud.send, len_eq_zero_iff, hid, huid, hname, hkey, hvalue, howner, hinfo, hms, hnames, hids,
      not_lt.mpr hks, Nat.pos_iff_ne_zero.mp hminute, not_le.mpr hcount, not_le.mpr horder] <;>
      repeat' (first | rfl | split)
  · simp [ChatRoomEntryRemove, RongCloud.send, len_eq_zero_iff, hid, huid, hname, hkey, hvalue, howner, hinfo, hms, hnames, hids,
      not_lt.mpr hks, Nat.pos_iff_ne_zero.mp hminute, not_le.mpr hcount, not_le.mpr horder] <;>
      repeat' (first | rfl | split)
  · simp [ChatRoomEntryQuery, RongCloud.send, len_eq_zero_iff, hid, huid, hname, hkey, hvalue, howner, hinfo, hms, hnames, hids,
      not_lt.mpr hks, Nat.pos_iff_ne_zero.mp hminute, not_le.mpr hcount, not_le.mpr horder] <;>
      repeat' (first | rfl | split)
  · simp [ChatRoomQuery, RongCloud.send, len_eq_zero_iff, hid, huid, hname, hkey, hvalue, howner, hinfo, hms, hnames, hids,
      not_lt.mpr hks, Nat.pos_iff_ne_zero.mp hminute, not_le.mpr hcount, not_le.mpr horder] <;>
      repeat' (first | rfl | split)
  · simp [ChatRoomBan, RongCloud.send, len_eq_zero_iff, hid, huid, hname, hkey, hvalue, howner, hinfo, hms, hnames, hids,
      not_lt.mpr hks, Nat.pos_iff_ne_zero.mp hminute, not_le.mpr hcount, not_le.mpr horder] <;>
      repeat' (first | rfl | split)
  · simp [ChatRoomBanRollback, RongCloud.send, len_eq_zero_iff, hid, huid, hname, hkey, hvalue, howner, hinfo, hms, hnames, hids,
      not_lt.mpr hks, Nat.pos_iff_ne_zero.mp hminute, not_le.mpr hcount, not_le.mpr horder] <;>
      repeat' (first | rfl | split)
  · simp [ChatRoomBanQuery, RongCloud.send, len_eq_zero_iff, hid, huid, hname, hkey, hvalue, howner, hinfo, hms, hnames, hids,
      not_lt.mpr hks, Nat.pos_iff_ne_zero.mp hminute, not_le.mpr hcount, not_le.mpr horder] <;>
      repeat' (first | rfl | split)
  · simp [ChatRoomBanCheck, RongCloud.send, len_eq_zero_iff, hid, huid, hname, hkey, hvalue, howner, hinfo, hms, hnames, hids,
      not_lt.mpr hks, Nat.pos_iff_ne_zero.mp hminute, not_le.mpr hcount, not_le.mpr horder] <;>
      repeat' (first | rfl | split)
  · simp [ChatRoomUserBanWhitelistAdd, RongCloud.send, len_eq_zero_iff, hid, huid, hname, hkey, hvalue, howner, hinfo, hms, hnames, hids,
      not_lt.mpr hks, Nat.pos_iff_ne_zero.mp hminute, not_le.mpr hcount, not_le.mpr horder] <;>
      repeat' (first | rfl | split)
  · simp [ChatRoomUserBanWhitelistRollback, RongCloud.send, len_eq_zero_iff, hid, huid, hname, hkey, hvalue, howner, hinfo, hms, hnames, hids,
      not_lt.mpr hks, Nat.pos_iff_ne_zero.mp hminute, not_le.mpr hcount, not_le.mpr horder] <;>
      repeat' (first | rfl | split)
  · simp [ChatRoomUserBanWhitelistQuery, RongCloud.send, len_eq_zero_iff, hid, huid, hname, hkey, hvalue, howner, hinfo, hms, hnames, hids,
      not_lt.mpr hks, Nat.pos_iff_ne_zero.mp hminute, not_le.mpr hcount, not_le.mpr horder] <;>
      repeat' (first | rfl | split)

theorem sentOne_of_sentTo {α : Type} (o : Outcome α) (url : String)
    (hlen : o.sent.length = 1) (hurl : o.sentTo url) :
    o.sentOne (fun req => req.url = url) := by
  unfold Outcome.sentOne
  rcases hs : o.sent with _ | ⟨req, _ | ⟨r2, rest⟩⟩
  · rw [hs] at hlen
    simp at hlen
  · exact ⟨req, rfl, hurl req (by simp [hs])⟩
  · rw [hs] at hlen
    simp at hlen

theorem run_sentOne_of_sentTo {α : Type} (r : Run α) (url : String)
    (hlen : r.sent.length = 1) (hurl : r.sentTo url) :
    ∃ req, r.sent = [req] ∧ req.url = url := by
  rcases hs : r.sent with _ | ⟨req, _ | ⟨r2, rest⟩⟩
  · rw [hs] at hlen
    simp at hlen
  · exact ⟨req, rfl, hurl req (by simp [hs])⟩
  · rw [hs] at hlen
    simp at hlen

theorem ChatUserExist_sent (rc : RongCloud) (id uid : String) (hid : id ≠ "")
    (huid : uid ≠ "") :
    (ChatUserExist rc id uid).sentOne
      (fun req => req.url = rc.rongCloudURI ++ "/chatroom/user/exist.json") := by
  simp [ChatUserExist, Outcome.sentOne, len_eq_zero_iff, hid, huid]
  rfl

theorem ChatUserExistResObj_sent (rc : RongCloud) (id uid : String) (hid : id ≠ "")
    (huid : uid ≠ "") :
    (ChatUserExistResObj rc id uid).sentOne
      (fun req => req.url = rc.rongCloudURI ++ "/chatroom/user/exist.json") := by
  have h1 : ¬ len id = 0 := by simpa [len_eq_zero_iff] using hid
  have h2 : ¬ len uid = 0 := by simpa [len_eq_zero_iff] using huid
  unfold ChatUserExistResObj
  rw [if_neg h1, if_neg h2]
  simp only []
  split
  · exact ⟨_, rfl, rfl⟩
  · split <;> exact ⟨_, rfl, rfl⟩

/-- C16, counterexample: with the format constant equal to "xml",
`ChatUserExist` and `ChatUserExistResObj` called with valid arguments post to
`/chatroom/user/exist.json`, which is not the URL built from the constant,
while the sibling `ChatRoomCreate` on the same client posts to
`/chatroom/create.xml`. -/
theorem C16_counterexample_user_exist_posts_to_json :
    (ChatUserExist xmlClient "room1" "u1").sent.map Request.url =
      ["http://api.example/chatroom/user/exist.json"] ∧
    (ChatUserExist xmlClient "room1" "u1").sent.map Request.url ≠
      [xmlClient.rongCloudURI ++ "/chatroom/" ++ "user/exist" ++ "." ++ xmlClient.ReqType] ∧
    (ChatUserExistResObj xmlClient "room1" "u1").sent.map Request.url =
      ["http://api.example/chatroom/user/exist.json"] ∧
    (ChatUserExistResObj xmlClient "room1" "u1").sent.map Request.url ≠
      [xmlClient.rongCloudURI ++ "/chatroom/" ++ "user/exist" ++ "." ++ xmlClient.ReqType] ∧
    (ChatRoomCreate xmlClient "room1" "Room One").sent.map Request.url =
      ["http://api.example/chatroom/create.xml"] := by
  refine ⟨by decide, by decide, by decide, by decide, by decide⟩

/-- C16 amended. For every client, whatever its base URI and its format
constant `ReqType`, and every argument list that passes validation and whose
attribute map marshals: each operation other than `ChatUserExist` and
`ChatUserExistResObj` hands exactly one request to the transport, whose URL is
`rongCloudURI ++ "/chatroom/" ++ path ++ "." ++ ReqType` for the fixed path of
the operation.  `ChatUserExist` and `ChatUserExistResObj` hand exactly one
request to the transport, whose URL is `rongCloudURI ++
"/chatroom/user/exist.json"` whatever `ReqType` is; that is the URL of the
general form when `ReqType` is "json". -/
theorem C16_request_url (rc : RongCloud)
    (id uid name key value owner : String) (info : GoMap) (ms names ids ks : List String)
    (minute : Nat) (count order destroyType destroyTime size page autoDeleteInt : Int)
    (autoDelete : Bool) (options : List ChatroomOption)
    (hid : id ≠ "") (huid : uid ≠ "") (hname : name ≠ "") (hkey : key ≠ "")
    (hvalue : value ≠ "") (howner : owner ≠ "") (hinfo : info ≠ []) (hms : ms ≠ [])
    (hnames : names ≠ []) (hids : ids ≠ []) (hks : ks.length ≤ 100) (hminute : 0 < minute)
    (hcount : 0 < count) (horder : 0 < order)
    (hinfoMarshal : (rc.json.Marshal info).2 = none)
    (hoptionsMarshal : (rc.json.Marshal (modifyChatroomOptions options).entryInfo).2 = none) :
    (ChatRoomCreate rc id name).sentOne
      (fun req => req.url = rc.rongCloudURI ++ "/chatroom/" ++ "create" ++ "." ++ rc.ReqType) ∧
    (ChatRoomCreateNew rc id options).sentOne
      (fun req => req.url = rc.rongCloudURI ++ "/chatroom/" ++ "create_new" ++ "." ++ rc.ReqType) ∧
    (ChatRoomDestroySet rc id destroyType destroyTime).sentOne
      (fun req => req.url = rc.rongCloudURI ++ "/chatroom/" ++ "destroy/set" ++ "." ++ rc.ReqType) ∧
    (ChatRoomGetNew rc id).sentOne
      (fun req => req.url = rc.rongCloudURI ++ "/chatroom/" ++ "get" ++ "." ++ rc.ReqType) ∧
    (ChatRoomEntryBatchSet rc id autoDeleteInt owner info).sentOne
      (fun req => req.url = rc.rongCloudURI ++ "/chatroom/" ++ "entry/batch/set" ++ "." ++ rc.ReqType) ∧
    (ChatRoomDestroy rc id).sentOne
      (fun req => req.url = rc.rongCloudURI ++ "/chatroom/" ++ "destroy" ++ "." ++ rc.ReqType) ∧
    (ChatRoomGet rc id count order).sentOne
      (fun req => req.url = rc.rongCloudURI ++ "/chatroom/" ++ "user/query" ++ "." ++ rc.ReqType) ∧
    (ChatRoomIsExist rc id ms).sentOne
      (fun req => req.url = rc.rongCloudURI ++ "/chatroom/" ++ "users/exist" ++ "." ++ rc.ReqType) ∧
    (ChatRoomBlockAdd rc id ms minute options).sentOne
      (fun req => req.url = rc.rongCloudURI ++ "/chatroom/" ++ "user/block/add" ++ "." ++ rc.ReqType) ∧
    (ChatRoomBlockRemove rc id ms options).sentOne
      (fun req => req.url = rc.rongCloudURI ++ "/chatroom/" ++ "user/block/rollback" ++ "." ++ rc.ReqType) ∧
    (ChatRoomBlockGetList rc id).sentOne
      (fun req => req.url = rc.rongCloudURI ++ "/chatroom/" ++ "user/block/list" ++ "." ++ rc.ReqType) ∧
    (ChatRoomBanAdd rc ms minute options).sentOne
      (fun req => req.url = rc.rongCloudURI ++ "/chatroom/" ++ "user/ban/add" ++ "." ++ rc.ReqType) ∧
    (ChatRoomBanRemove rc ms options).sentOne
      (fun req => req.url = rc.rongCloudURI ++ "/chatroom/" ++ "user/ban/remove" ++ "." ++ rc.ReqType) ∧
    (ChatRoomBanGetList rc).sentOne
      (fun req => req.url = rc.rongCloudURI ++ "/chatroom/" ++ "user/ban/query" ++ "." ++ rc.ReqType) ∧
    (ChatRoomGagAdd rc id ms minute options).sentOne
      (fun req => req.url = rc.rongCloudURI ++ "/chatroom/" ++ "user/gag/add" ++ "." ++ rc.ReqType) ∧
    (ChatRoomGagRemove rc id ms options).sentOne
      (fun req => req.url = rc.rongCloudURI ++ "/chatroom/" ++ "user/gag/rollback" ++ "." ++ rc.ReqType) ∧
    (ChatRoomGagGetList rc id).sentOne
      (fun req => req.url = rc.rongCloudURI ++ "/chatroom/" ++ "user/gag/list" ++ "." ++ rc.ReqType) ∧
    (ChatRoomDemotionAdd rc names).sentOne
      (fun req => req.url = rc.rongCloudURI ++ "/chatroom/" ++ "message/priority/add" ++ "." ++ rc.ReqType) ∧
    (ChatRoomDemotionRemove rc names).sentOne
      (fun req => req.url = rc.rongCloudURI ++ "/chatroom/" ++ "message/priority/remove" ++ "." ++ rc.ReqType) ∧
    (ChatRoomDemotionGetList rc).sentOne
      (fun req => req.url = rc.rongCloudURI ++ "/chatroom/" ++ "message/priority/query" ++ "." ++ rc.ReqType) ∧
    (ChatRoomDistributionStop rc id).sentOne
      (fun req => req.url = rc.rongCloudURI ++ "/chatroom/" ++ "message/stopDistribution" ++ "." ++ rc.ReqType) ∧
    (ChatRoomDistributionResume rc id).sentOne
      (fun req => req.url = rc.rongCloudURI ++ "/chatroom/" ++ "message/resumeDistribution" ++ "." ++ rc.ReqType) ∧
    (ChatRoomKeepAliveAdd rc id).sentOne
      (fun req => req.url = rc.rongCloudURI ++ "/chatroom/" ++ "keepalive/add" ++ "." ++ rc.ReqType) ∧
    (ChatRoomKeepAliveRemove rc id).sentOne
      (fun req => req.url = rc.rongCloudURI ++ "/chatroom/" ++ "keepalive/remove" ++ "." ++ rc.ReqType) ∧
    (ChatRoomKeepAliveGetList rc).sentOne
      (fun req => req.url = rc.rongCloudURI ++ "/chatroom/" ++ "keepalive/query" ++ "." ++ rc.ReqType) ∧
    (ChatRoomWhitelistAdd rc names).sentOne
      (fun req => req.url = rc.rongCloudURI ++ "/chatroom/" ++ "whitelist/add" ++ "." ++ rc.ReqType) ∧
    (ChatRoomWhitelistRemove rc names).sentOne
      (fun req => req.url = rc.rongCloudURI ++ "/chatroom/" ++ "whitelist/delete" ++ "." ++ rc.ReqType) ∧
    (ChatRoomWhitelistGetList rc).sentOne
      (fun req => req.url = rc.rongCloudURI ++ "/chatroom/" ++ "whitelist/query" ++ "." ++ rc.ReqType) ∧
    (ChatRoomUserWhitelistAdd rc id ms).sentOne
      (fun req => req.url = rc.rongCloudURI ++ "/chatroom/" ++ "user/whitelist/add" ++ "." ++ rc.ReqType) ∧
    (ChatRoomUserWhitelistRemove rc id ms).sentOne
      (fun req => req.url = rc.rongCloudURI ++ "/chatroom/" ++ "user/whitelist/remove" ++ "." ++ rc.ReqType) ∧
    (∃ req, (ChatRoomUserWhitelistGetList rc id).sent = [req] ∧
      req.url = rc.rongCloudURI ++ "/chatroom/" ++ "user/whitelist/query" ++ "." ++ rc.ReqType) ∧
    (ChatRoomMuteMembersAdd rc id ms minute options).sentOne
      (fun req => req.url = rc.rongCloudURI ++ "/chatroom/" ++ "user/gag/add" ++ "." ++ rc.ReqType) ∧
    (ChatRoomMuteMembersGetList rc id).sentOne
      (fun req => req.url = rc.rongCloudURI ++ "/chatroom/" ++ "user/gag/list" ++ "." ++ rc.ReqType) ∧
    (ChatRoomMuteMembersRemove rc id ms options).sentOne
      (fun req => req.url = rc.rongCloudURI ++ "/chatroom/" ++ "user/gag/rollback" ++ "." ++ rc.ReqType) ∧
    (ChatRoomEntrySet rc id uid key value autoDelete).sentOne
      (fun req => req.url = rc.rongCloudURI ++ "/chatroom/" ++ "entry/set" ++ "." ++ rc.ReqType) ∧
    (ChatRoomEntryRemove rc id uid key).sentOne
      (fun req => req.url = rc.rongCloudURI ++ "/chatroom/" ++ "entry/remove" ++ "." ++ rc.ReqType) ∧
    (ChatRoomEntryQuery rc id ks).sentOne
      (fun req => req.url = rc.rongCloudURI ++ "/chatroom/" ++ "entry/query" ++ "." ++ rc.ReqType) ∧
    (ChatRoomQuery rc ids).sentOne
      (fun req => req.url = rc.rongCloudURI ++ "/chatroom/" ++ "query" ++ "." ++ rc.ReqType) ∧
    (ChatRoomBan rc id options).sentOne
      (fun req => req.url = rc.rongCloudURI ++ "/chatroom/" ++ "ban/add" ++ "." ++ rc.ReqType) ∧
    (ChatRoomBanRollback rc id options).sentOne
      (fun req => req.url = rc.rongCloudURI ++ "/chatroom/" ++ "ban/rollback" ++ "." ++ rc.ReqType) ∧
    (ChatRoomBanQuery rc size page).sentOne
      (fun req => req.url = rc.rongCloudURI ++ "/chatroom/" ++ "ban/query" ++ "." ++ rc.ReqType) ∧
    (ChatRoomBanCheck rc id).sentOne
      (fun req => req.url = rc.rongCloudURI ++ "/chatroom/" ++ "ban/check" ++ "." ++ rc.ReqType) ∧
    (ChatRoomUserBanWhitelistAdd rc id ms options).sentOne
      (fun req => req.url = rc.rongCloudURI ++ "/chatroom/" ++ "user/ban/whitelist/add" ++ "." ++ rc.ReqType) ∧
    (ChatRoomUserBanWhitelistRollback rc id ms options).sentOne
      (fun req => req.url = rc.rongCloudURI ++ "/chatroom/" ++ "user/ban/whitelist/rollback" ++ "." ++ rc.ReqType) ∧
    (ChatRoomUserBanWhitelistQuery rc id).sentOne
      (fun req => req.url = rc.rongCloudURI ++ "/chatroom/" ++ "user/ban/whitelist/query" ++ "." ++ rc.ReqType) ∧
    (ChatUserExist rc id uid).sentOne
      (fun req => req.url = rc.rongCloudURI ++ "/chatroom/user/exist.json") ∧
    (ChatUserExistResObj rc id uid).sentOne
      (fun req => req.url = rc.rongCloudURI ++ "/chatroom/user/exist.json") ∧
    (rc.ReqType = "json" → (ChatUserExist rc id uid).sentOne
      (fun req => req.url = rc.rongCloudURI ++ "/chatroom/" ++ "user/exist" ++ "." ++ rc.ReqType)) ∧
    (rc.ReqType = "json" → (ChatUserExistResObj rc id uid).sentOne
      (fun req => req.url = rc.rongCloudURI ++ "/chatroom/" ++ "user/exist" ++ "." ++ rc.ReqType)) := by
  obtain ⟨l0, l1, l2, l3, l4, l5, l6, l7, l8, l9, l10, l11, l12, l13, l14, l15, l16, l17, l18, l19,
    l20, l21, l22, l23, l24, l25, l26, l27, l28, l29, l30, l31, l32, l33, l34, l35, l36, l37,
    l38, l39, l40, l41, l42, l43, l44, l45, l46⟩ :=
    valid_call_sends_one_request rc id uid name key value owner info ms names ids ks minute
      count order destroyType destroyTime size page autoDeleteInt autoDelete options hid huid
      hname hkey hvalue howner hinfo hms hnames hids hks hminute hcount horder hinfoMarshal
      hoptionsMarshal
  obtain ⟨u0, u1, u2, u3, u4, u5, u6, u7, u8, u9, u10, u11, u12, u13, u14, u15, u16, u17, u18, u19,
    u20, u21, u22, u23, u24, u25, u26, u27, u28, u29, u30, u31, u32, u33, u34, u35, u36, u37,
    u38, u39, u40, u41, u42, u43, u44⟩ :=
    url_of_every_other_operation rc
  refine ⟨?_, ?_, ?_, ?_, ?_, ?_, ?_, ?_, ?_, ?_, ?_, ?_, ?_, ?_, ?_, ?_, ?_, ?_, ?_, ?_, ?_, ?_,
    ?_, ?_, ?_, ?_, ?_, ?_, ?_, ?_, ?_, ?_, ?_, ?_, ?_, ?_, ?_, ?_, ?_, ?_, ?_, ?_, ?_, ?_,
    ?_, ?_, ?_, ?_, ?_⟩
  · exact sentOne_of_sentTo _ _ l2 (u0 _ _)
  · exact sentOne_of_sentTo _ _ l3 (u1 _ _)
  · exact sentOne_of_sentTo _ _ l4 (u2 _ _ _)
  · exact sentOne_of_sentTo _ _ l5 (u3 _)
  · exact sentOne_of_sentTo _ _ l6 (u4 _ _ _ _)
  · exact sentOne_of_sentTo _ _ l7 (u5 _)
  · exact sentOne_of_sentTo _ _ l8 (u6 _ _ _)
  · exact sentOne_of_sentTo _ _ l9 (u7 _ _)
  · exact sentOne_of_sentTo _ _ l10 (u8 _ _ _ _)
  · exact sentOne_of_sentTo _ _ l11 (u9 _ _ _)
  · exact sentOne_of_sentTo _ _ l12 (u10 _)
  · exact sentOne_of_sentTo _ _ l13 (u11 _ _ _)
  · exact sentOne_of_sentTo _ _ l14 (u12 _ _)
  · exact sentOne_of_sentTo _ _ l15 u13
  · exact sentOne_of_sentTo _ _ l16 (u14 _ _ _ _)
  · exact sentOne_of_sentTo _ _ l17 (u15 _ _ _)
  · exact sentOne_of_sentTo _ _ l18 (u16 _)
  · exact sentOne_of_sentTo _ _ l19 (u17 _)
  · exact sentOne_of_sentTo _ _ l20 (u18 _)
  · exact sentOne_of_sentTo _ _ l21 u19
  · exact sentOne_of_sentTo _ _ l22 (u20 _)
  · exact sentOne_of_sentTo _ _ l23 (u21 _)
  · exact sentOne_of_sentTo _ _ l24 (u22 _)
  · exact sentOne_of_sentTo _ _ l25 (u23 _)
  · exact sentOne_of_sentTo _ _ l26 u24
  · exact sentOne_of_sentTo _ _ l27 (u25 _)
  · exact sentOne_of_sentTo _ _ l28 (u26 _)
  · exact sentOne_of_sentTo _ _ l29 u27
  · exact sentOne_of_sentTo _ _ l30 (u28 _ _)
  · exact sentOne_of_sentTo _ _ l31 (u29 _ _)
  · exact run_sentOne_of_sentTo _ _ l32 (u30 _)
  · exact sentOne_of_sentTo _ _ l33 (u31 _ _ _ _)
  · exact sentOne_of_sentTo _ _ l34 (u32 _)
  · exact sentOne_of_sentTo _ _ l35 (u33 _ _ _)
  · exact sentOne_of_sentTo _ _ l36 (u34 _ _ _ _ _)
  · exact sentOne_of_sentTo _ _ l37 (u35 _ _ _)
  · exact sentOne_of_sentTo _ _ l38 (u36 _ _)
  · exact sentOne_of_sentTo _ _ l39 (u37 _)
  · exact sentOne_of_sentTo _ _ l40 (u38 _ _)
  · exact sentOne_of_sentTo _ _ l41 (u39 _ _)
  · exact sentOne_of_sentTo _ _ l42 (u40 _ _)
  · exact sentOne_of_sentTo _ _ l43 (u41 _)
  · exact sentOne_of_sentTo _ _ l44 (u42 _ _ _)
  · exact sentOne_of_sentTo _ _ l45 (u43 _ _ _)
  · exact sentOne_of_sentTo _ _ l46 (u44 _)
  · exact ChatUserExist_sent rc id uid hid huid
  · exact ChatUserExistResObj_sent rc id uid hid huid
  · intro hjson
    obtain ⟨req, hsent, hreq⟩ := ChatUserExist_sent rc id uid hid huid
    refine ⟨req, hsent, ?_⟩
    simp only [hreq, hjson, String.append_assoc]
    rfl
  · intro hjson
    obtain ⟨req, hsent, hreq⟩ := ChatUserExistResObj_sent rc id uid hid huid
    refine ⟨req, hsent, ?_⟩
    simp only [hreq, hjson, String.append_assoc]
    rfl

/-- C16 amended, at concrete calls on a client whose format constant is "xml":
`ChatRoomDestroy` posts to `/chatroom/destroy.xml` and `ChatUserExist` posts to
`/chatroom/user/exist.json`. -/
theorem C16_request_url_witness :
    "room1" ≠ "" ∧ "u1" ≠ "" ∧
    (ChatRoomDestroy xmlClient "room1").sentOne
      (fun req => req.url = "http://api.example" ++ "/chatroom/" ++ "destroy" ++ "." ++ "xml") ∧
    (ChatUserExist xmlClient "room1" "u1").sentOne
      (fun req => req.url = "http://api.example" ++ "/chatroom/user/exist.json") :=
  have h := C16_request_url xmlClient
    "room1" "u1" "n" "k" "v" "o" [("a", GoValue.nil)] ["u1"] ["t"] ["room1"] ["k"] 1 1 1 0 60
    10 1 0 true [] (by decide) (by decide) (by decide) (by decide) (by decide) (by decide)
    (by simp) (by decide) (by decide) (by decide) (by decide) (by decide) (by decide)
    (by decide) rfl rfl
  ⟨by decide, by decide, h.2.2.2.2.2.1, h.2.2.2.2.2.2.2.2.2.2.2.2.2.2.2.2.2.2.2.2.2.2.2.2.2.2.2.2.2.2.2.2.2.2.2.2.2.2.2.2.2.2.2.2.2.1⟩

/-! ## C17: the empty member list of `ChatRoomIsExist` -/

/-- C17, the code at the failing input: with a non-empty room ID and an empty
member list `ChatRoomIsExist` sends no request and returns an error with code
1002, but its message names 'count', not the offending parameter `members`. -/
theorem C17_is_exist_names_count_for_empty_members (rc : RongCloud) :
    (ChatRoomIsExist rc "room1" []).sent = [] ∧
    (ChatRoomIsExist rc "room1" []).err =
      some (RCErrorNew 1002 "Paramer 'count' is required") ∧
    (ChatRoomIsExist rc "room1" []).err ≠
      some (RCErrorNew 1002 "Paramer 'members' is required") := by
  have herr : (ChatRoomIsExist rc "room1" []).err =
      some (RCErrorNew 1002 "Paramer 'count' is required") := rfl
  refine ⟨rfl, herr, ?_⟩
  rw [herr]
  decide

/-! ## C18: the ban check -/

/-- C18. For every non-empty room ID and every response body that the
transport returns without error and that unmarshals into `{code, status}`,
`ChatRoomBanCheck` returns no error, and it returns true if and only if the
decoded status equals 1; every other status, an absent one included, gives
false.  The body `{"code":200,"status":1}` yields true. -/
theorem C18_ban_check_is_status_one (rc : RongCloud) (chatroomId : String) (resp : Bytes)
    (data : BanCheckData) (hid : chatroomId ≠ "")
    (hdo : ∀ req, rc.do_ req = (resp, none))
    (hdec : rc.json.UnmarshalBanCheckData resp {} = (data, none)) :
    ((ChatRoomBanCheck rc chatroomId).value = true ↔ data.Status = 1) ∧
    (data.Status ≠ 1 → (ChatRoomBanCheck rc chatroomId).value = false) ∧
    (ChatRoomBanCheck rc chatroomId).err = none ∧
    ((ChatRoomBanCheck (replyClient "\x7b\"code\":200,\"status\":1\x7d") "room1").value = true ∧
      (ChatRoomBanCheck (replyClient "\x7b\"code\":200,\"status\":1\x7d") "room1").err = none ∧
      (ChatRoomBanCheck (replyClient "\x7b\"code\":200,\"status\":0\x7d") "room1").value = false ∧
      (ChatRoomBanCheck (replyClient "\x7b\"code\":200,\"status\":0\x7d") "room1").err = none ∧
      (ChatRoomBanCheck (replyClient "\x7b\"code\":200\x7d") "room1").value = false ∧
      (ChatRoomBanCheck (replyClient "\x7b\"code\":200\x7d") "room1").err = none) := by
  refine ⟨?_, ?_, ?_, by decide, by decide, by decide, by decide, by decide, by decide⟩
  · simp only [ChatRoomBanCheck, if_neg hid, hdo, hdec]
    by_cases hst : data.Status = 1 <;> simp [hst]
  · intro hst
    simp only [ChatRoomBanCheck, if_neg hid, hdo, hdec]
    simp [hst]
  · simp only [ChatRoomBanCheck, if_neg hid, hdo, hdec]
    by_cases hst : data.Status = 1 <;> simp [hst]

/-- C18, at a concrete call: the body `{"code":200,"status":1}` decodes to
status 1 and `ChatRoomBanCheck` returns true. -/
theorem C18_ban_check_is_status_one_witness :
    "room1" ≠ "" ∧
    (ChatRoomBanCheck (replyClient "\x7b\"code\":200,\"status\":1\x7d") "room1").value = true :=
  ⟨by decide,
    (C18_ban_check_is_status_one (replyClient "\x7b\"code\":200,\"status\":1\x7d") "room1"
      "\x7b\"code\":200,\"status\":1\x7d" { Code := 200, Status := 1 } (by decide)
      (fun _ => rfl) (by decide)).1.mpr rfl⟩

/-! ## C19: the remove operations keep no state -/

theorem statelessOn_of_send {σ : Type} (srv : Service σ) (rc : RongCloud) (s : σ)
    (op : RongCloud → Outcome Unit) (path : String) (params : List (String × String))
    (hop : ∀ c : RongCloud, op c =
      c.send { c.newRequest (c.rongCloudURI ++ path ++ c.ReqType) with params := params }) :
    statelessOn srv rc op s := by
  unfold statelessOn twice
  simp only [hop, RongCloud.send]
  refine ⟨_, _, rfl, rfl, ?_, ?_, ?_, ?_, ?_, ?_, ?_⟩
  · simp [Request.withoutHeader, RongCloud.newRequest, RongCloud.fillHeader, RongCloud.inState,
      Service.after, httplib.Post, Request.SetTimeout]
  · simp [RongCloud.newRequest, RongCloud.fillHeader, RongCloud.inState, httplib.Post,
      Request.SetTimeout]
  · simp [RongCloud.newRequest, RongCloud.fillHeader, RongCloud.inState, Service.after,
      httplib.Post, Request.SetTimeout]
  · intro h
    simp [RongCloud.newRequest, RongCloud.fillHeader, RongCloud.inState, Service.after,
      httplib.Post, Request.SetTimeout] at h ⊢
    exact h
  · simp [RongCloud.inState]
  · simp [RongCloud.inState, Service.after]
  · intro hok
    simp [RongCloud.inState, hok]

theorem send_notify_eq (rc : RongCloud) (url : String) (ps : List (String × String))
    (o : chatroomOptions) :
    rc.send (Request.ParamNotify { rc.newRequest url with params := ps } o) =
      rc.send { rc.newRequest url with
        params := ps ++ (if o.needNotify then [("needNotify", "true"), ("extra", o.extra)]
          else []) } := by
  unfold Request.ParamNotify
  cases h : o.needNotify
  · simp
  · simp [Request.Param, strconv.FormatBool]

theorem param_eq (rc : RongCloud) (url : String) (ps : List (String × String)) (k v : String) :
    Request.Param { rc.newRequest url with params := ps } k v =
      { rc.newRequest url with params := ps ++ [(k, v)] } := rfl

theorem paramEach_eq (rc : RongCloud) (url : String) (ps : List (String × String)) (k : String)
    (vs : List String) :
    Request.ParamEach { rc.newRequest url with params := ps } k vs =
      { rc.newRequest url with params := ps ++ vs.map (fun v => (k, v)) } := by
  rw [ParamEach_eq]

theorem newRequest_eq (rc : RongCloud) (url : String) :
    rc.newRequest url = { rc.newRequest url with params := [] } := rfl

/-- C19. Every remove operation is stateless.  For every valid argument list,
every client and every transport, whatever state the transport keeps and
however it answers: two successive calls on the one client each hand exactly
one request to the transport; the two requests agree in all that the operation
builds (method, URL, time-outs, form fields), each carries the headers that the
hook injects at its time, and they are the same request when the hook injects
the same headers; the error of each call is the error of the transport's reply
to its own request; and against a transport that always returns success both
calls return a nil error. -/
theorem C19_remove_operations_are_stateless {σ : Type} (srv : Service σ) (rc : RongCloud)
    (s : σ) (id : String) (ms : List String) (options : List ChatroomOption)
    (hid : id ≠ "") (hms : ms ≠ []) :
    statelessOn srv rc (fun c => ChatRoomBanRollback c id options) s ∧
    statelessOn srv rc (fun c => ChatRoomBanRemove c ms options) s ∧
    statelessOn srv rc (fun c => ChatRoomGagRemove c id ms options) s ∧
    statelessOn srv rc (fun c => ChatRoomMuteMembersRemove c id ms options) s ∧
    statelessOn srv rc (fun c => ChatRoomBlockRemove c id ms options) s ∧
    statelessOn srv rc (fun c => ChatRoomKeepAliveRemove c id) s ∧
    statelessOn srv rc (fun c => ChatRoomUserWhitelistRemove c id ms) s ∧
    statelessOn srv rc (fun c => ChatRoomUserBanWhitelistRollback c id ms options) s := by
  refine ⟨?_, ?_, ?_, ?_, ?_, ?_, ?_, ?_⟩
  · exact statelessOn_of_send srv rc s _ "/chatroom/ban/rollback." _ (fun c => by
    rw [ChatRoomBanRollback_valid c id options hid, newRequest_eq, param_eq, send_notify_eq])
  · exact statelessOn_of_send srv rc s _ "/chatroom/user/ban/remove." _ (fun c => by
    rw [ChatRoomBanRemove_valid c ms options hms, newRequest_eq, paramEach_eq, send_notify_eq])
  · exact statelessOn_of_send srv rc s _ "/chatroom/user/gag/rollback." _ (fun c => by
    rw [ChatRoomGagRemove_valid c id ms options hid hms, newRequest_eq, paramEach_eq,
      param_eq, send_notify_eq])
  · exact statelessOn_of_send srv rc s _ "/chatroom/user/gag/rollback." _ (fun c => by
    rw [ChatRoomMuteMembersRemove_valid c id ms options hid hms, newRequest_eq, paramEach_eq,
      param_eq, send_notify_eq])
  · exact statelessOn_of_send srv rc s _ "/chatroom/user/block/rollback." _ (fun c => by
    rw [ChatRoomBlockRemove_valid c id ms options hid hms, newRequest_eq, paramEach_eq,
      param_eq, send_notify_eq])
  · exact statelessOn_of_send srv rc s _ "/chatroom/keepalive/remove." _ (fun c => by
    simp only [ChatRoomKeepAliveRemove, if_neg hid]
    rw [newRequest_eq, param_eq])
  · exact statelessOn_of_send srv rc s _ "/chatroom/user/whitelist/remove." _ (fun c => by
    rw [ChatRoomUserWhitelistRemove_valid c id ms hid hms, newRequest_eq, param_eq,
      paramEach_eq])
  · exact statelessOn_of_send srv rc s _ "/chatroom/user/ban/whitelist/rollback." _
      (fun c => by
    rw [ChatRoomUserBanWhitelistRollback_valid c id ms options hid hms, newRequest_eq,
      paramEach_eq, param_eq, send_notify_eq])

/-- C19, at concrete calls: `ChatRoomGagRemove` called twice on one client
against a service that conditions removal on prior presence and changes its
headers with its state.  The calls are stateless in the sense above; the first
returns nil and the second returns the error of the service, so the operation
adds no condition of its own. -/
theorem C19_remove_operations_are_stateless_witness :
    "room1" ≠ "" ∧ ["u1"] ≠ [] ∧
    statelessOn presenceService stubClient (fun c => ChatRoomGagRemove c "room1" ["u1"] [])
      ["u1", "u2"] ∧
    (twice presenceService stubClient (fun c => ChatRoomGagRemove c "room1" ["u1"] [])
      ["u1", "u2"]).1.err = none ∧
    (twice presenceService stubClient (fun c => ChatRoomGagRemove c "room1" ["u1"] [])
      ["u1", "u2"]).2.err = some (Error.transport "not present") :=
  ⟨by decide, by decide,
    (C19_remove_operations_are_stateless presenceService stubClient ["u1", "u2"] "room1" ["u1"]
      [] (by decide) (by decide)).2.2.1,
    by decide, by decide⟩

/-! ## C20: the decimal text of the duration -/

theorem digitChar_value (k : Nat) (h : k < 10) : (Nat.digitChar k).toNat - 48 = k := by
  interval_cases k <;> rfl

theorem digitChar_isDigit (k : Nat) (h : k < 10) : (Nat.digitChar k).isDigit = true := by
  interval_cases k <;> rfl

theorem natOfDigits_toDigitsCore (fuel n : Nat) (ds : List Char) (h : n < fuel) :
    (Nat.toDigitsCore 10 fuel n ds).foldl (fun n c => 10 * n + (c.toNat - 48)) 0 =
      ds.foldl (fun n c => 10 * n + (c.toNat - 48)) n := by
  induction fuel generalizing n ds with
  | zero => omega
  | succ fuel ih =>
    unfold Nat.toDigitsCore
    by_cases h0 : n / 10 = 0
    · simp only [h0, if_true, List.foldl_cons]
      rw [digitChar_value _ (Nat.mod_lt _ (by norm_num))]
      have hn : n % 10 = n := by omega
      simp [hn]
    · simp only [h0, if_false]
      rw [ih (n / 10) _ (by omega)]
      simp only [List.foldl_cons]
      rw [digitChar_value _ (Nat.mod_lt _ (by norm_num))]
      congr 1
      omega

theorem all_isDigit_toDigitsCore (fuel n : Nat) (ds : List Char)
    (hds : ds.all Char.isDigit = true) :
    (Nat.toDigitsCore 10 fuel n ds).all Char.isDigit = true := by
  induction fuel generalizing n ds with
  | zero => exact hds
  | succ fuel ih =>
    unfold Nat.toDigitsCore
    have hd : (Nat.digitChar (n % 10) :: ds).all Char.isDigit = true := by
      simp only [List.all_cons, Bool.and_eq_true]
      exact ⟨digitChar_isDigit _ (Nat.mod_lt _ (by norm_num)), hds⟩
    by_cases h0 : n / 10 = 0
    · simp only [h0, if_true]
      exact hd
    · simp only [h0, if_false]
      exact ih _ _ hd

theorem toDigitsCore_ne_nil (fuel n : Nat) (ds : List Char) (hds : ds ≠ []) :
    Nat.toDigitsCore 10 fuel n ds ≠ [] := by
  induction fuel generalizing n ds with
  | zero => exact hds
  | succ fuel ih =>
    unfold Nat.toDigitsCore
    by_cases h0 : n / 10 = 0
    · simp [h0]
    · simp only [h0, if_false]
      exact ih _ _ (by simp)

theorem parseDecimal_repr (n : Nat) : parseDecimal (Nat.repr n) = some n := by
  have hdata : (Nat.repr n).data = Nat.toDigitsCore 10 (n + 1) n [] := rfl
  have hne : Nat.toDigitsCore 10 (n + 1) n [] ≠ [] := by
    unfold Nat.toDigitsCore
    by_cases h0 : n / 10 = 0
    · simp [h0]
    · simp only [h0, if_false]
      exact toDigitsCore_ne_nil _ _ _ (by simp)
  have hall := all_isDigit_toDigitsCore (n + 1) n [] rfl
  have hval := natOfDigits_toDigitsCore (n + 1) n [] (by omega)
  unfold parseDecimal
  rw [hdata]
  simp only [List.foldl_nil] at hval
  simp [hne, hall, json.natOfDigits, hval]

theorem intOfUint_of_lt (n : Nat) (h : n < 2 ^ 63) : intOfUint n = (n : Int) := by
  unfold intOfUint int64
  have h1 : n % 2 ^ 64 = n := Nat.mod_eq_of_lt (by omega)
  rw [h1]
  simp only [Int.ofNat_eq_coe]
  omega

theorem Itoa_intOfUint_of_lt (n : Nat) (h : n < 2 ^ 63) :
    strconv.Itoa (intOfUint n) = Nat.repr n := by
  rw [intOfUint_of_lt n h]
  unfold strconv.Itoa
  simp

/-- C20, the code at the failing input and below it.  For every duration
`0 < minute < 2^63` and every otherwise valid call of the four Add operations,
the request has exactly one "minute" field, its value is the decimal
representation of `minute`, and parsing it as a natural number gives `minute`
back.  For `minute = 2^63`, a value of the 64-bit type `uint`, the conversion
`int(minute)` wraps and the field is "-9223372036854775808", which is not the
decimal representation of `minute` and does not parse as a natural number. -/
theorem C20_minute_field_is_decimal_below_2_63 (rc : RongCloud) (id : String)
    (ms : List String) (minute : Nat) (options : List ChatroomOption)
    (hid : id ≠ "") (hms : ms ≠ []) (hpos : 0 < minute) (hlt : minute < 2 ^ 63) :
    (ChatRoomBlockAdd rc id ms minute options).sentOne
      (fun req => req.values "minute" = [Nat.repr minute] ∧
        (req.values "minute").map parseDecimal = [some minute]) ∧
    (ChatRoomBanAdd rc ms minute options).sentOne
      (fun req => req.values "minute" = [Nat.repr minute] ∧
        (req.values "minute").map parseDecimal = [some minute]) ∧
    (ChatRoomGagAdd rc id ms minute options).sentOne
      (fun req => req.values "minute" = [Nat.repr minute] ∧
        (req.values "minute").map parseDecimal = [some minute]) ∧
    (ChatRoomMuteMembersAdd rc id ms minute options).sentOne
      (fun req => req.values "minute" = [Nat.repr minute] ∧
        (req.values "minute").map parseDecimal = [some minute]) ∧
    ((2 : Nat) ^ 63 < 2 ^ 64) ∧
    (ChatRoomBlockAdd stubClient "room1" ["u1"] (2 ^ 63) []).sent.map (fun req => req.values "minute") =
      [["-9223372036854775808"]] ∧
    (ChatRoomBanAdd stubClient ["u1"] (2 ^ 63) []).sent.map (fun req => req.values "minute") =
      [["-9223372036854775808"]] ∧
    (ChatRoomGagAdd stubClient "room1" ["u1"] (2 ^ 63) []).sent.map (fun req => req.values "minute") =
      [["-9223372036854775808"]] ∧
    (ChatRoomMuteMembersAdd stubClient "room1" ["u1"] (2 ^ 63) []).sent.map (fun req => req.values "minute") =
      [["-9223372036854775808"]] ∧
    "-9223372036854775808" ≠ Nat.repr (2 ^ 63) ∧
    parseDecimal "-9223372036854775808" = none := by
  refine ⟨?_, ?_, ?_, ?_, by decide, by decide, by decide, by decide, by decide, by decide,
    by decide⟩
  · rw [ChatRoomBlockAdd_valid rc id ms minute options hid hms (by omega)]
    refine ⟨_, rfl, ?_⟩
    simp [values_Param, values_ParamEach, values_ParamNotify, values_newRequest,
      Itoa_intOfUint_of_lt minute hlt, parseDecimal_repr]
  · rw [ChatRoomBanAdd_valid rc ms minute options hms (by omega)]
    refine ⟨_, rfl, ?_⟩
    simp [values_Param, values_ParamEach, values_ParamNotify, values_newRequest,
      Itoa_intOfUint_of_lt minute hlt, parseDecimal_repr]
  · rw [ChatRoomGagAdd_valid rc id ms minute options hid hms (by omega)]
    refine ⟨_, rfl, ?_⟩
    simp [values_Param, values_ParamEach, values_ParamNotify, values_newRequest,
      Itoa_intOfUint_of_lt minute hlt, parseDecimal_repr]
  · rw [ChatRoomMuteMembersAdd_valid rc id ms minute options hid hms (by omega)]
    refine ⟨_, rfl, ?_⟩
    simp [values_Param, values_ParamEach, values_ParamNotify, values_newRequest,
      Itoa_intOfUint_of_lt minute hlt, parseDecimal_repr]

/-- C20, at a concrete call: 43200 minutes go out as the field "43200". -/
theorem C20_minute_field_is_decimal_below_2_63_witness :
    "room1" ≠ "" ∧ ["u1"] ≠ [] ∧ 0 < 43200 ∧ 43200 < 2 ^ 63 ∧
    (ChatRoomGagAdd stubClient "room1" ["u1"] 43200 []).sentOne
      (fun req => req.values "minute" = [Nat.repr 43200] ∧
        (req.values "minute").map parseDecimal = [some 43200]) :=
  ⟨by decide, by decide, by decide, by decide,
    (C20_minute_field_is_decimal_below_2_63 stubClient "room1" ["u1"] 43200 [] (by decide)
      (by decide) (by decide) (by decide)).2.2.1⟩

/-! ## C21: the mute operations are the gag operations -/

/-- C21. `ChatRoomMuteMembersAdd` is equivalent to `ChatRoomGagAdd`, and
`ChatRoomMuteMembersRemove` to `ChatRoomGagRemove`: for every room ID, member
list, duration and option list, the two operations of a pair return the same
validation error or else build the same request (same URL, same form fields
with the same values in the same order) and return the same result for the
same reply of the transport.  This holds on one client, and also across two
clients with the same configuration whose transports give the same replies,
whatever else differs between them. -/
theorem C21_mute_members_is_gag (rc1 rc2 : RongCloud) (id : String) (members : List String)
    (minute : Nat) (options : List ChatroomOption)
    (huri : rc1.rongCloudURI = rc2.rongCloudURI) (htype : rc1.ReqType = rc2.ReqType)
    (htime : rc1.timeout = rc2.timeout) (hhead : rc1.headers = rc2.headers)
    (hdo : rc1.do_ = rc2.do_) :
    ChatRoomMuteMembersAdd rc1 id members minute options =
      ChatRoomGagAdd rc1 id members minute options ∧
    ChatRoomMuteMembersRemove rc1 id members options =
      ChatRoomGagRemove rc1 id members options ∧
    ChatRoomMuteMembersAdd rc1 id members minute options =
      ChatRoomGagAdd rc2 id members minute options ∧
    ChatRoomMuteMembersRemove rc1 id members options =
      ChatRoomGagRemove rc2 id members options := by
  have hreq : ∀ url, rc1.newRequest url = rc2.newRequest url := by
    intro url
    simp [RongCloud.newRequest, RongCloud.fillHeader, htime, hhead]
  have hsend : ∀ req, rc1.send req = rc2.send req := by
    intro req
    simp [RongCloud.send, hdo]
  refine ⟨?_, ?_, ?_, ?_⟩
  · unfold ChatRoomMuteMembersAdd ChatRoomGagAdd
    rfl
  · unfold ChatRoomMuteMembersRemove ChatRoomGagRemove
    rfl
  · unfold ChatRoomMuteMembersAdd ChatRoomGagAdd
    split_ifs
    · rfl
    · rfl
    · rfl
    · simp only [huri, htype, hreq, hsend]
  · unfold ChatRoomMuteMembersRemove ChatRoomGagRemove
    split_ifs
    · rfl
    · rfl
    · simp only [huri, htype, hreq, hsend]

/-- C21, at concrete calls: on two clients that differ only in their codec, a
mute call and the gag call return the same outcome, here one request to
`/chatroom/user/gag/add.json` with the fields userId, chatroomId, minute. -/
theorem C21_mute_members_is_gag_witness :
    stubClient.rongCloudURI = (replyClient "\x7b\"code\":200\x7d").rongCloudURI ∧
    stubClient.do_ = (replyClient "\x7b\"code\":200\x7d").do_ ∧
    ChatRoomMuteMembersAdd stubClient "room1" ["u1", "u2"] 5 [] =
      ChatRoomGagAdd (replyClient "\x7b\"code\":200\x7d") "room1" ["u1", "u2"] 5 [] ∧
    (ChatRoomMuteMembersAdd stubClient "room1" ["u1", "u2"] 5 []).sent.map
        (fun req => (req.url, req.params)) =
      [("http://api.example/chatroom/user/gag/add.json",
        [("userId", "u1"), ("userId", "u2"), ("chatroomId", "room1"), ("minute", "5")])] :=
  ⟨rfl, rfl,
    (C21_mute_members_is_gag stubClient (replyClient "\x7b\"code\":200\x7d") "room1"
      ["u1", "u2"] 5 [] rfl rfl rfl rfl rfl).2.2.1,
    by decide⟩

end sdk
